import Mathlib

/-!
# GrainEye chart renderer

A shallow embedding of `DrawGraph` (src/GrainEYE.cpp, lines 573-778), the routine that
draws the grain-size histogram and the cumulative grain-size curve, together with the two
calls that `WM_PAINT` makes to it, the button workflow of `WndProc` (`WM_CREATE` and
`WM_COMMAND`, lines 198-377, with `ShowImage` and `DoAnalysis`), and the colour choice of
`DrawModernButton` (lines 843-868).

Conventions of the embedding:

* C++ `int` values are integers in `ℤ`; signed overflow is undefined behaviour in C++ and the
  surfaces handled here are far from the range limits. `int / int` is `Int.tdiv` (the
  quotient is truncated toward zero).
* C++ `double` values are rationals in `ℚ`. The functions in the namespace `Binary64`
  evaluate a `double` expression as the machine does (IEEE 754 arithmetic in the default
  rounding mode, one binary64 instruction per operation): every literal and every operation
  is rounded to the nearest binary64 number, ties to even (`binary64`); a conversion of an
  `int` to `double` is exact, an `int` having 32 bits. The trace of `DrawGraph` takes the
  horizontal positions of the bars (line 659) and the vertices of the curve (lines 715 and
  716) from these functions. The functions of the same names outside that namespace
  evaluate the expression in exact rational arithmetic, the decimal literals (`0.25`,
  `0.45`, `100.0`, `1.5`) denoting the corresponding rationals; the trace takes the bar
  heights (line 658) and the label rectangle of line 681 from them.
* The conversion `(int)d` of a `double`, and the implicit conversion of a `double` to the
  `LONG` field of a `RECT`, truncate toward zero (`truncToInt`).
* The observable effect of `DrawGraph` is the sequence of GDI drawing calls it issues, in
  program order (`DrawCmd`). Creating, selecting and deleting pens, brushes, fonts and
  bitmaps is not recorded.
-/

namespace GrainEye

/-! ## Machine arithmetic -/

/-- Conversion of a `double` to an integer type, `(int)d`: the fractional part is discarded,
that is, the value is truncated toward zero. -/
def truncToInt (q : ℚ) : ℤ := if 0 ≤ q then ⌊q⌋ else ⌈q⌉

/-- Rounding to the nearest integer, a tie going to the even neighbour. -/
def roundHalfEven (q : ℚ) : ℤ :=
  if q - ⌊q⌋ < 1 / 2 then ⌊q⌋
  else if 1 / 2 < q - ⌊q⌋ then ⌊q⌋ + 1
  else if ⌊q⌋ % 2 = 0 then ⌊q⌋ else ⌊q⌋ + 1

/-- The exponent `e` of the binade `[2 ^ e, 2 ^ (e + 1))` that holds `|x|`, and the least
binary64 exponent `-1022` for the values below `2 ^ (-1022)`. -/
def binade (x : ℚ) : ℤ := max (Int.log 2 |x|) (-1022)

/-- The spacing of the binary64 numbers in the binade of `x`: a binary64 significand has
53 bits, so the spacing is `2 ^ (e - 52)`. -/
def ulp (x : ℚ) : ℚ := (2 : ℚ) ^ (binade x - 52)

/-- The binary64 (IEEE 754 `double`) number nearest to `x`, a tie going to the even
significand: the value of a `double` literal, or the result of one `double` operation whose
exact result is `x`. Overflow to infinity (`|x| ≥ 2 ^ 1024`) is not represented; the values
that `DrawGraph` computes from `int` arguments stay far below. -/
def binary64 (x : ℚ) : ℚ := (roundHalfEven (x / ulp x) : ℚ) * ulp x

/-! ## Drawing commands -/

/-- The Win32 `RECT` structure. -/
structure RECT where
  left : ℤ
  top : ℤ
  right : ℤ
  bottom : ℤ
  deriving DecidableEq, Repr

/-- The Win32 `POINT` structure. -/
structure POINT where
  x : ℤ
  y : ℤ
  deriving DecidableEq, Repr

/-- The `DrawText` format flags that `DrawGraph` uses. -/
inductive DTFlag where
  | DT_CENTER
  | DT_VCENTER
  | DT_SINGLELINE
  deriving DecidableEq, Repr

/-- The GDI drawing calls issued by `DrawGraph`, with their geometric arguments.
`FillRect` targets the off-screen memory DC (`hdcMem`); every other call targets the
window DC (`hdc`). -/
inductive DrawCmd where
  | FillRect (rc : RECT)
  | AlphaBlend (x y width height : ℤ)
  | RoundRect (left top right bottom w h : ℤ)
  | DrawText (text : String) (rc : RECT) (format : List DTFlag)
  | MoveToEx (x y : ℤ)
  | LineTo (x y : ℤ)
  | Rectangle (left top right bottom : ℤ)
  | Polyline (points : List POINT)
  | Ellipse (left top right bottom : ℤ)
  deriving DecidableEq, Repr

/-! ## Layout (lines 604-608) -/

/-- Line 605: `int graphLeft = x + 60;` -/
def graphLeft (x : ℤ) : ℤ := x + 60

/-- Line 606: `int graphRight = x + width - 30;` -/
def graphRight (x width : ℤ) : ℤ := x + width - 30

/-- Line 607: `int graphTop = y + 50;` -/
def graphTop (y : ℤ) : ℤ := y + 50

/-- Line 608: `int graphBottom = y + height - 50;` -/
def graphBottom (y height : ℤ) : ℤ := y + height - 50

/-! ## Histogram arithmetic (lines 648-663), for an arbitrary dataset -/

/-- Lines 651-654: the scan loop
`maxCount = 0; for (...) if (counts[i] > maxCount) maxCount = counts[i];`. -/
def maxCountOf (cs : List ℤ) : ℤ :=
  cs.foldl (fun maxCount c => if c > maxCount then c else maxCount) 0

/-- Line 648: `int barWidth = (graphRight - graphLeft) / 15;` -/
def barWidthOf (gLeft gRight : ℤ) : ℤ := Int.tdiv (gRight - gLeft) 15

/-- Line 658:
`int barHeight = (int)((double)counts[i] / maxCount * (graphBottom - graphTop));` -/
def barHeightOf (cs : List ℤ) (gTop gBottom : ℤ) (i : ℕ) : ℤ :=
  truncToInt (((cs.getD i 0 : ℤ) : ℚ) / ((maxCountOf cs : ℤ) : ℚ)
    * ((gBottom - gTop : ℤ) : ℚ))

/-- Line 659: `int barX = graphLeft +
(int)((grainSizes[i] - 0.25) / 0.45 * (graphRight - graphLeft - barWidth));`, the `double`
expression evaluated in exact rational arithmetic. -/
def barXOf (gs : List ℚ) (gLeft gRight : ℤ) (i : ℕ) : ℤ :=
  gLeft + truncToInt ((gs.getD i 0 - 0.25) / 0.45
    * ((gRight - gLeft - barWidthOf gLeft gRight : ℤ) : ℚ))

/-- Line 660: `int barY = graphBottom - barHeight;` -/
def barYOf (cs : List ℤ) (gTop gBottom : ℤ) (i : ℕ) : ℤ :=
  gBottom - barHeightOf cs gTop gBottom i

/-! ## Cumulative-curve arithmetic (lines 699-718), for an arbitrary dataset -/

/-- Lines 701-702: `int total = 0; for (...) total += counts[i];` -/
def totalOf (cs : List ℤ) : ℤ := cs.foldl (fun total c => total + c) 0

/-- Lines 704-707: the array `cumulativePercent`, built incrementally:
`cumulativePercent[0] = (counts[0] * 100.0) / total;` and, for `i ≥ 1`,
`cumulativePercent[i] = cumulativePercent[i - 1] + (counts[i] * 100.0) / total;`. -/
def cumulativePercentOf (cs : List ℤ) : ℕ → ℚ
  | 0 => (((cs.getD 0 0 : ℤ) : ℚ) * 100.0) / ((totalOf cs : ℤ) : ℚ)
  | i + 1 => cumulativePercentOf cs i
      + (((cs.getD (i + 1) 0 : ℤ) : ℚ) * 100.0) / ((totalOf cs : ℤ) : ℚ)

/-- Line 715:
`int xPos = graphLeft + (int)((grainSizes[i] - 0.25) / 0.45 * (graphRight - graphLeft));`,
the `double` expression evaluated in exact rational arithmetic. -/
def xPosOf (gs : List ℚ) (gLeft gRight : ℤ) (i : ℕ) : ℤ :=
  gLeft + truncToInt ((gs.getD i 0 - 0.25) / 0.45 * ((gRight - gLeft : ℤ) : ℚ))

/-- Line 716: `int yPos = graphBottom -
(int)(cumulativePercent[i] / 100.0 * (graphBottom - graphTop));`, the `double` expression
evaluated in exact rational arithmetic. -/
def yPosOf (cs : List ℤ) (gTop gBottom : ℤ) (i : ℕ) : ℤ :=
  gBottom - truncToInt (cumulativePercentOf cs i / 100.0 * ((gBottom - gTop : ℤ) : ℚ))

namespace Binary64

/-- The sub-expression `(grainSizes[i] - 0.25) / 0.45` of lines 659 and 715, as the machine
evaluates it: the three literals, the difference and the quotient are each rounded to
binary64. -/
def normalised (gs : List ℚ) (i : ℕ) : ℚ :=
  binary64 (binary64 (binary64 (gs.getD i 0) - binary64 0.25) / binary64 0.45)

/-- Line 659, `barX`, as the machine evaluates it: the product of the normalised size and
the `int` value `graphRight - graphLeft - barWidth` is rounded to binary64 and then
truncated by `(int)`. -/
def barXOf (gs : List ℚ) (gLeft gRight : ℤ) (i : ℕ) : ℤ :=
  gLeft + truncToInt (binary64 (normalised gs i
    * ((gRight - gLeft - barWidthOf gLeft gRight : ℤ) : ℚ)))

/-- Line 715, `xPos`, as the machine evaluates it. -/
def xPosOf (gs : List ℚ) (gLeft gRight : ℤ) (i : ℕ) : ℤ :=
  gLeft + truncToInt (binary64 (normalised gs i * ((gRight - gLeft : ℤ) : ℚ)))

/-- Lines 704-707, the array `cumulativePercent`, as the machine evaluates it: the product
`counts[i] * 100.0`, the quotient by `total` and the sum with the previous entry are each
rounded to binary64. -/
def cumulativePercentOf (cs : List ℤ) : ℕ → ℚ
  | 0 => binary64 (binary64 (((cs.getD 0 0 : ℤ) : ℚ) * binary64 100.0)
      / ((totalOf cs : ℤ) : ℚ))
  | i + 1 => binary64 (cumulativePercentOf cs i
      + binary64 (binary64 (((cs.getD (i + 1) 0 : ℤ) : ℚ) * binary64 100.0)
        / ((totalOf cs : ℤ) : ℚ)))

/-- Line 716, `yPos`, as the machine evaluates it: the quotient by `100.0` and the product
with the `int` value `graphBottom - graphTop` are each rounded to binary64, and the product
is truncated by `(int)`. -/
def yPosOf (cs : List ℤ) (gTop gBottom : ℤ) (i : ℕ) : ℤ :=
  gBottom - truncToInt (binary64 (binary64 (cumulativePercentOf cs i / binary64 100.0)
    * ((gBottom - gTop : ℤ) : ℚ)))

end Binary64

/-- The cumulative percentage as the data model words it: the running sum of
`counts[0..i]` divided by the total count, expressed as a percentage. -/
def specCumulativePercent (cs : List ℤ) (i : ℕ) : ℚ :=
  100 * (((cs.take (i + 1)).sum : ℤ) : ℚ) / ((cs.sum : ℤ) : ℚ)

/-! ## The dataset of the histogram branch (lines 639-640) -/

namespace Histogram

/-- Line 639: `double grainSizes[] = { 0.25, 0.30, ..., 0.70 };` -/
def grainSizes : List ℚ := [0.25, 0.30, 0.35, 0.40, 0.45, 0.50, 0.55, 0.60, 0.65, 0.70]

/-- Line 640: `int counts[] = { 5, 10, 20, 25, 20, 10, 5, 3, 2, 1 };` -/
def counts : List ℤ := [5, 10, 20, 25, 20, 10, 5, 3, 2, 1]

/-- The value of `maxCount` after the scan loop over the histogram's `counts`. -/
def maxCount : ℤ := maxCountOf counts

/-- The value of `barWidth` for the surface `(x, width)`. -/
def barWidth (x width : ℤ) : ℤ := barWidthOf (graphLeft x) (graphRight x width)

/-- The value of `barHeight` in iteration `i` of the bar loop. -/
def barHeight (y height : ℤ) (i : ℕ) : ℤ :=
  barHeightOf counts (graphTop y) (graphBottom y height) i

/-- The value of `barX` in iteration `i` of the bar loop, in exact rational arithmetic. -/
def barX (x width : ℤ) (i : ℕ) : ℤ :=
  barXOf grainSizes (graphLeft x) (graphRight x width) i

/-- The value of `barY` in iteration `i` of the bar loop. -/
def barY (y height : ℤ) (i : ℕ) : ℤ :=
  barYOf counts (graphTop y) (graphBottom y height) i

end Histogram

/-! ## The dataset of the cumulative-curve branch (lines 696-697) -/

namespace Cumulative

/-- Line 696: `double grainSizes[] = { 0.25, 0.30, ..., 0.70 };` -/
def grainSizes : List ℚ := [0.25, 0.30, 0.35, 0.40, 0.45, 0.50, 0.55, 0.60, 0.65, 0.70]

/-- Line 697: `int counts[] = { 5, 10, 20, 25, 20, 10, 5, 3, 2, 1 };` -/
def counts : List ℤ := [5, 10, 20, 25, 20, 10, 5, 3, 2, 1]

/-- The value of `total` after the summing loop over the curve's `counts`. -/
def total : ℤ := totalOf counts

/-- The entry `cumulativePercent[i]` of the array filled at lines 704-707. -/
def cumulativePercent (i : ℕ) : ℚ := cumulativePercentOf counts i

/-- The value of `xPos` in iteration `i` of the vertex loop, in exact rational arithmetic. -/
def xPos (x width : ℤ) (i : ℕ) : ℤ :=
  xPosOf grainSizes (graphLeft x) (graphRight x width) i

/-- The value of `yPos` in iteration `i` of the vertex loop, in exact rational arithmetic. -/
def yPos (y height : ℤ) (i : ℕ) : ℤ :=
  yPosOf counts (graphTop y) (graphBottom y height) i

/-- Lines 713-718: the array `points`, in exact rational arithmetic. -/
def points (x y width height : ℤ) : List POINT :=
  (List.range 10).map fun i => { x := xPos x width i, y := yPos y height i }

end Cumulative

/-! ## The positions that the machine computes (binary64) -/

namespace Binary64

/-- The value of `barX` in iteration `i` of the bar loop, as computed in binary64. -/
def barX (x width : ℤ) (i : ℕ) : ℤ :=
  barXOf Histogram.grainSizes (graphLeft x) (graphRight x width) i

/-- The value of `xPos` in iteration `i` of the vertex loop, as computed in binary64. -/
def xPos (x width : ℤ) (i : ℕ) : ℤ :=
  xPosOf Cumulative.grainSizes (graphLeft x) (graphRight x width) i

/-- The value of `yPos` in iteration `i` of the vertex loop, as computed in binary64. -/
def yPos (y height : ℤ) (i : ℕ) : ℤ :=
  yPosOf Cumulative.counts (graphTop y) (graphBottom y height) i

/-- Lines 713-718: the array `points`, as computed in binary64. -/
def points (x y width height : ℤ) : List POINT :=
  (List.range 10).map fun i => { x := xPos x width i, y := yPos y height i }

end Binary64

/-! ## The command trace of `DrawGraph` -/

/-- The title that selects the histogram branch (line 637). -/
def histogramTitle : String := "Grain Size Distribution"

/-- The title that selects the cumulative-curve branch (line 694). -/
def cumulativeTitle : String := "Cumulative Grain Size Curve"

/-- Lines 579-593: background fill into the memory DC, `AlphaBlend` onto the window DC,
and the rounded border drawn by `DrawRoundedRect(hdc, x, y, width, height, 10, ...)`, which
calls `RoundRect(hdc, x, y, x + width, y + height, radius, radius)` (line 785). -/
def backgroundCmds (x y width height : ℤ) : List DrawCmd :=
  [ DrawCmd.FillRect { left := 0, top := 0, right := width, bottom := height },
    DrawCmd.AlphaBlend x y width height,
    DrawCmd.RoundRect x y (x + width) (y + height) 10 10 ]

/-- Lines 601-602: the title, in `titleRect = { x, y + 10, x + width, y + 36 }`. -/
def titleCmds (x y width : ℤ) (title : String) : List DrawCmd :=
  [ DrawCmd.DrawText title { left := x, top := y + 10, right := x + width, bottom := y + 36 }
      [DTFlag.DT_CENTER, DTFlag.DT_SINGLELINE] ]

/-- Line 616: `int yPos = graphBottom - i * (graphBottom - graphTop) / 5;` -/
def hGridY (y height i : ℤ) : ℤ :=
  graphBottom y height - Int.tdiv (i * (graphBottom y height - graphTop y)) 5

/-- Line 623: `int xPos = graphLeft + i * (graphRight - graphLeft) / 10;` -/
def vGridX (x width i : ℤ) : ℤ :=
  graphLeft x + Int.tdiv (i * (graphRight x width - graphLeft x)) 10

/-- Lines 615-619: the loop `for (int i = 0; i <= 5; i++)` of horizontal grid lines. -/
def horizontalGridCmds (x y width height : ℤ) : List DrawCmd :=
  (List.range 6).flatMap fun i =>
    [ DrawCmd.MoveToEx (graphLeft x) (hGridY y height i),
      DrawCmd.LineTo (graphRight x width) (hGridY y height i) ]

/-- Lines 622-626: the loop `for (int i = 0; i <= 10; i++)` of vertical grid lines. -/
def verticalGridCmds (x y width height : ℤ) : List DrawCmd :=
  (List.range 11).flatMap fun i =>
    [ DrawCmd.MoveToEx (vGridX x width i) (graphTop y),
      DrawCmd.LineTo (vGridX x width i) (graphBottom y height) ]

/-- Lines 632-635: the two axes. -/
def axisCmds (x y width height : ℤ) : List DrawCmd :=
  [ DrawCmd.MoveToEx (graphLeft x) (graphBottom y height),
    DrawCmd.LineTo (graphRight x width) (graphBottom y height),
    DrawCmd.MoveToEx (graphLeft x) (graphTop y),
    DrawCmd.LineTo (graphLeft x) (graphBottom y height) ]

/-- Lines 672-673 and 743-744: the x-axis label, the same in both branches. -/
def xAxisLabelCmd (x y width height : ℤ) : DrawCmd :=
  DrawCmd.DrawText "Grain Size (mm)"
    { left := x, top := y + height - 65, right := x + width, bottom := y + height }
    [DTFlag.DT_CENTER, DTFlag.DT_VCENTER, DTFlag.DT_SINGLELINE]

namespace Histogram

/-- Lines 657-663: one `Rectangle(hdc, barX, barY, barX + barWidth, graphBottom)` per bin,
with `barX` as the machine computes it. -/
def barCmds (x y width height : ℤ) : List DrawCmd :=
  (List.range 10).map fun i =>
    DrawCmd.Rectangle (Binary64.barX x width i) (barY y height i)
      (Binary64.barX x width i + barWidth x width) (graphBottom y height)

/-- Line 681: `RECT vertRect = { x + 1, y + height / 1.5 - 80, x + 108,
y + height / 1.5 + 80 };` where the two `double` expressions are converted to `LONG`. -/
def vertRect (x y height : ℤ) : RECT :=
  { left := x + 1,
    top := truncToInt ((y : ℚ) + (height : ℚ) / 1.5 - 80),
    right := x + 108,
    bottom := truncToInt ((y : ℚ) + (height : ℚ) / 1.5 + 80) }

/-- Lines 637-693: the histogram branch. -/
def branchCmds (x y width height : ℤ) : List DrawCmd :=
  barCmds x y width height ++
  [ xAxisLabelCmd x y width height,
    DrawCmd.DrawText "Frequency" (vertRect x y height)
      [DTFlag.DT_CENTER, DTFlag.DT_VCENTER, DTFlag.DT_SINGLELINE] ]

end Histogram

namespace Cumulative

/-- Lines 727-729: one marker
`Ellipse(hdc, points[i].x - 4, points[i].y - 4, points[i].x + 4, points[i].y + 4)` per
vertex, with `points` as the machine computes it. -/
def markerCmds (x y width height : ℤ) : List DrawCmd :=
  (Binary64.points x y width height).map fun p =>
    DrawCmd.Ellipse (p.x - 4) (p.y - 4) (p.x + 4) (p.y + 4)

/-- Line 753:
`RECT vertRect = { x + 5, y + height / 1 - 210, x + 159, y + height / 1 + 85 };` -/
def vertRect (x y height : ℤ) : RECT :=
  { left := x + 5,
    top := y + Int.tdiv height 1 - 210,
    right := x + 159,
    bottom := y + Int.tdiv height 1 + 85 }

/-- Lines 694-766: the cumulative-curve branch. -/
def branchCmds (x y width height : ℤ) : List DrawCmd :=
  [ DrawCmd.Polyline (Binary64.points x y width height) ] ++
  markerCmds x y width height ++
  [ xAxisLabelCmd x y width height,
    DrawCmd.DrawText "Cumulative % Passing" (vertRect x y height)
      [DTFlag.DT_CENTER, DTFlag.DT_VCENTER, DTFlag.DT_SINGLELINE] ]

end Cumulative

/-- Lines 573-778: `void DrawGraph(HDC hdc, int x, int y, int width, int height,
const std::wstring& title)`, as the sequence of drawing calls it issues. The routine has
no guard on its arguments: every statement up to the branch on `title` is executed for
every input. -/
def DrawGraph (x y width height : ℤ) (title : String) : List DrawCmd :=
  backgroundCmds x y width height ++
  titleCmds x y width title ++
  horizontalGridCmds x y width height ++
  verticalGridCmds x y width height ++
  axisCmds x y width height ++
  (if title = histogramTitle then Histogram.branchCmds x y width height
   else if title = cumulativeTitle then Cumulative.branchCmds x y width height
   else [])

/-- How a call of a C++ routine ends: the drawing calls it issued, and the name of the
exception type it threw, `none` when it returned normally. -/
structure Run where
  cmds : List DrawCmd
  thrown : Option String
  deriving DecidableEq, Repr

/-- A call of `DrawGraph`. The body (lines 573-778) contains no `throw` and no `return`
statement, so every call runs to the closing brace and returns normally. -/
def runDrawGraph (x y width height : ℤ) (title : String) : Run :=
  { cmds := DrawGraph x y width height title, thrown := none }

/-- Lines 485-488 of `WndProc`, `WM_PAINT`: the two calls
`DrawGraph(hdc, 520, 200, 330, 260, L"Grain Size Distribution")` and
`DrawGraph(hdc, 870, 200, 330, 260, L"Cumulative Grain Size Curve")`, made when the Save
button is enabled. -/
def paintGraphs (saveEnabled : Bool) : List DrawCmd :=
  if saveEnabled then
    DrawGraph 520 200 330 260 histogramTitle ++ DrawGraph 870 200 330 260 cumulativeTitle
  else []

/-! ## Observations on a command trace -/

/-- The number of line segments a trace draws with `LineTo`: each `LineTo` draws one
segment, from the current position set by the preceding `MoveToEx`. -/
def lineSegments (cmds : List DrawCmd) : ℕ :=
  cmds.countP fun c =>
    match c with
    | DrawCmd.LineTo _ _ => true
    | _ => false

/-- The point `(px, py)` lies in the surface rectangle `[x, x + width] × [y, y + height]`. -/
def pointInSurface (x y width height px py : ℤ) : Bool :=
  decide (x ≤ px ∧ px ≤ x + width ∧ y ≤ py ∧ py ≤ y + height)

/-- Both corners `(left, top)` and `(right, bottom)` lie in the surface rectangle. -/
def rectInSurface (x y width height left top right bottom : ℤ) : Bool :=
  pointInSurface x y width height left top && pointInSurface x y width height right bottom

/-- Every point and every rectangle that the command passes to a drawing primitive of the
window DC lies in the surface rectangle. `FillRect` paints the off-screen bitmap, in that
bitmap's own coordinates, and passes nothing to the window DC. -/
def DrawCmd.inSurface (x y width height : ℤ) : DrawCmd → Bool
  | DrawCmd.FillRect _ => true
  | DrawCmd.AlphaBlend dx dy w h => rectInSurface x y width height dx dy (dx + w) (dy + h)
  | DrawCmd.RoundRect l t r b _ _ => rectInSurface x y width height l t r b
  | DrawCmd.DrawText _ rc _ => rectInSurface x y width height rc.left rc.top rc.right rc.bottom
  | DrawCmd.MoveToEx px py => pointInSurface x y width height px py
  | DrawCmd.LineTo px py => pointInSurface x y width height px py
  | DrawCmd.Rectangle l t r b => rectInSurface x y width height l t r b
  | DrawCmd.Polyline pts => pts.all fun p => pointInSurface x y width height p.x p.y
  | DrawCmd.Ellipse l t r b => rectInSurface x y width height l t r b

/-! ## The divisions of `DrawGraph`, with the zero divisor made explicit -/

/-- A division `a / b` of `double` values; `none` when the divisor is zero. -/
def divChecked (a b : ℚ) : Option ℚ := if b = 0 then none else some (a / b)

/-- A division `a / b` of `int` values; `none` when the divisor is zero. -/
def tdivChecked (a b : ℤ) : Option ℤ := if b = 0 then none else some (Int.tdiv a b)

/-- Line 616, `graphBottom - i * (graphBottom - graphTop) / 5`, with the division checked. -/
def hGridYChecked (y height i : ℤ) : Option ℤ :=
  (tdivChecked (i * (graphBottom y height - graphTop y)) 5).map fun q =>
    graphBottom y height - q

/-- Line 623, `graphLeft + i * (graphRight - graphLeft) / 10`, with the division checked. -/
def vGridXChecked (x width i : ℤ) : Option ℤ :=
  (tdivChecked (i * (graphRight x width - graphLeft x)) 10).map fun q => graphLeft x + q

/-- Line 648, `(graphRight - graphLeft) / 15`, with the division checked. -/
def barWidthChecked (gLeft gRight : ℤ) : Option ℤ := tdivChecked (gRight - gLeft) 15

/-- Line 658, with the division by `maxCount` checked. -/
def barHeightChecked (cs : List ℤ) (gTop gBottom : ℤ) (i : ℕ) : Option ℤ :=
  (divChecked ((cs.getD i 0 : ℤ) : ℚ) ((maxCountOf cs : ℤ) : ℚ)).map fun r =>
    truncToInt (r * ((gBottom - gTop : ℤ) : ℚ))

/-- Line 659, with the division by `0.45` (and the one inside `barWidth`) checked. -/
def barXChecked (gs : List ℚ) (gLeft gRight : ℤ) (i : ℕ) : Option ℤ :=
  (barWidthChecked gLeft gRight).bind fun bw =>
    (divChecked (gs.getD i 0 - 0.25) 0.45).map fun r =>
      gLeft + truncToInt (r * ((gRight - gLeft - bw : ℤ) : ℚ))

/-- Lines 704-707, with every division by `total` checked. -/
def cumulativePercentChecked (cs : List ℤ) : ℕ → Option ℚ
  | 0 => divChecked (((cs.getD 0 0 : ℤ) : ℚ) * 100.0) ((totalOf cs : ℤ) : ℚ)
  | i + 1 =>
    (cumulativePercentChecked cs i).bind fun prev =>
      (divChecked (((cs.getD (i + 1) 0 : ℤ) : ℚ) * 100.0) ((totalOf cs : ℤ) : ℚ)).map fun q =>
        prev + q

/-- Line 715, with the division by `0.45` checked. -/
def xPosChecked (gs : List ℚ) (gLeft gRight : ℤ) (i : ℕ) : Option ℤ :=
  (divChecked (gs.getD i 0 - 0.25) 0.45).map fun r =>
    gLeft + truncToInt (r * ((gRight - gLeft : ℤ) : ℚ))

/-- Line 716, with the divisions by `total` and by `100.0` checked. -/
def yPosChecked (cs : List ℤ) (gTop gBottom : ℤ) (i : ℕ) : Option ℤ :=
  (cumulativePercentChecked cs i).bind fun p =>
    (divChecked p 100.0).map fun r => gBottom - truncToInt (r * ((gBottom - gTop : ℤ) : ℚ))

/-- Line 681, with the two divisions `height / 1.5` checked. -/
def histVertRectChecked (x y height : ℤ) : Option RECT :=
  (divChecked (height : ℚ) 1.5).bind fun t =>
    (divChecked (height : ℚ) 1.5).map fun b =>
      { left := x + 1, top := truncToInt ((y : ℚ) + t - 80),
        right := x + 108, bottom := truncToInt ((y : ℚ) + b + 80) }

/-- Line 753, with the two divisions `height / 1` checked. -/
def curveVertRectChecked (x y height : ℤ) : Option RECT :=
  (tdivChecked height 1).bind fun t =>
    (tdivChecked height 1).map fun b =>
      { left := x + 5, top := y + t - 210, right := x + 159, bottom := y + b + 85 }

/-! ## The button workflow of `WndProc` (lines 198-377) -/

/-- The part of the application state that the button workflow reads and writes: the
enabled state of the six buttons (`IsWindowEnabled`), the global `imagePath`, and whether
the global pointer `uploadedImage` is non-null. -/
structure AppState where
  uploadEnabled : Bool
  analyzeEnabled : Bool
  saveEnabled : Bool
  restartEnabled : Bool
  fetchLocEnabled : Bool
  tagEnabled : Bool
  imagePath : String
  uploadedImage : Bool
  deriving DecidableEq, Repr

/-- The state after `WM_CREATE` (lines 198-304): Analyze, Tag, Save and Restart are
created with `WS_DISABLED`, Upload and Fetch Location without it; the globals `imagePath`
and `uploadedImage` still have their initial values (lines 64-65), empty and `nullptr`. -/
def wmCreate : AppState :=
  { uploadEnabled := true, analyzeEnabled := false, saveEnabled := false,
    restartEnabled := false, fetchLocEnabled := true, tagEnabled := false,
    imagePath := "", uploadedImage := false }

/-- Lines 525-532, `ShowImage`: the previous image is deleted and `uploadedImage` is set
to the result of `Image::FromFile`, a newly allocated `Image` object. -/
def ShowImage (s : AppState) : AppState := { s with uploadedImage := true }

/-- Lines 534-566, `DoAnalysis`: `EnableWindow(hSaveBtn, TRUE)`,
`EnableWindow(hRestartBtn, TRUE)` and `EnableWindow(hTagBtn, TRUE)`. -/
def DoAnalysis (s : AppState) : AppState :=
  { s with saveEnabled := true, restartEnabled := true, tagEnabled := true }

/-- Lines 307-377, `WM_COMMAND` with command identifier `id = LOWORD(wParam)`. For the
Upload command `chosen` is the outcome of `GetOpenFileNameW`: `some szFile` when the user
picked a file, `none` when the dialog was cancelled. -/
def wmCommand (id : ℕ) (chosen : Option String) (s : AppState) : AppState :=
  match id with
  | 1 =>
    match chosen with
    | some szFile => { ShowImage { s with imagePath := szFile } with analyzeEnabled := true }
    | none => s
  | 2 => DoAnalysis s
  | 3 => s
  | 4 =>
    { s with imagePath := "", uploadedImage := false, analyzeEnabled := false,
             saveEnabled := false, restartEnabled := false, tagEnabled := false }
  | 5 => { s with tagEnabled := true }
  | 6 => s
  | _ => s

/-- The enabled state of the button with command identifier `id`
(1 Upload, 2 Analyze, 3 Save, 4 Restart, 5 Fetch Location, 6 Tag). -/
def buttonEnabled (s : AppState) (id : ℕ) : Bool :=
  match id with
  | 1 => s.uploadEnabled
  | 2 => s.analyzeEnabled
  | 3 => s.saveEnabled
  | 4 => s.restartEnabled
  | 5 => s.fetchLocEnabled
  | 6 => s.tagEnabled
  | _ => false

/-- One click: the command identifier of the button and, for Upload, the outcome of the
file dialog. -/
structure Click where
  id : ℕ
  chosen : Option String
  deriving DecidableEq, Repr

/-- A click the user can make in state `s`: the button is enabled, and a file picked in
the Upload dialog has a non-empty path. -/
def Click.possible (s : AppState) (c : Click) : Bool :=
  buttonEnabled s c.id && (c.chosen != some "")

/-- The state after a click, `none` when the click is not possible in `s`. -/
def clickStep (s : AppState) (c : Click) : Option AppState :=
  if c.possible s then some (wmCommand c.id c.chosen s) else none

/-- The state after a sequence of clicks, starting from `s`; `none` when one of them is not
possible in the state it meets. -/
def clickRun (s : AppState) : List Click → Option AppState
  | [] => some s
  | c :: cs => (clickStep s c).bind fun s1 => clickRun s1 cs

/-- The invariant of the button workflow: Save and Restart are enabled together; when Save
is enabled so are Analyze and Tag; and when Analyze is enabled an image has been uploaded
(`imagePath` is non-empty and `uploadedImage` is non-null). -/
def AppState.workflowInv (s : AppState) : Prop :=
  s.saveEnabled = s.restartEnabled ∧
  (s.saveEnabled = true → s.analyzeEnabled = true ∧ s.tagEnabled = true) ∧
  (s.analyzeEnabled = true → s.imagePath ≠ "" ∧ s.uploadedImage = true)

instance (s : AppState) : Decidable s.workflowInv := by
  unfold AppState.workflowInv
  infer_instance

/-! ## Owner-drawn buttons (lines 74-104 and 843-902) -/

/-- A `COLORREF` value, given by the three bytes passed to the `RGB` macro. -/
structure COLORREF where
  r : ℕ
  g : ℕ
  b : ℕ
  deriving DecidableEq, Repr

/-- The `RGB(r, g, b)` macro. -/
def RGB (r g b : ℕ) : COLORREF := { r := r, g := g, b := b }

/-- Line 81: `const COLORREF BUTTON_BG = RGB(45, 45, 45);` -/
def BUTTON_BG : COLORREF := RGB 45 45 45

/-- Line 92: `const COLORREF TAG_GREEN = RGB(16, 160, 70);` -/
def TAG_GREEN : COLORREF := RGB 16 160 70

/-- Line 93: `const COLORREF TAG_GREEN_HOVER = RGB(24, 200, 90);` -/
def TAG_GREEN_HOVER : COLORREF := RGB 24 200 90

/-- Line 94: `const COLORREF TAG_GREEN_ACTIVE = RGB(12, 130, 55);` -/
def TAG_GREEN_ACTIVE : COLORREF := RGB 12 130 55

/-- Lines 97-104: `struct CustomButton`; the window handle is a number. -/
structure CustomButton where
  hwnd : ℕ
  isHovered : Bool
  isPressed : Bool
  cornerRadius : ℤ
  isAccent : Bool
  alwaysGreen : Bool
  deriving DecidableEq, Repr

/-- Lines 893-902, `RegisterButton`: the button record pushed onto `customButtons`. The
declaration (line 112) gives `isAccent` and `alwaysGreen` the default `false`. -/
def RegisterButton (hwnd : ℕ) (cornerRadius : ℤ) (isAccent : Bool) (alwaysGreen : Bool) :
    CustomButton :=
  { hwnd := hwnd, isHovered := false, isPressed := false, cornerRadius := cornerRadius,
    isAccent := isAccent, alwaysGreen := alwaysGreen }

/-- The three colours that `DrawModernButton` chooses. -/
structure ButtonColors where
  bgColor : COLORREF
  borderColor : COLORREF
  textColor : COLORREF
  deriving DecidableEq, Repr

/-- Lines 847-868 of `DrawModernButton`: the choice of `bgColor`, `borderColor` and
`textColor`. `windowEnabled` is the result of `IsWindowEnabled(hwnd)`. -/
def DrawModernButton.colors (windowEnabled : Bool) (button : CustomButton) : ButtonColors :=
  let isEnabled := windowEnabled
  let isHovered := button.isHovered && isEnabled
  let isPressed := button.isPressed && isEnabled
  if !isEnabled then
    { bgColor := BUTTON_BG, borderColor := RGB 80 80 80, textColor := RGB 120 120 120 }
  else
    { bgColor :=
        if isPressed then TAG_GREEN_ACTIVE
        else if isHovered then TAG_GREEN_HOVER
        else TAG_GREEN,
      borderColor := TAG_GREEN,
      textColor := RGB 255 255 255 }

end GrainEye

/-! # Properties -/

namespace GrainEye

/-! ## Auxiliary facts -/

theorem truncToInt_of_nonneg {q : ℚ} (h : 0 ≤ q) : truncToInt q = ⌊q⌋ := by
  simp [truncToInt, h]

theorem truncToInt_intCast (n : ℤ) : truncToInt (n : ℚ) = n := by
  unfold truncToInt
  split <;> simp

theorem truncToInt_nonneg {q : ℚ} (h : 0 ≤ q) : 0 ≤ truncToInt q := by
  rw [truncToInt_of_nonneg h]
  exact Int.floor_nonneg.mpr h

theorem truncToInt_le_of_le_intCast {q : ℚ} {n : ℤ} (h0 : 0 ≤ q) (h : q ≤ n) :
    truncToInt q ≤ n := by
  rw [truncToInt_of_nonneg h0]
  exact Int.floor_le_iff.mpr (lt_of_le_of_lt h (by linarith))

/-- Truncation is strictly monotone across a gap of at least one, on non-negative values. -/
theorem truncToInt_lt_of_add_one_le {a b : ℚ} (ha : 0 ≤ a) (hab : a + 1 ≤ b) :
    truncToInt a < truncToInt b := by
  rw [truncToInt_of_nonneg ha, truncToInt_of_nonneg (by linarith)]
  have h1 : ⌊a⌋ + 1 ≤ ⌊b⌋ := by
    rw [← Int.floor_add_one]
    exact Int.floor_mono hab
  omega

theorem graphBottom_sub_graphTop (y height : ℤ) :
    graphBottom y height - graphTop y = height - 100 := by
  unfold graphBottom graphTop
  ring

theorem graphRight_sub_graphLeft (x width : ℤ) :
    graphRight x width - graphLeft x = width - 90 := by
  unfold graphRight graphLeft
  ring

theorem Histogram.maxCount_eq : Histogram.maxCount = 25 := by
  simp [Histogram.maxCount, Histogram.counts, maxCountOf]

theorem Cumulative.total_eq : Cumulative.total = 101 := by
  simp [Cumulative.total, Cumulative.counts, totalOf]

theorem Histogram.counts_nonneg (i : ℕ) (hi : i < 10) :
    0 ≤ Histogram.counts.getD i 0 := by
  interval_cases i <;> simp [Histogram.counts]

/-- The scan loop never lowers its accumulator and ends at or above every element. -/
theorem foldl_scan_bounds (cs : List ℤ) (init : ℤ) :
    init ≤ cs.foldl (fun maxCount c => if c > maxCount then c else maxCount) init ∧
    ∀ c ∈ cs, c ≤ cs.foldl (fun maxCount c => if c > maxCount then c else maxCount) init := by
  induction cs generalizing init with
  | nil => simp
  | cons a as ih =>
    simp only [List.foldl_cons, List.mem_cons]
    obtain ⟨h1, h2⟩ := ih (if a > init then a else init)
    refine ⟨le_trans ?_ h1, ?_⟩
    · split <;> omega
    · rintro c (rfl | hc)
      · refine le_trans ?_ h1
        split <;> omega
      · exact h2 c hc

theorem le_maxCountOf {cs : List ℤ} {c : ℤ} (hc : c ∈ cs) : c ≤ maxCountOf cs :=
  (foldl_scan_bounds cs 0).2 c hc

theorem getD_mem_of_lt {cs : List ℤ} {i : ℕ} (hi : i < cs.length) : cs.getD i 0 ∈ cs := by
  rw [List.getD_eq_getElem cs 0 hi]
  exact List.getElem_mem hi

theorem getD_nonneg {cs : List ℤ} (hnn : ∀ c ∈ cs, 0 ≤ c) (i : ℕ) : 0 ≤ cs.getD i 0 := by
  by_cases hi : i < cs.length
  · exact hnn _ (getD_mem_of_lt hi)
  · rw [List.getD_eq_default cs 0 (by omega)]

/-- The bar of a bin whose count is the (non-zero) maximum spans the whole plot height. -/
theorem barHeightOf_of_eq_max (cs : List ℤ) (gTop gBottom : ℤ) (i : ℕ)
    (hmax : maxCountOf cs ≠ 0) (hc : cs.getD i 0 = maxCountOf cs) :
    barHeightOf cs gTop gBottom i = gBottom - gTop := by
  unfold barHeightOf
  rw [hc, div_self (by exact_mod_cast hmax), one_mul]
  exact truncToInt_intCast _

theorem foldl_add_eq_sum (cs : List ℤ) (init : ℤ) :
    cs.foldl (fun total c => total + c) init = init + cs.sum := by
  induction cs generalizing init with
  | nil => simp
  | cons a as ih =>
    simp only [List.foldl_cons, List.sum_cons]
    rw [ih]
    ring

theorem totalOf_eq_sum (cs : List ℤ) : totalOf cs = cs.sum := by
  unfold totalOf
  rw [foldl_add_eq_sum]
  ring

/-- Extending a prefix by one position adds the entry at that position (zero past the end). -/
theorem sum_take_succ_getD (cs : List ℤ) (i : ℕ) :
    (cs.take (i + 1)).sum = (cs.take i).sum + cs.getD i 0 := by
  induction cs generalizing i with
  | nil => simp
  | cons a as ih =>
    cases i with
    | zero => simp
    | succ k =>
      have h := ih k
      simp only [List.take_succ_cons, List.sum_cons, List.getD_cons_succ]
      rw [h]
      ring

/-- Closed form of the incrementally built array: entry `i` is 100 times the sum of the
first `i + 1` counts, divided by `total`. -/
theorem cumulativePercentOf_closed_form (cs : List ℤ) (i : ℕ) :
    cumulativePercentOf cs i = 100 * (((cs.take (i + 1)).sum : ℤ) : ℚ) / ((totalOf cs : ℤ) : ℚ) := by
  induction i with
  | zero =>
    have h := sum_take_succ_getD cs 0
    simp only [List.take_zero, List.sum_nil, zero_add] at h
    simp only [cumulativePercentOf, zero_add, h]
    norm_num
    ring
  | succ k ih =>
    have h := sum_take_succ_getD cs (k + 1)
    simp only [cumulativePercentOf, ih, h]
    push_cast
    norm_num
    ring

/-- In exact arithmetic the normalised position `(grainSizes[i] - 0.25) / 0.45` of bin `i`
of the histogram's array is `i / 9`. -/
theorem Histogram.histGrainSizes_normalised (i : ℕ) (hi : i ≤ 9) :
    (Histogram.grainSizes.getD i 0 - 0.25) / 0.45 = (i : ℚ) / 9 := by
  interval_cases i <;> norm_num [Histogram.grainSizes]

/-- In exact arithmetic the normalised position `(grainSizes[i] - 0.25) / 0.45` of bin `i`
of the curve's array is `i / 9`. -/
theorem Cumulative.curveGrainSizes_normalised (i : ℕ) (hi : i ≤ 9) :
    (Cumulative.grainSizes.getD i 0 - 0.25) / 0.45 = (i : ℚ) / 9 := by
  interval_cases i <;> norm_num [Cumulative.grainSizes]

/-- Scaling `i / 9` by an extent of at least 9 pixels and truncating keeps the order of the
bin indices strict. -/
theorem truncToInt_ninths_strictMono (W : ℤ) (hW : 9 ≤ W) (i j : ℕ) (hij : i < j) :
    truncToInt ((i : ℚ) / 9 * (W : ℚ)) < truncToInt ((j : ℚ) / 9 * (W : ℚ)) := by
  have hWq : (9 : ℚ) ≤ (W : ℚ) := by exact_mod_cast hW
  have hi0 : (0 : ℚ) ≤ (i : ℚ) := Nat.cast_nonneg i
  have hijq : (i : ℚ) + 1 ≤ (j : ℚ) := by exact_mod_cast hij
  apply truncToInt_lt_of_add_one_le
  · positivity
  · have h1 : (i : ℚ) / 9 * (W : ℚ) + (W : ℚ) / 9 ≤ (j : ℚ) / 9 * (W : ℚ) := by
      have : ((i : ℚ) + 1) / 9 * (W : ℚ) ≤ (j : ℚ) / 9 * (W : ℚ) := by
        apply mul_le_mul_of_nonneg_right _ (by linarith)
        exact div_le_div_of_nonneg_right hijq (by norm_num)
      calc (i : ℚ) / 9 * (W : ℚ) + (W : ℚ) / 9 = ((i : ℚ) + 1) / 9 * (W : ℚ) := by ring
        _ ≤ (j : ℚ) / 9 * (W : ℚ) := this
    have h2 : (1 : ℚ) ≤ (W : ℚ) / 9 := by
      rw [le_div_iff₀ (by norm_num)]
      linarith
    linarith

/-! ## Binary64 rounding -/

theorem roundHalfEven_eq_of_abs_sub_lt {q : ℚ} {m : ℤ} (h : |q - (m : ℚ)| < 1 / 2) :
    roundHalfEven q = m := by
  rw [abs_lt] at h
  obtain ⟨h1, h2⟩ := h
  unfold roundHalfEven
  by_cases hq : (m : ℚ) ≤ q
  · have hf : ⌊q⌋ = m := by
      rw [Int.floor_eq_iff]
      constructor <;> linarith
    rw [hf, if_pos (by linarith)]
  · push_neg at hq
    have hf : ⌊q⌋ = m - 1 := by
      rw [Int.floor_eq_iff]
      push_cast
      constructor <;> linarith
    rw [hf]
    push_cast
    rw [if_neg (by linarith), if_pos (by linarith)]
    ring

/-- A value halfway between two integers is rounded to the even one. -/
theorem roundHalfEven_eq_of_tie {q : ℚ} {m : ℤ}
    (h : q = (m : ℚ) + 1 / 2 ∨ q = (m : ℚ) - 1 / 2) (he : m % 2 = 0) :
    roundHalfEven q = m := by
  unfold roundHalfEven
  rcases h with h | h
  · have hf : ⌊q⌋ = m := by
      rw [Int.floor_eq_iff]
      constructor <;> linarith
    rw [hf, if_neg (by linarith), if_neg (by linarith), if_pos he]
  · have hf : ⌊q⌋ = m - 1 := by
      rw [Int.floor_eq_iff]
      push_cast
      constructor <;> linarith
    have ho : ¬ (m - 1) % 2 = 0 := by omega
    rw [hf]
    push_cast
    rw [if_neg (by linarith), if_neg (by linarith), if_neg ho]
    ring

theorem abs_roundHalfEven_sub_le (q : ℚ) : |(roundHalfEven q : ℚ) - q| ≤ 1 / 2 := by
  have h0 := Int.floor_le q
  have h1 := Int.lt_floor_add_one q
  unfold roundHalfEven
  rw [abs_le]
  split_ifs with ha hb hc
  · constructor <;> linarith
  · push_cast; constructor <;> linarith
  · push_neg at ha hb
    constructor <;> linarith
  · push_neg at ha hb
    push_cast
    constructor <;> linarith

theorem roundHalfEven_nonneg {q : ℚ} (h : 0 ≤ q) : 0 ≤ roundHalfEven q := by
  have hf : 0 ≤ ⌊q⌋ := Int.floor_nonneg.mpr h
  unfold roundHalfEven
  split_ifs <;> omega

theorem ulp_pos (x : ℚ) : 0 < ulp x := by
  unfold ulp
  positivity

theorem binary64_zero : binary64 0 = 0 := by
  simp [binary64, roundHalfEven]

theorem binary64_nonneg {x : ℚ} (h : 0 ≤ x) : 0 ≤ binary64 x := by
  unfold binary64
  have h1 : 0 ≤ x / ulp x := div_nonneg h (ulp_pos x).le
  have h2 : (0 : ℚ) ≤ (roundHalfEven (x / ulp x) : ℚ) := by
    exact_mod_cast roundHalfEven_nonneg h1
  exact mul_nonneg h2 (ulp_pos x).le

/-- Rounding to binary64 moves a value by at most half the spacing of its binade. -/
theorem abs_binary64_sub_le (x : ℚ) : |binary64 x - x| ≤ ulp x / 2 := by
  have hu := ulp_pos x
  have h := abs_roundHalfEven_sub_le (x / ulp x)
  have e : binary64 x - x = ((roundHalfEven (x / ulp x) : ℚ) - x / ulp x) * ulp x := by
    unfold binary64
    field_simp
  rw [e, abs_mul, abs_of_pos hu]
  calc |(roundHalfEven (x / ulp x) : ℚ) - x / ulp x| * ulp x ≤ 1 / 2 * ulp x :=
        mul_le_mul_of_nonneg_right h hu.le
    _ = ulp x / 2 := by ring

theorem ulp_le_of_lt {x : ℚ} (h0 : 0 ≤ x) (h : x < 2 ^ (32 : ℤ)) : ulp x ≤ 2 ^ (-21 : ℤ) := by
  have hb : binade x ≤ 31 := by
    unfold binade
    apply max_le _ (by decide)
    rcases h0.eq_or_lt with h0 | h0
    · rw [← h0]; simp
    · rw [abs_of_pos h0]
      have h2 : x < ((2 : ℕ) : ℚ) ^ (32 : ℤ) := by
        rw [Nat.cast_ofNat]
        exact h
      have := (Int.lt_zpow_iff_log_lt (R := ℚ) (b := 2) (by decide) h0).mp h2
      omega
  unfold ulp
  apply zpow_le_zpow_right₀ (by norm_num)
  omega

/-- Below `2 ^ 32` a value and its binary64 rounding differ by at most `2 ^ (-22)`. -/
theorem abs_binary64_sub_le_small {x : ℚ} (h0 : 0 ≤ x) (h : x < 4294967296) :
    |binary64 x - x| ≤ 1 / 4194304 := by
  have hu : ulp x ≤ 2 ^ (-21 : ℤ) := ulp_le_of_lt h0 (by norm_num; exact h)
  have h1 := abs_binary64_sub_le x
  have h2 : (2 : ℚ) ^ (-21 : ℤ) = 1 / 2097152 := by norm_num
  rw [h2] at hu
  linarith

theorem ulp_eq_of_bounds (x : ℚ) (k : ℕ) (hk : k ≤ 1074)
    (hlo : (2 : ℚ) ^ 52 ≤ x * 2 ^ k) (hhi : x * 2 ^ k < 2 ^ 53) :
    ulp x = 1 / 2 ^ k := by
  have hx : 0 < x := by
    by_contra hx
    push_neg at hx
    have : x * 2 ^ k ≤ 0 := mul_nonpos_of_nonpos_of_nonneg hx (by positivity)
    have : (0 : ℚ) < 2 ^ 52 := by positivity
    linarith
  have hlog : Int.log 2 x = 52 - (k : ℤ) := by
    have h2k : (0 : ℚ) < 2 ^ k := by positivity
    have e1 : (2 : ℚ) ^ (52 - (k : ℤ)) ≤ x := by
      rw [zpow_sub₀ (by norm_num), zpow_natCast, div_le_iff₀ h2k]
      exact_mod_cast hlo
    have e2 : x < (2 : ℚ) ^ (52 - (k : ℤ) + 1) := by
      have : (52 - (k : ℤ) + 1) = 53 - (k : ℤ) := by ring
      rw [this, zpow_sub₀ (by norm_num), zpow_natCast, lt_div_iff₀ h2k]
      exact_mod_cast hhi
    have c2 : ((2 : ℕ) : ℚ) = 2 := Nat.cast_ofNat
    rw [← c2] at e1 e2
    have l1 := (Int.zpow_le_iff_le_log (R := ℚ) (b := 2) (by decide) hx).mp e1
    have l2 := (Int.lt_zpow_iff_log_lt (R := ℚ) (b := 2) (by decide) hx).mp e2
    omega
  have hb : binade x = 52 - (k : ℤ) := by
    unfold binade
    rw [abs_of_pos hx, hlog]
    apply max_eq_left
    omega
  unfold ulp
  rw [hb]
  have : (52 - (k : ℤ) - 52) = -(k : ℤ) := by ring
  rw [this, zpow_neg, zpow_natCast]
  simp

/-- Evaluation of `binary64` at a positive value: with `x * 2 ^ k` in `[2 ^ 52, 2 ^ 53)`,
the rounding is `m / 2 ^ k` for the integer `m` nearest to `x * 2 ^ k`. -/
theorem binary64_cert (x : ℚ) (k : ℕ) (m : ℤ) (hk : k ≤ 1074)
    (hlo : (2 : ℚ) ^ 52 ≤ x * 2 ^ k) (hhi : x * 2 ^ k < 2 ^ 53)
    (hm : |x * 2 ^ k - (m : ℚ)| < 1 / 2) :
    binary64 x = (m : ℚ) / 2 ^ k := by
  have hu := ulp_eq_of_bounds x k hk hlo hhi
  unfold binary64
  rw [hu]
  have hq : x / (1 / 2 ^ k) = x * 2 ^ k := by field_simp
  rw [hq, roundHalfEven_eq_of_abs_sub_lt hm]
  ring

/-- Evaluation of `binary64` at a positive value halfway between two binary64 numbers: the
one with the even significand `m` is taken. -/
theorem binary64_cert_tie (x : ℚ) (k : ℕ) (m : ℤ) (hk : k ≤ 1074)
    (hlo : (2 : ℚ) ^ 52 ≤ x * 2 ^ k) (hhi : x * 2 ^ k < 2 ^ 53)
    (hm : x * 2 ^ k = (m : ℚ) + 1 / 2 ∨ x * 2 ^ k = (m : ℚ) - 1 / 2) (he : m % 2 = 0) :
    binary64 x = (m : ℚ) / 2 ^ k := by
  have hu := ulp_eq_of_bounds x k hk hlo hhi
  unfold binary64
  rw [hu]
  have hq : x / (1 / 2 ^ k) = x * 2 ^ k := by field_simp
  rw [hq, roundHalfEven_eq_of_tie hm he]
  ring

/-- The normalised sizes `(grainSizes[i] - 0.25) / 0.45` of the ten bins, as the machine
computes them. Bin 9 gives `1 - 2 ^ (-53)`, not 1. -/
theorem Binary64.normalised_values :
    Binary64.normalised Histogram.grainSizes 0 = 0 ∧
    Binary64.normalised Histogram.grainSizes 1 = 4003199668773773 / 36028797018963968 ∧
    Binary64.normalised Histogram.grainSizes 2 = 4003199668773773 / 18014398509481984 ∧
    Binary64.normalised Histogram.grainSizes 3 = 3002399751580331 / 9007199254740992 ∧
    Binary64.normalised Histogram.grainSizes 4 = 8006399337547549 / 18014398509481984 ∧
    Binary64.normalised Histogram.grainSizes 5 = 2501999792983609 / 4503599627370496 ∧
    Binary64.normalised Histogram.grainSizes 6 = 3002399751580331 / 4503599627370496 ∧
    Binary64.normalised Histogram.grainSizes 7 = 875699927544263 / 1125899906842624 ∧
    Binary64.normalised Histogram.grainSizes 8 = 8006399337547549 / 9007199254740992 ∧
    Binary64.normalised Histogram.grainSizes 9 = 9007199254740991 / 9007199254740992 := by
  have h25 : binary64 (0.25) = 1 / 4 :=
    (binary64_cert _ 54 4503599627370496 (by norm_num) (by norm_num) (by norm_num)
      (by norm_num [abs_lt])).trans (by norm_num)
  have h45 : binary64 (0.45) = 8106479329266893 / 18014398509481984 :=
    (binary64_cert _ 54 8106479329266893 (by norm_num) (by norm_num) (by norm_num)
      (by norm_num [abs_lt])).trans (by norm_num)
  refine ⟨?_, ?_, ?_, ?_, ?_, ?_, ?_, ?_, ?_, ?_⟩
  · have hl : Histogram.grainSizes.getD 0 0 = 0.25 := rfl
    have hg : binary64 (0.25) = 1 / 4 :=
      (binary64_cert _ 54 4503599627370496 (by norm_num) (by norm_num) (by norm_num)
        (by norm_num [abs_lt])).trans (by norm_num)
    have hs : binary64 (1 / 4 - 1 / 4) = 0 := by
      have e : (1 / 4 - 1 / 4 : ℚ) = 0 := by norm_num
      rw [e, binary64_zero]
    have hd : binary64 (0 / (8106479329266893 / 18014398509481984)) = 0 := by
      have e : (0 / (8106479329266893 / 18014398509481984) : ℚ) = 0 := by norm_num
      rw [e, binary64_zero]
    simp only [Binary64.normalised, hl, hg, h25, hs, h45, hd]
  · have hl : Histogram.grainSizes.getD 1 0 = 0.30 := rfl
    have hg : binary64 (0.30) = 5404319552844595 / 18014398509481984 :=
      (binary64_cert _ 54 5404319552844595 (by norm_num) (by norm_num) (by norm_num)
        (by norm_num [abs_lt])).trans (by norm_num)
    have hs : binary64 (5404319552844595 / 18014398509481984 - 1 / 4) = 900719925474099 / 18014398509481984 :=
      (binary64_cert _ 57 7205759403792792 (by norm_num) (by norm_num) (by norm_num)
        (by norm_num [abs_lt])).trans (by norm_num)
    have hd : binary64 (900719925474099 / 18014398509481984 / (8106479329266893 / 18014398509481984)) = 4003199668773773 / 36028797018963968 :=
      (binary64_cert _ 56 8006399337547546 (by norm_num) (by norm_num) (by norm_num)
        (by norm_num [abs_lt])).trans (by norm_num)
    simp only [Binary64.normalised, hl, hg, h25, hs, h45, hd]
  · have hl : Histogram.grainSizes.getD 2 0 = 0.35 := rfl
    have hg : binary64 (0.35) = 3152519739159347 / 9007199254740992 :=
      (binary64_cert _ 54 6305039478318694 (by norm_num) (by norm_num) (by norm_num)
        (by norm_num [abs_lt])).trans (by norm_num)
    have hs : binary64 (3152519739159347 / 9007199254740992 - 1 / 4) = 900719925474099 / 9007199254740992 :=
      (binary64_cert _ 56 7205759403792792 (by norm_num) (by norm_num) (by norm_num)
        (by norm_num [abs_lt])).trans (by norm_num)
    have hd : binary64 (900719925474099 / 9007199254740992 / (8106479329266893 / 18014398509481984)) = 4003199668773773 / 18014398509481984 :=
      (binary64_cert _ 55 8006399337547546 (by norm_num) (by norm_num) (by norm_num)
        (by norm_num [abs_lt])).trans (by norm_num)
    simp only [Binary64.normalised, hl, hg, h25, hs, h45, hd]
  · have hl : Histogram.grainSizes.getD 3 0 = 0.40 := rfl
    have hg : binary64 (0.40) = 3602879701896397 / 9007199254740992 :=
      (binary64_cert _ 54 7205759403792794 (by norm_num) (by norm_num) (by norm_num)
        (by norm_num [abs_lt])).trans (by norm_num)
    have hs : binary64 (3602879701896397 / 9007199254740992 - 1 / 4) = 1351079888211149 / 9007199254740992 :=
      (binary64_cert _ 55 5404319552844596 (by norm_num) (by norm_num) (by norm_num)
        (by norm_num [abs_lt])).trans (by norm_num)
    have hd : binary64 (1351079888211149 / 9007199254740992 / (8106479329266893 / 18014398509481984)) = 3002399751580331 / 9007199254740992 :=
      (binary64_cert _ 54 6004799503160662 (by norm_num) (by norm_num) (by norm_num)
        (by norm_num [abs_lt])).trans (by norm_num)
    simp only [Binary64.normalised, hl, hg, h25, hs, h45, hd]
  · have hl : Histogram.grainSizes.getD 4 0 = 0.45 := rfl
    have hg : binary64 (0.45) = 8106479329266893 / 18014398509481984 :=
      (binary64_cert _ 54 8106479329266893 (by norm_num) (by norm_num) (by norm_num)
        (by norm_num [abs_lt])).trans (by norm_num)
    have hs : binary64 (8106479329266893 / 18014398509481984 - 1 / 4) = 3602879701896397 / 18014398509481984 :=
      (binary64_cert _ 55 7205759403792794 (by norm_num) (by norm_num) (by norm_num)
        (by norm_num [abs_lt])).trans (by norm_num)
    have hd : binary64 (3602879701896397 / 18014398509481984 / (8106479329266893 / 18014398509481984)) = 8006399337547549 / 18014398509481984 :=
      (binary64_cert _ 54 8006399337547549 (by norm_num) (by norm_num) (by norm_num)
        (by norm_num [abs_lt])).trans (by norm_num)
    simp only [Binary64.normalised, hl, hg, h25, hs, h45, hd]
  · have hl : Histogram.grainSizes.getD 5 0 = 0.50 := rfl
    have hg : binary64 (0.50) = 1 / 2 :=
      (binary64_cert _ 53 4503599627370496 (by norm_num) (by norm_num) (by norm_num)
        (by norm_num [abs_lt])).trans (by norm_num)
    have hs : binary64 (1 / 2 - 1 / 4) = 1 / 4 :=
      (binary64_cert _ 54 4503599627370496 (by norm_num) (by norm_num) (by norm_num)
        (by norm_num [abs_lt])).trans (by norm_num)
    have hd : binary64 (1 / 4 / (8106479329266893 / 18014398509481984)) = 2501999792983609 / 4503599627370496 :=
      (binary64_cert _ 53 5003999585967218 (by norm_num) (by norm_num) (by norm_num)
        (by norm_num [abs_lt])).trans (by norm_num)
    simp only [Binary64.normalised, hl, hg, h25, hs, h45, hd]
  · have hl : Histogram.grainSizes.getD 6 0 = 0.55 := rfl
    have hg : binary64 (0.55) = 2476979795053773 / 4503599627370496 :=
      (binary64_cert _ 53 4953959590107546 (by norm_num) (by norm_num) (by norm_num)
        (by norm_num [abs_lt])).trans (by norm_num)
    have hs : binary64 (2476979795053773 / 4503599627370496 - 1 / 4) = 1351079888211149 / 4503599627370496 :=
      (binary64_cert _ 54 5404319552844596 (by norm_num) (by norm_num) (by norm_num)
        (by norm_num [abs_lt])).trans (by norm_num)
    have hd : binary64 (1351079888211149 / 4503599627370496 / (8106479329266893 / 18014398509481984)) = 3002399751580331 / 4503599627370496 :=
      (binary64_cert _ 53 6004799503160662 (by norm_num) (by norm_num) (by norm_num)
        (by norm_num [abs_lt])).trans (by norm_num)
    simp only [Binary64.normalised, hl, hg, h25, hs, h45, hd]
  · have hl : Histogram.grainSizes.getD 7 0 = 0.60 := rfl
    have hg : binary64 (0.60) = 5404319552844595 / 9007199254740992 :=
      (binary64_cert _ 53 5404319552844595 (by norm_num) (by norm_num) (by norm_num)
        (by norm_num [abs_lt])).trans (by norm_num)
    have hs : binary64 (5404319552844595 / 9007199254740992 - 1 / 4) = 3152519739159347 / 9007199254740992 :=
      (binary64_cert _ 54 6305039478318694 (by norm_num) (by norm_num) (by norm_num)
        (by norm_num [abs_lt])).trans (by norm_num)
    have hd : binary64 (3152519739159347 / 9007199254740992 / (8106479329266893 / 18014398509481984)) = 875699927544263 / 1125899906842624 :=
      (binary64_cert _ 53 7005599420354104 (by norm_num) (by norm_num) (by norm_num)
        (by norm_num [abs_lt])).trans (by norm_num)
    simp only [Binary64.normalised, hl, hg, h25, hs, h45, hd]
  · have hl : Histogram.grainSizes.getD 8 0 = 0.65 := rfl
    have hg : binary64 (0.65) = 5854679515581645 / 9007199254740992 :=
      (binary64_cert _ 53 5854679515581645 (by norm_num) (by norm_num) (by norm_num)
        (by norm_num [abs_lt])).trans (by norm_num)
    have hs : binary64 (5854679515581645 / 9007199254740992 - 1 / 4) = 3602879701896397 / 9007199254740992 :=
      (binary64_cert _ 54 7205759403792794 (by norm_num) (by norm_num) (by norm_num)
        (by norm_num [abs_lt])).trans (by norm_num)
    have hd : binary64 (3602879701896397 / 9007199254740992 / (8106479329266893 / 18014398509481984)) = 8006399337547549 / 9007199254740992 :=
      (binary64_cert _ 53 8006399337547549 (by norm_num) (by norm_num) (by norm_num)
        (by norm_num [abs_lt])).trans (by norm_num)
    simp only [Binary64.normalised, hl, hg, h25, hs, h45, hd]
  · have hl : Histogram.grainSizes.getD 9 0 = 0.70 := rfl
    have hg : binary64 (0.70) = 3152519739159347 / 4503599627370496 :=
      (binary64_cert _ 53 6305039478318694 (by norm_num) (by norm_num) (by norm_num)
        (by norm_num [abs_lt])).trans (by norm_num)
    have hs : binary64 (3152519739159347 / 4503599627370496 - 1 / 4) = 2026619832316723 / 4503599627370496 :=
      (binary64_cert _ 54 8106479329266892 (by norm_num) (by norm_num) (by norm_num)
        (by norm_num [abs_lt])).trans (by norm_num)
    have hd : binary64 (2026619832316723 / 4503599627370496 / (8106479329266893 / 18014398509481984)) = 9007199254740991 / 9007199254740992 :=
      (binary64_cert _ 53 9007199254740991 (by norm_num) (by norm_num) (by norm_num)
        (by norm_num [abs_lt])).trans (by norm_num)
    simp only [Binary64.normalised, hl, hg, h25, hs, h45, hd]

/-- The ten entries of `cumulativePercent` as the machine computes them; the last one is
exactly 100. -/
theorem Binary64.machinePercent_values :
    Binary64.cumulativePercentOf Cumulative.counts 0 = 5573761915062495 / 1125899906842624 ∧
    Binary64.cumulativePercentOf Cumulative.counts 1 = 4180321436296871 / 281474976710656 ∧
    Binary64.cumulativePercentOf Cumulative.counts 2 = 4877041675679683 / 140737488355328 ∧
    Binary64.cumulativePercentOf Cumulative.counts 3 = 4180321436296871 / 70368744177664 ∧
    Binary64.cumulativePercentOf Cumulative.counts 4 = 5573761915062495 / 70368744177664 ∧
    Binary64.cumulativePercentOf Cumulative.counts 5 = 6270482154445307 / 70368744177664 ∧
    Binary64.cumulativePercentOf Cumulative.counts 6 = 6618842274136713 / 70368744177664 ∧
    Binary64.cumulativePercentOf Cumulative.counts 7 = 6827858345951557 / 70368744177664 ∧
    Binary64.cumulativePercentOf Cumulative.counts 8 = 6967202393828119 / 70368744177664 ∧
    Binary64.cumulativePercentOf Cumulative.counts 9 = 100 := by
  have h100 : binary64 (100.0) = 100 :=
    (binary64_cert _ 46 7036874417766400 (by norm_num) (by norm_num) (by norm_num)
      (by norm_num [abs_lt])).trans (by norm_num)
  have ht : totalOf Cumulative.counts = 101 := Cumulative.total_eq
  have hp0 : binary64 (((5 : ℤ) : ℚ) * 100) = 500 :=
    (binary64_cert _ 44 8796093022208000 (by norm_num) (by norm_num) (by norm_num)
      (by norm_num [abs_lt])).trans (by norm_num)
  have hq0 : binary64 (500 / ((101 : ℤ) : ℚ)) = 5573761915062495 / 1125899906842624 :=
    (binary64_cert _ 50 5573761915062495 (by norm_num) (by norm_num) (by norm_num)
      (by norm_num [abs_lt])).trans (by norm_num)
  have hc0 : Binary64.cumulativePercentOf Cumulative.counts 0 = 5573761915062495 / 1125899906842624 := by
    have hl : Cumulative.counts.getD 0 0 = 5 := rfl
    rw [Binary64.cumulativePercentOf, hl, ht, h100, hp0, hq0]
  have hp1 : binary64 (((10 : ℤ) : ℚ) * 100) = 1000 :=
    (binary64_cert _ 43 8796093022208000 (by norm_num) (by norm_num) (by norm_num)
      (by norm_num [abs_lt])).trans (by norm_num)
  have hq1 : binary64 (1000 / ((101 : ℤ) : ℚ)) = 5573761915062495 / 562949953421312 :=
    (binary64_cert _ 49 5573761915062495 (by norm_num) (by norm_num) (by norm_num)
      (by norm_num [abs_lt])).trans (by norm_num)
  have ha1 : binary64 (5573761915062495 / 1125899906842624 + 5573761915062495 / 562949953421312) = 4180321436296871 / 281474976710656 :=
    (binary64_cert_tie _ 49 8360642872593742 (by norm_num) (by norm_num) (by norm_num)
      (Or.inl (by norm_num)) (by decide)).trans (by norm_num)
  have hc1 : Binary64.cumulativePercentOf Cumulative.counts 1 = 4180321436296871 / 281474976710656 := by
    have hl : Cumulative.counts.getD (0 + 1) 0 = 10 := rfl
    rw [Binary64.cumulativePercentOf, hl, ht, h100, hp1, hq1, hc0, ha1]
  have hp2 : binary64 (((20 : ℤ) : ℚ) * 100) = 2000 :=
    (binary64_cert _ 42 8796093022208000 (by norm_num) (by norm_num) (by norm_num)
      (by norm_num [abs_lt])).trans (by norm_num)
  have hq2 : binary64 (2000 / ((101 : ℤ) : ℚ)) = 5573761915062495 / 281474976710656 :=
    (binary64_cert _ 48 5573761915062495 (by norm_num) (by norm_num) (by norm_num)
      (by norm_num [abs_lt])).trans (by norm_num)
  have ha2 : binary64 (4180321436296871 / 281474976710656 + 5573761915062495 / 281474976710656) = 4877041675679683 / 140737488355328 :=
    (binary64_cert _ 47 4877041675679683 (by norm_num) (by norm_num) (by norm_num)
      (by norm_num [abs_lt])).trans (by norm_num)
  have hc2 : Binary64.cumulativePercentOf Cumulative.counts 2 = 4877041675679683 / 140737488355328 := by
    have hl : Cumulative.counts.getD (1 + 1) 0 = 20 := rfl
    rw [Binary64.cumulativePercentOf, hl, ht, h100, hp2, hq2, hc1, ha2]
  have hp3 : binary64 (((25 : ℤ) : ℚ) * 100) = 2500 :=
    (binary64_cert _ 41 5497558138880000 (by norm_num) (by norm_num) (by norm_num)
      (by norm_num [abs_lt])).trans (by norm_num)
  have hq3 : binary64 (2500 / ((101 : ℤ) : ℚ)) = 6967202393828119 / 281474976710656 :=
    (binary64_cert _ 48 6967202393828119 (by norm_num) (by norm_num) (by norm_num)
      (by norm_num [abs_lt])).trans (by norm_num)
  have ha3 : binary64 (4877041675679683 / 140737488355328 + 6967202393828119 / 281474976710656) = 4180321436296871 / 70368744177664 :=
    (binary64_cert_tie _ 47 8360642872593742 (by norm_num) (by norm_num) (by norm_num)
      (Or.inl (by norm_num)) (by decide)).trans (by norm_num)
  have hc3 : Binary64.cumulativePercentOf Cumulative.counts 3 = 4180321436296871 / 70368744177664 := by
    have hl : Cumulative.counts.getD (2 + 1) 0 = 25 := rfl
    rw [Binary64.cumulativePercentOf, hl, ht, h100, hp3, hq3, hc2, ha3]
  have hp4 : binary64 (((20 : ℤ) : ℚ) * 100) = 2000 :=
    (binary64_cert _ 42 8796093022208000 (by norm_num) (by norm_num) (by norm_num)
      (by norm_num [abs_lt])).trans (by norm_num)
  have hq4 : binary64 (2000 / ((101 : ℤ) : ℚ)) = 5573761915062495 / 281474976710656 :=
    (binary64_cert _ 48 5573761915062495 (by norm_num) (by norm_num) (by norm_num)
      (by norm_num [abs_lt])).trans (by norm_num)
  have ha4 : binary64 (4180321436296871 / 70368744177664 + 5573761915062495 / 281474976710656) = 5573761915062495 / 70368744177664 :=
    (binary64_cert _ 46 5573761915062495 (by norm_num) (by norm_num) (by norm_num)
      (by norm_num [abs_lt])).trans (by norm_num)
  have hc4 : Binary64.cumulativePercentOf Cumulative.counts 4 = 5573761915062495 / 70368744177664 := by
    have hl : Cumulative.counts.getD (3 + 1) 0 = 20 := rfl
    rw [Binary64.cumulativePercentOf, hl, ht, h100, hp4, hq4, hc3, ha4]
  have hp5 : binary64 (((10 : ℤ) : ℚ) * 100) = 1000 :=
    (binary64_cert _ 43 8796093022208000 (by norm_num) (by norm_num) (by norm_num)
      (by norm_num [abs_lt])).trans (by norm_num)
  have hq5 : binary64 (1000 / ((101 : ℤ) : ℚ)) = 5573761915062495 / 562949953421312 :=
    (binary64_cert _ 49 5573761915062495 (by norm_num) (by norm_num) (by norm_num)
      (by norm_num [abs_lt])).trans (by norm_num)
  have ha5 : binary64 (5573761915062495 / 70368744177664 + 5573761915062495 / 562949953421312) = 6270482154445307 / 70368744177664 :=
    (binary64_cert _ 46 6270482154445307 (by norm_num) (by norm_num) (by norm_num)
      (by norm_num [abs_lt])).trans (by norm_num)
  have hc5 : Binary64.cumulativePercentOf Cumulative.counts 5 = 6270482154445307 / 70368744177664 := by
    have hl : Cumulative.counts.getD (4 + 1) 0 = 10 := rfl
    rw [Binary64.cumulativePercentOf, hl, ht, h100, hp5, hq5, hc4, ha5]
  have hp6 : binary64 (((5 : ℤ) : ℚ) * 100) = 500 :=
    (binary64_cert _ 44 8796093022208000 (by norm_num) (by norm_num) (by norm_num)
      (by norm_num [abs_lt])).trans (by norm_num)
  have hq6 : binary64 (500 / ((101 : ℤ) : ℚ)) = 5573761915062495 / 1125899906842624 :=
    (binary64_cert _ 50 5573761915062495 (by norm_num) (by norm_num) (by norm_num)
      (by norm_num [abs_lt])).trans (by norm_num)
  have ha6 : binary64 (6270482154445307 / 70368744177664 + 5573761915062495 / 1125899906842624) = 6618842274136713 / 70368744177664 :=
    (binary64_cert _ 46 6618842274136713 (by norm_num) (by norm_num) (by norm_num)
      (by norm_num [abs_lt])).trans (by norm_num)
  have hc6 : Binary64.cumulativePercentOf Cumulative.counts 6 = 6618842274136713 / 70368744177664 := by
    have hl : Cumulative.counts.getD (5 + 1) 0 = 5 := rfl
    rw [Binary64.cumulativePercentOf, hl, ht, h100, hp6, hq6, hc5, ha6]
  have hp7 : binary64 (((3 : ℤ) : ℚ) * 100) = 300 :=
    (binary64_cert _ 44 5277655813324800 (by norm_num) (by norm_num) (by norm_num)
      (by norm_num [abs_lt])).trans (by norm_num)
  have hq7 : binary64 (300 / ((101 : ℤ) : ℚ)) = 3344257149037497 / 1125899906842624 :=
    (binary64_cert _ 51 6688514298074994 (by norm_num) (by norm_num) (by norm_num)
      (by norm_num [abs_lt])).trans (by norm_num)
  have ha7 : binary64 (6618842274136713 / 70368744177664 + 3344257149037497 / 1125899906842624) = 6827858345951557 / 70368744177664 :=
    (binary64_cert _ 46 6827858345951557 (by norm_num) (by norm_num) (by norm_num)
      (by norm_num [abs_lt])).trans (by norm_num)
  have hc7 : Binary64.cumulativePercentOf Cumulative.counts 7 = 6827858345951557 / 70368744177664 := by
    have hl : Cumulative.counts.getD (6 + 1) 0 = 3 := rfl
    rw [Binary64.cumulativePercentOf, hl, ht, h100, hp7, hq7, hc6, ha7]
  have hp8 : binary64 (((2 : ℤ) : ℚ) * 100) = 200 :=
    (binary64_cert _ 45 7036874417766400 (by norm_num) (by norm_num) (by norm_num)
      (by norm_num [abs_lt])).trans (by norm_num)
  have hq8 : binary64 (200 / ((101 : ℤ) : ℚ)) = 1114752383012499 / 562949953421312 :=
    (binary64_cert _ 52 8918019064099992 (by norm_num) (by norm_num) (by norm_num)
      (by norm_num [abs_lt])).trans (by norm_num)
  have ha8 : binary64 (6827858345951557 / 70368744177664 + 1114752383012499 / 562949953421312) = 6967202393828119 / 70368744177664 :=
    (binary64_cert _ 46 6967202393828119 (by norm_num) (by norm_num) (by norm_num)
      (by norm_num [abs_lt])).trans (by norm_num)
  have hc8 : Binary64.cumulativePercentOf Cumulative.counts 8 = 6967202393828119 / 70368744177664 := by
    have hl : Cumulative.counts.getD (7 + 1) 0 = 2 := rfl
    rw [Binary64.cumulativePercentOf, hl, ht, h100, hp8, hq8, hc7, ha8]
  have hp9 : binary64 (((1 : ℤ) : ℚ) * 100) = 100 :=
    (binary64_cert _ 46 7036874417766400 (by norm_num) (by norm_num) (by norm_num)
      (by norm_num [abs_lt])).trans (by norm_num)
  have hq9 : binary64 (100 / ((101 : ℤ) : ℚ)) = 1114752383012499 / 1125899906842624 :=
    (binary64_cert _ 53 8918019064099992 (by norm_num) (by norm_num) (by norm_num)
      (by norm_num [abs_lt])).trans (by norm_num)
  have ha9 : binary64 (6967202393828119 / 70368744177664 + 1114752383012499 / 1125899906842624) = 100 :=
    (binary64_cert _ 46 7036874417766400 (by norm_num) (by norm_num) (by norm_num)
      (by norm_num [abs_lt])).trans (by norm_num)
  have hc9 : Binary64.cumulativePercentOf Cumulative.counts 9 = 100 := by
    have hl : Cumulative.counts.getD (8 + 1) 0 = 1 := rfl
    rw [Binary64.cumulativePercentOf, hl, ht, h100, hp9, hq9, hc8, ha9]
  exact ⟨hc0, hc1, hc2, hc3, hc4, hc5, hc6, hc7, hc8, hc9⟩

/-- The fractions `cumulativePercent[i] / 100.0` as the machine computes them. -/
theorem Binary64.percentFraction_values :
    binary64 (Binary64.cumulativePercentOf Cumulative.counts 0 / binary64 100.0) = 3567207625639997 / 72057594037927936 ∧
    binary64 (Binary64.cumulativePercentOf Cumulative.counts 1 / binary64 100.0) = 5350811438459995 / 36028797018963968 ∧
    binary64 (Binary64.cumulativePercentOf Cumulative.counts 2 / binary64 100.0) = 3121306672434997 / 9007199254740992 ∧
    binary64 (Binary64.cumulativePercentOf Cumulative.counts 3 / binary64 100.0) = 5350811438459995 / 9007199254740992 ∧
    binary64 (Binary64.cumulativePercentOf Cumulative.counts 4 / binary64 100.0) = 3567207625639997 / 4503599627370496 ∧
    binary64 (Binary64.cumulativePercentOf Cumulative.counts 5 / binary64 100.0) = 8026217157689993 / 9007199254740992 ∧
    binary64 (Binary64.cumulativePercentOf Cumulative.counts 6 / binary64 100.0) = 8472118110894993 / 9007199254740992 ∧
    binary64 (Binary64.cumulativePercentOf Cumulative.counts 7 / binary64 100.0) = 8739658682817993 / 9007199254740992 ∧
    binary64 (Binary64.cumulativePercentOf Cumulative.counts 8 / binary64 100.0) = 1114752383012499 / 1125899906842624 ∧
    binary64 (Binary64.cumulativePercentOf Cumulative.counts 9 / binary64 100.0) = 1 := by
  have h100 : binary64 (100.0) = 100 :=
    (binary64_cert _ 46 7036874417766400 (by norm_num) (by norm_num) (by norm_num)
      (by norm_num [abs_lt])).trans (by norm_num)
  obtain ⟨hc0, hc1, hc2, hc3, hc4, hc5, hc6, hc7, hc8, hc9⟩ := Binary64.machinePercent_values
  have hf0 : binary64 (5573761915062495 / 1125899906842624 / 100) = 3567207625639997 / 72057594037927936 :=
    (binary64_cert _ 57 7134415251279994 (by norm_num) (by norm_num) (by norm_num)
      (by norm_num [abs_lt])).trans (by norm_num)
  have hf1 : binary64 (4180321436296871 / 281474976710656 / 100) = 5350811438459995 / 36028797018963968 :=
    (binary64_cert _ 55 5350811438459995 (by norm_num) (by norm_num) (by norm_num)
      (by norm_num [abs_lt])).trans (by norm_num)
  have hf2 : binary64 (4877041675679683 / 140737488355328 / 100) = 3121306672434997 / 9007199254740992 :=
    (binary64_cert _ 54 6242613344869994 (by norm_num) (by norm_num) (by norm_num)
      (by norm_num [abs_lt])).trans (by norm_num)
  have hf3 : binary64 (4180321436296871 / 70368744177664 / 100) = 5350811438459995 / 9007199254740992 :=
    (binary64_cert _ 53 5350811438459995 (by norm_num) (by norm_num) (by norm_num)
      (by norm_num [abs_lt])).trans (by norm_num)
  have hf4 : binary64 (5573761915062495 / 70368744177664 / 100) = 3567207625639997 / 4503599627370496 :=
    (binary64_cert _ 53 7134415251279994 (by norm_num) (by norm_num) (by norm_num)
      (by norm_num [abs_lt])).trans (by norm_num)
  have hf5 : binary64 (6270482154445307 / 70368744177664 / 100) = 8026217157689993 / 9007199254740992 :=
    (binary64_cert _ 53 8026217157689993 (by norm_num) (by norm_num) (by norm_num)
      (by norm_num [abs_lt])).trans (by norm_num)
  have hf6 : binary64 (6618842274136713 / 70368744177664 / 100) = 8472118110894993 / 9007199254740992 :=
    (binary64_cert _ 53 8472118110894993 (by norm_num) (by norm_num) (by norm_num)
      (by norm_num [abs_lt])).trans (by norm_num)
  have hf7 : binary64 (6827858345951557 / 70368744177664 / 100) = 8739658682817993 / 9007199254740992 :=
    (binary64_cert _ 53 8739658682817993 (by norm_num) (by norm_num) (by norm_num)
      (by norm_num [abs_lt])).trans (by norm_num)
  have hf8 : binary64 (6967202393828119 / 70368744177664 / 100) = 1114752383012499 / 1125899906842624 :=
    (binary64_cert _ 53 8918019064099992 (by norm_num) (by norm_num) (by norm_num)
      (by norm_num [abs_lt])).trans (by norm_num)
  have hf9 : binary64 (100 / 100) = 1 :=
    (binary64_cert _ 52 4503599627370496 (by norm_num) (by norm_num) (by norm_num)
      (by norm_num [abs_lt])).trans (by norm_num)
  rw [hc0, hc1, hc2, hc3, hc4, hc5, hc6, hc7, hc8, hc9, h100]
  exact ⟨hf0, hf1, hf2, hf3, hf4, hf5, hf6, hf7, hf8, hf9⟩


/-- The histogram's and the curve's copies of `grainSizes` give the same normalised sizes. -/
theorem Binary64.normalised_curve (i : ℕ) :
    Binary64.normalised Cumulative.grainSizes i = Binary64.normalised Histogram.grainSizes i :=
  rfl

/-- The normalised size of bin `i`, as the machine computes it, lies in `[0, 1]` and within
`2 ^ (-52)` of `i / 9`. -/
theorem Binary64.normalised_near (i : ℕ) (hi : i ≤ 9) :
    (0 ≤ Binary64.normalised Histogram.grainSizes i ∧
      Binary64.normalised Histogram.grainSizes i ≤ 1) ∧
    ((i : ℚ) / 9 - 1 / 4503599627370496 ≤ Binary64.normalised Histogram.grainSizes i ∧
      Binary64.normalised Histogram.grainSizes i ≤ (i : ℚ) / 9 + 1 / 4503599627370496) := by
  obtain ⟨h0, h1, h2, h3, h4, h5, h6, h7, h8, h9⟩ := Binary64.normalised_values
  interval_cases i
  · rw [h0]; norm_num
  · rw [h1]; norm_num
  · rw [h2]; norm_num
  · rw [h3]; norm_num
  · rw [h4]; norm_num
  · rw [h5]; norm_num
  · rw [h6]; norm_num
  · rw [h7]; norm_num
  · rw [h8]; norm_num
  · rw [h9]; norm_num

/-- The fraction `cumulativePercent[i] / 100.0` of bin `i`, as the machine computes it, lies
in `[0, 1]`. -/
theorem Binary64.percentFraction_range (i : ℕ) (hi : i ≤ 9) :
    0 ≤ binary64 (Binary64.cumulativePercentOf Cumulative.counts i / binary64 100.0) ∧
    binary64 (Binary64.cumulativePercentOf Cumulative.counts i / binary64 100.0) ≤ 1 := by
  obtain ⟨h0, h1, h2, h3, h4, h5, h6, h7, h8, h9⟩ := Binary64.percentFraction_values
  interval_cases i
  · rw [h0]; norm_num
  · rw [h1]; norm_num
  · rw [h2]; norm_num
  · rw [h3]; norm_num
  · rw [h4]; norm_num
  · rw [h5]; norm_num
  · rw [h6]; norm_num
  · rw [h7]; norm_num
  · rw [h8]; norm_num
  · rw [h9]; norm_num

/-- The rounding error of the product of a factor in `[0, 1]` and a non-negative `int`. -/
theorem Binary64.scaled_error {r : ℚ} (h0 : 0 ≤ r) (h1 : r ≤ 1) {n : ℤ} (hn0 : 0 ≤ n)
    (hn : n ≤ 2147483647) :
    r * (n : ℚ) - 1 / 4194304 ≤ binary64 (r * (n : ℚ)) ∧
    binary64 (r * (n : ℚ)) ≤ r * (n : ℚ) + 1 / 4194304 := by
  have hnq0 : (0 : ℚ) ≤ (n : ℚ) := by exact_mod_cast hn0
  have hnq : (n : ℚ) ≤ 2147483647 := by exact_mod_cast hn
  have hx0 : 0 ≤ r * (n : ℚ) := mul_nonneg h0 hnq0
  have hx1 : r * (n : ℚ) ≤ (n : ℚ) := by
    calc r * (n : ℚ) ≤ 1 * (n : ℚ) := mul_le_mul_of_nonneg_right h1 hnq0
      _ = (n : ℚ) := one_mul _
  have h := abs_binary64_sub_le_small hx0 (by linarith)
  rw [abs_le] at h
  constructor <;> linarith

/-- The product of a factor in `[0, 1]` and a non-negative `int` `n`, rounded to binary64 and
truncated by `(int)`, lies in `[0, n]`. -/
theorem Binary64.scaled_bounds {r : ℚ} (h0 : 0 ≤ r) (h1 : r ≤ 1) {n : ℤ} (hn0 : 0 ≤ n)
    (hn : n ≤ 2147483647) :
    0 ≤ truncToInt (binary64 (r * (n : ℚ))) ∧ truncToInt (binary64 (r * (n : ℚ))) ≤ n := by
  have hnq0 : (0 : ℚ) ≤ (n : ℚ) := by exact_mod_cast hn0
  have hx0 : 0 ≤ r * (n : ℚ) := mul_nonneg h0 hnq0
  have hx1 : r * (n : ℚ) ≤ (n : ℚ) := by
    calc r * (n : ℚ) ≤ 1 * (n : ℚ) := mul_le_mul_of_nonneg_right h1 hnq0
      _ = (n : ℚ) := one_mul _
  have hb := binary64_nonneg hx0
  have he := Binary64.scaled_error h0 h1 hn0 hn
  refine ⟨truncToInt_nonneg hb, ?_⟩
  rw [truncToInt_of_nonneg hb]
  apply Int.floor_le_iff.mpr
  linarith [he.2]

/-- Strict order of the truncated positions of two bins `i < j`, on an extent `W` of at least
20 pixels. -/
theorem Binary64.position_lt {W : ℤ} (hW : 20 ≤ W) (hmax : W ≤ 2147483647) {i j : ℕ}
    (hij : i < j) (hj : j ≤ 9) :
    truncToInt (binary64 (Binary64.normalised Histogram.grainSizes i * (W : ℚ)))
      < truncToInt (binary64 (Binary64.normalised Histogram.grainSizes j * (W : ℚ))) := by
  obtain ⟨⟨hi0, hi1⟩, _, hiu⟩ := Binary64.normalised_near i (by omega)
  obtain ⟨⟨hj0, hj1⟩, hjl, _⟩ := Binary64.normalised_near j hj
  have hW0 : (0 : ℤ) ≤ W := by omega
  have hWq : (20 : ℚ) ≤ (W : ℚ) := by exact_mod_cast hW
  have hA := Binary64.scaled_error hi0 hi1 hW0 hmax
  have hB := Binary64.scaled_error hj0 hj1 hW0 hmax
  have hijq : (i : ℚ) + 1 ≤ (j : ℚ) := by exact_mod_cast hij
  have hd : (1 / 10 : ℚ) ≤ Binary64.normalised Histogram.grainSizes j
      - Binary64.normalised Histogram.grainSizes i := by linarith
  have hprod : (1 / 10 : ℚ) * (W : ℚ) ≤ (Binary64.normalised Histogram.grainSizes j
      - Binary64.normalised Histogram.grainSizes i) * (W : ℚ) :=
    mul_le_mul_of_nonneg_right hd (by linarith)
  apply truncToInt_lt_of_add_one_le
  · exact binary64_nonneg (mul_nonneg hi0 (by linarith))
  · linarith [hA.2, hB.1]

/-- From bin `i` to bin `i + 1` the truncated position advances by at least `b`, when the
extent `W` exceeds `9 * b` by a twenty-seventh of a pixel or more. -/
theorem Binary64.position_step {W b : ℤ} (hW : 0 ≤ W) (hmax : W ≤ 2147483647)
    (hb : (b : ℚ) + 1 / 27 ≤ (W : ℚ) / 9 ∨ (W = 0 ∧ b = 0)) {i : ℕ} (hi : i ≤ 8) :
    truncToInt (binary64 (Binary64.normalised Histogram.grainSizes i * (W : ℚ))) + b
      ≤ truncToInt (binary64 (Binary64.normalised Histogram.grainSizes (i + 1) * (W : ℚ))) := by
  rcases hb with hb | ⟨hW0, hb0⟩
  · obtain ⟨⟨hi0, hi1⟩, _, hiu⟩ := Binary64.normalised_near i (by omega)
    obtain ⟨⟨hj0, hj1⟩, hjl, _⟩ := Binary64.normalised_near (i + 1) (by omega)
    have hWq0 : (0 : ℚ) ≤ (W : ℚ) := by exact_mod_cast hW
    have hWq : (W : ℚ) ≤ 2147483647 := by exact_mod_cast hmax
    have hA := Binary64.scaled_error hi0 hi1 hW hmax
    have hB := Binary64.scaled_error hj0 hj1 hW hmax
    have hA0 := binary64_nonneg (mul_nonneg hi0 hWq0)
    have hB0 := binary64_nonneg (mul_nonneg hj0 hWq0)
    have hd : (1 / 9 : ℚ) - 1 / 2251799813685248 ≤ Binary64.normalised Histogram.grainSizes (i + 1)
        - Binary64.normalised Histogram.grainSizes i := by
      push_cast at hjl
      linarith
    have hprod : ((1 / 9 : ℚ) - 1 / 2251799813685248) * (W : ℚ)
        ≤ (Binary64.normalised Histogram.grainSizes (i + 1)
          - Binary64.normalised Histogram.grainSizes i) * (W : ℚ) :=
      mul_le_mul_of_nonneg_right hd hWq0
    have hAB : binary64 (Binary64.normalised Histogram.grainSizes i * (W : ℚ)) + (b : ℚ)
        ≤ binary64 (Binary64.normalised Histogram.grainSizes (i + 1) * (W : ℚ)) := by
      linarith [hA.2, hB.1]
    rw [truncToInt_of_nonneg hA0, truncToInt_of_nonneg hB0, ← Int.floor_add_int]
    exact Int.floor_mono hAB
  · subst hW0 hb0
    simp

/-! ## Bar heights -/

/-- C1 (counterexample). On the 330x260 surface that `WM_PAINT` passes, bin 8 (count 2)
has `counts[i] / maxCount * plotHeight = 12.8`; `DrawGraph` gives the bar the height 12,
whereas rounding gives 13. -/
theorem C1_barHeight_not_round :
    Histogram.barHeight 200 260 8 = 12 ∧
    round (((Histogram.counts.getD 8 0 : ℤ) : ℚ) / ((Histogram.maxCount : ℤ) : ℚ)
      * (((260 : ℤ) - 100 : ℤ) : ℚ)) = 13 ∧
    Histogram.barHeight 200 260 8 ≠
      round (((Histogram.counts.getD 8 0 : ℤ) : ℚ) / ((Histogram.maxCount : ℤ) : ℚ)
        * (((260 : ℤ) - 100 : ℤ) : ℚ)) := by
  have h1 : Histogram.barHeight 200 260 8 = 12 := by
    simp only [Histogram.barHeight, barHeightOf, graphBottom_sub_graphTop]
    rw [show maxCountOf Histogram.counts = 25 from Histogram.maxCount_eq]
    norm_num [Histogram.counts, truncToInt]
  have h2 : round (((Histogram.counts.getD 8 0 : ℤ) : ℚ) / ((Histogram.maxCount : ℤ) : ℚ)
      * (((260 : ℤ) - 100 : ℤ) : ℚ)) = 13 := by
    rw [Histogram.maxCount_eq, round_eq]
    norm_num [Histogram.counts]
  refine ⟨h1, h2, ?_⟩
  rw [h1, h2]
  decide

/-- C1 (amended). For every bin `i` in 0..9 and every surface height with
`plotHeight = height - 100 ≥ 0`, the bar height computed by `DrawGraph` is the floor of
`counts[i] / maxCount * plotHeight` (the fractional part is discarded, not rounded), that
is, the integer quotient of `counts[i] * plotHeight` by `maxCount = 25`. -/
theorem C1_barHeight_eq_floor (y height : ℤ) (i : ℕ) (hi : i < 10)
    (hph : 0 ≤ height - 100) :
    Histogram.barHeight y height i =
      ⌊((Histogram.counts.getD i 0 : ℤ) : ℚ) / ((Histogram.maxCount : ℤ) : ℚ)
        * ((height - 100 : ℤ) : ℚ)⌋ ∧
    Histogram.barHeight y height i = Histogram.counts.getD i 0 * (height - 100) / 25 := by
  have hc : (0 : ℚ) ≤ ((Histogram.counts.getD i 0 : ℤ) : ℚ) := by
    exact_mod_cast Histogram.counts_nonneg i hi
  have hp : (0 : ℚ) ≤ ((height - 100 : ℤ) : ℚ) := by exact_mod_cast hph
  have hq : (0 : ℚ) ≤ ((Histogram.counts.getD i 0 : ℤ) : ℚ) / ((Histogram.maxCount : ℤ) : ℚ)
      * ((height - 100 : ℤ) : ℚ) := by
    rw [Histogram.maxCount_eq]
    positivity
  have hfloor : Histogram.barHeight y height i =
      ⌊((Histogram.counts.getD i 0 : ℤ) : ℚ) / ((Histogram.maxCount : ℤ) : ℚ)
        * ((height - 100 : ℤ) : ℚ)⌋ := by
    simp only [Histogram.barHeight, barHeightOf, graphBottom_sub_graphTop]
    exact truncToInt_of_nonneg hq
  refine ⟨hfloor, ?_⟩
  rw [hfloor, Histogram.maxCount_eq]
  have hrew : ((Histogram.counts.getD i 0 : ℤ) : ℚ) / ((25 : ℤ) : ℚ)
      * ((height - 100 : ℤ) : ℚ)
      = ((Histogram.counts.getD i 0 * (height - 100) : ℤ) : ℚ) / ((25 : ℕ) : ℚ) := by
    push_cast
    ring
  rw [hrew, Rat.floor_intCast_div_natCast]
  rfl

/-- C1 (witness): bin 8 on the 330x260 surface. -/
theorem C1_barHeight_eq_floor_witness :
    (8 < 10 ∧ (0 : ℤ) ≤ 260 - 100) ∧
    (Histogram.barHeight 200 260 8 =
      ⌊((Histogram.counts.getD 8 0 : ℤ) : ℚ) / ((Histogram.maxCount : ℤ) : ℚ)
        * (((260 : ℤ) - 100 : ℤ) : ℚ)⌋ ∧
    Histogram.barHeight 200 260 8 = Histogram.counts.getD 8 0 * (260 - 100) / 25) :=
  ⟨by decide, C1_barHeight_eq_floor 200 260 8 (by decide) (by decide)⟩

/-! ## Cumulative percentages of the fixed dataset -/

/-- The ten entries of `cumulativePercent` for the fixed dataset, in closed form. -/
theorem Cumulative.cumulativePercent_values :
    Cumulative.cumulativePercent 0 = 500 / 101 ∧
    Cumulative.cumulativePercent 1 = 1500 / 101 ∧
    Cumulative.cumulativePercent 2 = 3500 / 101 ∧
    Cumulative.cumulativePercent 3 = 6000 / 101 ∧
    Cumulative.cumulativePercent 4 = 8000 / 101 ∧
    Cumulative.cumulativePercent 5 = 9000 / 101 ∧
    Cumulative.cumulativePercent 6 = 9500 / 101 ∧
    Cumulative.cumulativePercent 7 = 9800 / 101 ∧
    Cumulative.cumulativePercent 8 = 10000 / 101 ∧
    Cumulative.cumulativePercent 9 = 100 := by
  have ht : totalOf Cumulative.counts = 101 := Cumulative.total_eq
  simp only [Cumulative.cumulativePercent, cumulativePercentOf, ht]
  norm_num [Cumulative.counts]

/-- C2 (counterexample). At index 6 the computed cumulative percentage is
`9500 / 101 = 94.059...`, which is not within 0.005 of the listed value 93.07. -/
theorem C2_index6_not_93_07 :
    ¬ |Cumulative.cumulativePercent 6 - 93.07| < 0.005 := by
  rw [Cumulative.cumulativePercent_values.2.2.2.2.2.2.1]
  norm_num [abs_lt]

/-- C2 (amended). For the fixed dataset (total 101) the ten cumulative percentages computed
in the cumulative-curve branch agree, to two decimal places (absolute error below 0.005),
with 4.95, 14.85, 34.65, 59.41, 79.21, 89.11, 94.06, 97.03, 99.01, 100.0. -/
theorem C2_cumulativePercent_two_decimals :
    |Cumulative.cumulativePercent 0 - 4.95| < 0.005 ∧
    |Cumulative.cumulativePercent 1 - 14.85| < 0.005 ∧
    |Cumulative.cumulativePercent 2 - 34.65| < 0.005 ∧
    |Cumulative.cumulativePercent 3 - 59.41| < 0.005 ∧
    |Cumulative.cumulativePercent 4 - 79.21| < 0.005 ∧
    |Cumulative.cumulativePercent 5 - 89.11| < 0.005 ∧
    |Cumulative.cumulativePercent 6 - 94.06| < 0.005 ∧
    |Cumulative.cumulativePercent 7 - 97.03| < 0.005 ∧
    |Cumulative.cumulativePercent 8 - 99.01| < 0.005 ∧
    |Cumulative.cumulativePercent 9 - 100.0| < 0.005 := by
  obtain ⟨h0, h1, h2, h3, h4, h5, h6, h7, h8, h9⟩ := Cumulative.cumulativePercent_values
  rw [h0, h1, h2, h3, h4, h5, h6, h7, h8, h9]
  norm_num [abs_lt]

/-! ## Degenerate surfaces -/

/-- C3 (counterexample). Called with a zero-width surface, `DrawGraph` returns normally and
has issued drawing commands: the call does not end in `InvalidSurfaceError` with an empty
command trace. -/
theorem C3_zero_width_still_draws :
    ¬ ((runDrawGraph 520 200 0 260 histogramTitle).thrown = some "InvalidSurfaceError" ∧
       (runDrawGraph 520 200 0 260 histogramTitle).cmds = []) := by
  simp [runDrawGraph]

/-- C3 (amended). `DrawGraph` has no guard on the surface size and no error path. Called
with `width = 0` (any `x`, `y`, `height`, either chart title) it returns normally, raising
nothing, and issues its whole drawing sequence, in this order: the fill, the alpha blend,
the border and the title; 6 horizontal and 11 vertical gridlines; the 2 axes; then 10 bars,
or the polyline and the 10 markers of its 10 vertices; and the 2 labels. These are 54
commands for the histogram and 55 for the cumulative curve. -/
theorem C3_zero_width_full_trace (x y height : ℤ) (title : String)
    (ht : title = histogramTitle ∨ title = cumulativeTitle) :
    (runDrawGraph x y 0 height title).thrown = none ∧
    (runDrawGraph x y 0 height title).cmds =
      [ DrawCmd.FillRect { left := 0, top := 0, right := 0, bottom := height },
        DrawCmd.AlphaBlend x y 0 height,
        DrawCmd.RoundRect x y (x + 0) (y + height) 10 10,
        DrawCmd.DrawText title { left := x, top := y + 10, right := x + 0, bottom := y + 36 }
          [DTFlag.DT_CENTER, DTFlag.DT_SINGLELINE] ] ++
      ((List.range 6).flatMap fun i =>
        [ DrawCmd.MoveToEx (x + 60) (hGridY y height i),
          DrawCmd.LineTo (x + 0 - 30) (hGridY y height i) ]) ++
      ((List.range 11).flatMap fun i =>
        [ DrawCmd.MoveToEx (vGridX x 0 i) (y + 50),
          DrawCmd.LineTo (vGridX x 0 i) (y + height - 50) ]) ++
      [ DrawCmd.MoveToEx (x + 60) (y + height - 50),
        DrawCmd.LineTo (x + 0 - 30) (y + height - 50),
        DrawCmd.MoveToEx (x + 60) (y + 50),
        DrawCmd.LineTo (x + 60) (y + height - 50) ] ++
      (if title = histogramTitle then
        ((List.range 10).map fun i =>
          DrawCmd.Rectangle (Binary64.barX x 0 i) (Histogram.barY y height i)
            (Binary64.barX x 0 i + Histogram.barWidth x 0) (y + height - 50)) ++
        [ DrawCmd.DrawText "Grain Size (mm)"
            { left := x, top := y + height - 65, right := x + 0, bottom := y + height }
            [DTFlag.DT_CENTER, DTFlag.DT_VCENTER, DTFlag.DT_SINGLELINE],
          DrawCmd.DrawText "Frequency" (Histogram.vertRect x y height)
            [DTFlag.DT_CENTER, DTFlag.DT_VCENTER, DTFlag.DT_SINGLELINE] ]
      else
        [ DrawCmd.Polyline ((List.range 10).map fun i =>
            { x := Binary64.xPos x 0 i, y := Binary64.yPos y height i }) ] ++
        ((List.range 10).map fun i =>
          DrawCmd.Ellipse (Binary64.xPos x 0 i - 4) (Binary64.yPos y height i - 4)
            (Binary64.xPos x 0 i + 4) (Binary64.yPos y height i + 4)) ++
        [ DrawCmd.DrawText "Grain Size (mm)"
            { left := x, top := y + height - 65, right := x + 0, bottom := y + height }
            [DTFlag.DT_CENTER, DTFlag.DT_VCENTER, DTFlag.DT_SINGLELINE],
          DrawCmd.DrawText "Cumulative % Passing" (Cumulative.vertRect x y height)
            [DTFlag.DT_CENTER, DTFlag.DT_VCENTER, DTFlag.DT_SINGLELINE] ]) ∧
    (runDrawGraph x y 0 height title).cmds.length =
      (if title = histogramTitle then 54 else 55) := by
  have hne : cumulativeTitle ≠ histogramTitle := by decide
  refine ⟨rfl, ?_, ?_⟩
  · rcases ht with rfl | rfl
    · simp only [runDrawGraph, DrawGraph, backgroundCmds, titleCmds, horizontalGridCmds,
        verticalGridCmds, axisCmds, Histogram.branchCmds, Histogram.barCmds, xAxisLabelCmd,
        graphLeft, graphRight, graphTop, graphBottom, if_true, List.append_assoc,
        List.cons_append, List.nil_append]
    · simp only [runDrawGraph, DrawGraph, backgroundCmds, titleCmds, horizontalGridCmds,
        verticalGridCmds, axisCmds, Cumulative.branchCmds, Cumulative.markerCmds,
        Binary64.points, xAxisLabelCmd, graphLeft, graphRight, graphTop, graphBottom,
        if_neg hne, if_true, List.append_assoc, List.cons_append, List.nil_append,
        List.map_map, Function.comp_def]
  · rcases ht with rfl | rfl
    · simp [runDrawGraph, DrawGraph, backgroundCmds, titleCmds, horizontalGridCmds,
        verticalGridCmds, axisCmds, Histogram.branchCmds, Histogram.barCmds, List.range,
        List.range.loop]
    · simp [runDrawGraph, DrawGraph, backgroundCmds, titleCmds, horizontalGridCmds,
        verticalGridCmds, axisCmds, Cumulative.branchCmds, Cumulative.markerCmds,
        Binary64.points, List.range, List.range.loop, hne]

/-- C3 (witness): the zero-width histogram surface at (520, 200) of height 260. -/
theorem C3_zero_width_full_trace_witness :
    (histogramTitle = histogramTitle ∨ histogramTitle = cumulativeTitle) ∧
    ((runDrawGraph 520 200 0 260 histogramTitle).thrown = none ∧
    (runDrawGraph 520 200 0 260 histogramTitle).cmds.length =
      (if histogramTitle = histogramTitle then 54 else 55)) :=
  ⟨Or.inl rfl,
   (C3_zero_width_full_trace 520 200 260 histogramTitle (Or.inl rfl)).1,
   (C3_zero_width_full_trace 520 200 260 histogramTitle (Or.inl rfl)).2.2⟩

/-! ## The tallest bar and the range of bar heights -/

/-- C4. Bar heights are normalised against `maxCount = 25`, the count of bin 3, not
against the total 101. For every surface height (in particular whenever
`plotHeight = height - 100 ≥ 0`) the bar of bin 3 has height exactly `plotHeight` and its
top edge `barY` is `graphTop = y + 50`; the same holds for every bin whose count equals
`maxCount`. -/
theorem C4_tallest_bar_reaches_top (y height : ℤ) :
    Histogram.maxCount = 25 ∧
    Histogram.counts.getD 3 0 = Histogram.maxCount ∧
    Histogram.barHeight y height 3 = height - 100 ∧
    Histogram.barY y height 3 = graphTop y ∧
    graphTop y = y + 50 ∧
    (∀ i, i < 10 → Histogram.counts.getD i 0 = Histogram.maxCount →
      Histogram.barHeight y height i = height - 100 ∧
      Histogram.barY y height i = graphTop y) := by
  have hm : maxCountOf Histogram.counts ≠ 0 := by
    rw [show maxCountOf Histogram.counts = 25 from Histogram.maxCount_eq]
    decide
  have key : ∀ i, Histogram.counts.getD i 0 = Histogram.maxCount →
      Histogram.barHeight y height i = height - 100 ∧
      Histogram.barY y height i = graphTop y := by
    intro i hc
    have hb : Histogram.barHeight y height i = height - 100 := by
      unfold Histogram.barHeight
      rw [barHeightOf_of_eq_max _ _ _ _ hm hc, graphBottom_sub_graphTop]
    refine ⟨hb, ?_⟩
    have hy : Histogram.barY y height i = graphBottom y height - Histogram.barHeight y height i :=
      rfl
    rw [hy, hb]
    unfold graphBottom graphTop
    ring
  have h3 : Histogram.counts.getD 3 0 = Histogram.maxCount := by
    rw [Histogram.maxCount_eq]
    simp [Histogram.counts]
  exact ⟨Histogram.maxCount_eq, h3, (key 3 h3).1, (key 3 h3).2, rfl, fun i _ hc => key i hc⟩

/-- C4 (witness): bin 3 on the 330x260 surface at (520, 200). -/
theorem C4_tallest_bar_reaches_top_witness :
    (3 < 10 ∧ Histogram.counts.getD 3 0 = Histogram.maxCount) ∧
    (Histogram.barHeight 200 260 3 = 260 - 100 ∧ Histogram.barY 200 260 3 = graphTop 200) :=
  ⟨⟨by decide, (C4_tallest_bar_reaches_top 200 260).2.1⟩,
   (C4_tallest_bar_reaches_top 200 260).2.2.2.2.2 3 (by decide)
     (C4_tallest_bar_reaches_top 200 260).2.1⟩

/-- C5. For every list of non-negative counts whose maximum (as found by the scan loop) is
positive, every surface with `plotHeight = height - 100 ≥ 0` and every bin `i` of the
list, the bar height `(int)(count / maxCount * plotHeight)` lies in `[0, plotHeight]`, and
hence `graphTop ≤ barY ≤ graphBottom`. -/
theorem C5_barHeight_in_range (cs : List ℤ) (y height : ℤ) (i : ℕ)
    (hnn : ∀ c ∈ cs, 0 ≤ c) (hmax : 0 < maxCountOf cs) (hph : 0 ≤ height - 100)
    (hi : i < cs.length) :
    0 ≤ barHeightOf cs (graphTop y) (graphBottom y height) i ∧
    barHeightOf cs (graphTop y) (graphBottom y height) i ≤ height - 100 ∧
    graphTop y ≤ barYOf cs (graphTop y) (graphBottom y height) i ∧
    barYOf cs (graphTop y) (graphBottom y height) i ≤ graphBottom y height := by
  have hc0 : (0 : ℚ) ≤ ((cs.getD i 0 : ℤ) : ℚ) := by
    exact_mod_cast hnn _ (getD_mem_of_lt hi)
  have hcm : ((cs.getD i 0 : ℤ) : ℚ) ≤ ((maxCountOf cs : ℤ) : ℚ) := by
    exact_mod_cast le_maxCountOf (getD_mem_of_lt hi)
  have hm : (0 : ℚ) < ((maxCountOf cs : ℤ) : ℚ) := by exact_mod_cast hmax
  have hp : (0 : ℚ) ≤ ((height - 100 : ℤ) : ℚ) := by exact_mod_cast hph
  have hr0 : (0 : ℚ) ≤ ((cs.getD i 0 : ℤ) : ℚ) / ((maxCountOf cs : ℤ) : ℚ) :=
    div_nonneg hc0 hm.le
  have hr1 : ((cs.getD i 0 : ℤ) : ℚ) / ((maxCountOf cs : ℤ) : ℚ) ≤ 1 :=
    (div_le_one hm).mpr hcm
  have hq0 : (0 : ℚ) ≤ ((cs.getD i 0 : ℤ) : ℚ) / ((maxCountOf cs : ℤ) : ℚ)
      * ((height - 100 : ℤ) : ℚ) := mul_nonneg hr0 hp
  have hq1 : ((cs.getD i 0 : ℤ) : ℚ) / ((maxCountOf cs : ℤ) : ℚ)
      * ((height - 100 : ℤ) : ℚ) ≤ ((height - 100 : ℤ) : ℚ) := by
    calc ((cs.getD i 0 : ℤ) : ℚ) / ((maxCountOf cs : ℤ) : ℚ) * ((height - 100 : ℤ) : ℚ)
        ≤ 1 * ((height - 100 : ℤ) : ℚ) := mul_le_mul_of_nonneg_right hr1 hp
      _ = ((height - 100 : ℤ) : ℚ) := one_mul _
  have hb0 : 0 ≤ barHeightOf cs (graphTop y) (graphBottom y height) i := by
    simp only [barHeightOf, graphBottom_sub_graphTop]
    exact truncToInt_nonneg hq0
  have hb1 : barHeightOf cs (graphTop y) (graphBottom y height) i ≤ height - 100 := by
    simp only [barHeightOf, graphBottom_sub_graphTop]
    exact truncToInt_le_of_le_intCast hq0 hq1
  refine ⟨hb0, hb1, ?_, ?_⟩
  · have hg := graphBottom_sub_graphTop y height
    unfold barYOf
    omega
  · unfold barYOf
    omega

/-- C5 (witness): the fixed dataset, bin 8, on the 330x260 surface at (520, 200). -/
theorem C5_barHeight_in_range_witness :
    ((∀ c ∈ Histogram.counts, 0 ≤ c) ∧ 0 < maxCountOf Histogram.counts ∧
      (0 : ℤ) ≤ 260 - 100 ∧ 8 < Histogram.counts.length) ∧
    (0 ≤ barHeightOf Histogram.counts (graphTop 200) (graphBottom 200 260) 8 ∧
      barHeightOf Histogram.counts (graphTop 200) (graphBottom 200 260) 8 ≤ 260 - 100 ∧
      graphTop 200 ≤ barYOf Histogram.counts (graphTop 200) (graphBottom 200 260) 8 ∧
      barYOf Histogram.counts (graphTop 200) (graphBottom 200 260) 8 ≤ graphBottom 200 260) :=
  ⟨⟨by decide, by decide, by decide, by decide⟩,
   C5_barHeight_in_range Histogram.counts 200 260 8 (by decide) (by decide) (by decide)
     (by decide)⟩

/-! ## The cumulative curve -/

/-- C6. The cumulative percentage sequence is non-decreasing: for the fixed dataset
`cumulativePercent[i - 1] ≤ cumulativePercent[i]` for every `i` in 1..9, and the same holds
at every index of any dataset of non-negative counts with positive total. -/
theorem C6_cumulativePercent_monotone :
    (∀ i, 1 ≤ i → i ≤ 9 →
      Cumulative.cumulativePercent (i - 1) ≤ Cumulative.cumulativePercent i) ∧
    (∀ cs : List ℤ, (∀ c ∈ cs, 0 ≤ c) → 0 < totalOf cs → ∀ i, 1 ≤ i → i < cs.length →
      cumulativePercentOf cs (i - 1) ≤ cumulativePercentOf cs i) := by
  have step : ∀ cs : List ℤ, (∀ c ∈ cs, 0 ≤ c) → 0 < totalOf cs → ∀ i, 1 ≤ i →
      cumulativePercentOf cs (i - 1) ≤ cumulativePercentOf cs i := by
    intro cs hnn htot i hi
    obtain ⟨k, rfl⟩ : ∃ k, i = k + 1 := ⟨i - 1, by omega⟩
    have hc : (0 : ℚ) ≤ ((cs.getD (k + 1) 0 : ℤ) : ℚ) := by
      exact_mod_cast getD_nonneg hnn (k + 1)
    have ht : (0 : ℚ) < ((totalOf cs : ℤ) : ℚ) := by exact_mod_cast htot
    have hinc : (0 : ℚ) ≤ (((cs.getD (k + 1) 0 : ℤ) : ℚ) * 100.0) / ((totalOf cs : ℤ) : ℚ) :=
      div_nonneg (mul_nonneg hc (by norm_num)) ht.le
    have hrec : cumulativePercentOf cs (k + 1) = cumulativePercentOf cs k
        + (((cs.getD (k + 1) 0 : ℤ) : ℚ) * 100.0) / ((totalOf cs : ℤ) : ℚ) := rfl
    rw [Nat.add_sub_cancel, hrec]
    linarith
  refine ⟨fun i hi _ => ?_, fun cs hnn htot i hi _ => step cs hnn htot i hi⟩
  exact step Cumulative.counts (by decide) (by decide) i hi

/-- C6 (witness): the last step of the fixed dataset, and the step at index 1 of the
dataset `[3, 0, 4]`. -/
theorem C6_cumulativePercent_monotone_witness :
    ((1 ≤ 9 ∧ 9 ≤ 9) ∧
      Cumulative.cumulativePercent (9 - 1) ≤ Cumulative.cumulativePercent 9) ∧
    (((∀ c ∈ ([3, 0, 4] : List ℤ), 0 ≤ c) ∧ 0 < totalOf [3, 0, 4] ∧ 1 ≤ 1 ∧
        1 < ([3, 0, 4] : List ℤ).length) ∧
      cumulativePercentOf [3, 0, 4] (1 - 1) ≤ cumulativePercentOf [3, 0, 4] 1) :=
  ⟨⟨by decide, C6_cumulativePercent_monotone.1 9 (by decide) (by decide)⟩,
   ⟨by decide, C6_cumulativePercent_monotone.2 [3, 0, 4] (by decide) (by decide) 1
     (by decide) (by decide)⟩⟩

/-- C7. The cumulative percentage reaches 100% at the last bin although the counts sum to
101: `cumulativePercent[9] = 100` exactly, so for every surface (in particular whenever
`plotHeight ≥ 0`) the last curve vertex has `yPos = graphTop = y + 50`, exactly on the
plot's 100% ceiling. -/
theorem C7_curve_reaches_100 (x y width height : ℤ) :
    Cumulative.total = 101 ∧
    Cumulative.cumulativePercent 9 = 100 ∧
    Cumulative.yPos y height 9 = graphTop y ∧
    graphTop y = y + 50 ∧
    (Cumulative.points x y width height).getLast? =
      some { x := Cumulative.xPos x width 9, y := y + 50 } := by
  have h9 : cumulativePercentOf Cumulative.counts 9 = 100 :=
    Cumulative.cumulativePercent_values.2.2.2.2.2.2.2.2.2
  have hy : Cumulative.yPos y height 9 = graphTop y := by
    simp only [Cumulative.yPos, yPosOf, h9, graphBottom_sub_graphTop]
    have h1 : (100 : ℚ) / 100.0 * ((height - 100 : ℤ) : ℚ) = ((height - 100 : ℤ) : ℚ) := by
      norm_num
    rw [h1, truncToInt_intCast]
    unfold graphBottom graphTop
    ring
  refine ⟨Cumulative.total_eq, h9, hy, rfl, ?_⟩
  have hlast : (Cumulative.points x y width height).getLast? =
      some { x := Cumulative.xPos x width 9, y := Cumulative.yPos y height 9 } := by
    simp [Cumulative.points, List.range, List.range.loop]
  rw [hlast, hy]
  rfl

/-- C8. For every `i` in 0..9 the value `cumulativePercent[i]` that the code builds
incrementally equals the data model's definition `100 * (counts[0] + ... + counts[i]) /
total`, with `total` the sum of all ten counts; the two definitions agree on every dataset
and at every index. -/
theorem C8_incremental_eq_running_sum :
    (∀ i, i ≤ 9 →
      Cumulative.cumulativePercent i = specCumulativePercent Cumulative.counts i) ∧
    (∀ (cs : List ℤ) (i : ℕ), cumulativePercentOf cs i = specCumulativePercent cs i) := by
  have gen : ∀ (cs : List ℤ) (i : ℕ), cumulativePercentOf cs i = specCumulativePercent cs i := by
    intro cs i
    rw [cumulativePercentOf_closed_form, totalOf_eq_sum]
    rfl
  exact ⟨fun i _ => gen Cumulative.counts i, gen⟩

/-- C8 (witness): index 6 of the fixed dataset. -/
theorem C8_incremental_eq_running_sum_witness :
    6 ≤ 9 ∧ Cumulative.cumulativePercent 6 = specCumulativePercent Cumulative.counts 6 :=
  ⟨by decide, C8_incremental_eq_running_sum.1 6 (by decide)⟩

/-! ## Horizontal positions and the plotting rectangle -/

/-- In exact rational arithmetic, too, the horizontal positions are strictly increasing in
the bin index for every surface width of at least 200. -/
theorem exact_positions_strictMono (x width : ℤ) (i j : ℕ)
    (hw : 200 ≤ width) (hij : i < j) (hj : j ≤ 9) :
    Histogram.barX x width i < Histogram.barX x width j ∧
    Cumulative.xPos x width i < Cumulative.xPos x width j := by
  have hpw : graphRight x width - graphLeft x = width - 90 := graphRight_sub_graphLeft x width
  have hbw : barWidthOf (graphLeft x) (graphRight x width) = (width - 90) / 15 := by
    unfold barWidthOf
    rw [hpw, Int.tdiv_eq_ediv (by omega) (by decide)]
  constructor
  · simp only [Histogram.barX, barXOf]
    rw [Histogram.histGrainSizes_normalised i (by omega), Histogram.histGrainSizes_normalised j hj]
    have hW : 9 ≤ graphRight x width - graphLeft x
        - barWidthOf (graphLeft x) (graphRight x width) := by
      rw [hbw, hpw]
      omega
    have := truncToInt_ninths_strictMono _ hW i j hij
    omega
  · simp only [Cumulative.xPos, xPosOf]
    rw [Cumulative.curveGrainSizes_normalised i (by omega), Cumulative.curveGrainSizes_normalised j hj]
    have hW : 9 ≤ graphRight x width - graphLeft x := by
      rw [hpw]
      omega
    have := truncToInt_ninths_strictMono _ hW i j hij
    omega

/-- C9. For every surface width of at least 200 (and at most 2147483647, `width` being an
`int`) the horizontal positions that `DrawGraph` computes are strictly increasing in the
bin index, for both chart kinds: `barX_i < barX_j` and `xPos_i < xPos_j` whenever
`i < j ≤ 9`. The positions are those of lines 659 and 715 evaluated in binary64, as the
machine does. -/
theorem C9_horizontal_positions_strictMono (x width : ℤ) (i j : ℕ)
    (hw : 200 ≤ width) (hmax : width ≤ 2147483647) (hij : i < j) (hj : j ≤ 9) :
    Binary64.barX x width i < Binary64.barX x width j ∧
    Binary64.xPos x width i < Binary64.xPos x width j := by
  have hpw : graphRight x width - graphLeft x = width - 90 := graphRight_sub_graphLeft x width
  have hbw : barWidthOf (graphLeft x) (graphRight x width) = (width - 90) / 15 := by
    unfold barWidthOf
    rw [hpw, Int.tdiv_eq_ediv (by omega) (by decide)]
  constructor
  · have hW : 20 ≤ graphRight x width - graphLeft x
        - barWidthOf (graphLeft x) (graphRight x width) := by
      rw [hbw, hpw]
      omega
    have hM : graphRight x width - graphLeft x
        - barWidthOf (graphLeft x) (graphRight x width) ≤ 2147483647 := by
      rw [hbw, hpw]
      omega
    have h := Binary64.position_lt hW hM hij hj
    simp only [Binary64.barX, Binary64.barXOf]
    omega
  · have hW : 20 ≤ graphRight x width - graphLeft x := by
      rw [hpw]
      omega
    have hM : graphRight x width - graphLeft x ≤ 2147483647 := by
      rw [hpw]
      omega
    have h := Binary64.position_lt hW hM hij hj
    simp only [Binary64.xPos, Binary64.xPosOf, Binary64.normalised_curve]
    omega

/-- C9 (witness): bins 8 and 9 on a surface of the minimum width 200. -/
theorem C9_horizontal_positions_strictMono_witness :
    ((200 : ℤ) ≤ 200 ∧ (200 : ℤ) ≤ 2147483647 ∧ 8 < 9 ∧ 9 ≤ 9) ∧
    (Binary64.barX 520 200 8 < Binary64.barX 520 200 9 ∧
      Binary64.xPos 520 200 8 < Binary64.xPos 520 200 9) :=
  ⟨by decide, C9_horizontal_positions_strictMono 520 200 8 9 (by decide) (by decide)
    (by decide) (by decide)⟩

/-- C10. For every surface `(x, y, width, height)` the plotting rectangle of `DrawGraph`
is the surface inset by 60 px on the left, 30 px on the right and 50 px at the top and at
the bottom, so `plotWidth = width - 90` and `plotHeight = height - 100`; the two axes that
`DrawGraph` draws run along its left and bottom edges; and for the two 330 x 260 surfaces
that `WM_PAINT` passes the plotting rectangle is 240 x 160. -/
theorem C10_plot_rectangle (x y width height : ℤ) (title : String) :
    graphLeft x = x + 60 ∧
    graphRight x width = x + width - 30 ∧
    graphTop y = y + 50 ∧
    graphBottom y height = y + height - 50 ∧
    graphRight x width - graphLeft x = width - 90 ∧
    graphBottom y height - graphTop y = height - 100 ∧
    axisCmds x y width height =
      [ DrawCmd.MoveToEx (x + 60) (y + height - 50),
        DrawCmd.LineTo (x + width - 30) (y + height - 50),
        DrawCmd.MoveToEx (x + 60) (y + 50),
        DrawCmd.LineTo (x + 60) (y + height - 50) ] ∧
    axisCmds x y width height <:+: DrawGraph x y width height title ∧
    paintGraphs true =
      DrawGraph 520 200 330 260 histogramTitle ++ DrawGraph 870 200 330 260 cumulativeTitle ∧
    graphRight 520 330 - graphLeft 520 = 240 ∧
    graphRight 870 330 - graphLeft 870 = 240 ∧
    graphBottom 200 260 - graphTop 200 = 160 := by
  refine ⟨rfl, rfl, rfl, rfl, graphRight_sub_graphLeft x width,
    graphBottom_sub_graphTop y height, rfl, ?_, rfl, by decide, by decide, by decide⟩
  refine ⟨backgroundCmds x y width height ++ titleCmds x y width title ++
      horizontalGridCmds x y width height ++ verticalGridCmds x y width height,
    (if title = histogramTitle then Histogram.branchCmds x y width height
     else if title = cumulativeTitle then Cumulative.branchCmds x y width height
     else []), ?_⟩
  simp only [DrawGraph, List.append_assoc]

/-! ## Gridlines -/

/-- C11 (counterexample). On the histogram surface that `WM_PAINT` passes, the two
gridline loops do not issue 5 and 10 line segments. -/
theorem C11_not_five_and_ten :
    ¬ (lineSegments (horizontalGridCmds 520 200 330 260) = 5 ∧
       lineSegments (verticalGridCmds 520 200 330 260) = 10) := by
  simp [lineSegments, horizontalGridCmds, verticalGridCmds, List.range, List.range.loop,
    List.countP_cons]

/-- C11 (amended). For every call, the horizontal gridline loop (`i = 0..5`) issues exactly
6 line segments and the vertical gridline loop (`i = 0..10`) exactly 11: the lines bound 5
horizontal bands and 10 vertical bands of the plotting rectangle, both edges included. The
two loops' commands are part of the trace of `DrawGraph`, for every title. -/
theorem C11_gridline_counts (x y width height : ℤ) (title : String) :
    lineSegments (horizontalGridCmds x y width height) = 6 ∧
    lineSegments (verticalGridCmds x y width height) = 11 ∧
    (horizontalGridCmds x y width height ++ verticalGridCmds x y width height)
      <:+: DrawGraph x y width height title := by
  refine ⟨?_, ?_, ?_⟩
  · simp [lineSegments, horizontalGridCmds, List.range, List.range.loop, List.countP_cons]
  · simp [lineSegments, verticalGridCmds, List.range, List.range.loop, List.countP_cons]
  · refine ⟨backgroundCmds x y width height ++ titleCmds x y width title,
      axisCmds x y width height ++
        (if title = histogramTitle then Histogram.branchCmds x y width height
         else if title = cumulativeTitle then Cumulative.branchCmds x y width height
         else []), ?_⟩
    simp only [DrawGraph, List.append_assoc]

/-! ## The two charts painted by `WM_PAINT` -/

/-- The left edges of the ten bars on the histogram surface of `WM_PAINT`, as the machine
computes them. -/
theorem Binary64.paint_barX_values :
    Binary64.barX 520 330 0 = 580 ∧
    Binary64.barX 520 330 1 = 604 ∧
    Binary64.barX 520 330 2 = 629 ∧
    Binary64.barX 520 330 3 = 654 ∧
    Binary64.barX 520 330 4 = 679 ∧
    Binary64.barX 520 330 5 = 704 ∧
    Binary64.barX 520 330 6 = 729 ∧
    Binary64.barX 520 330 7 = 754 ∧
    Binary64.barX 520 330 8 = 779 ∧
    Binary64.barX 520 330 9 = 803 := by
  have hW : graphRight 520 330 - graphLeft 520 - barWidthOf (graphLeft 520) (graphRight 520 330) = 224 := by decide
  obtain ⟨h0, h1, h2, h3, h4, h5, h6, h7, h8, h9⟩ := Binary64.normalised_values
  have hp0 : binary64 (0 * ((224 : ℤ) : ℚ)) = 0 := by
    have e : (0 * ((224 : ℤ) : ℚ) : ℚ) = 0 := by norm_num
    rw [e, binary64_zero]
  have hx0 : Binary64.barX 520 330 0 = 580 := by
    simp only [Binary64.barX, Binary64.barXOf, hW, h0, hp0]
    norm_num [truncToInt, graphLeft, graphBottom]
  have hp1 : binary64 (4003199668773773 / 36028797018963968 * ((224 : ℤ) : ℚ)) = 7005599420354103 / 281474976710656 :=
    (binary64_cert _ 48 7005599420354103 (by norm_num) (by norm_num) (by norm_num)
      (by norm_num [abs_lt])).trans (by norm_num)
  have hx1 : Binary64.barX 520 330 1 = 604 := by
    simp only [Binary64.barX, Binary64.barXOf, hW, h1, hp1]
    norm_num [truncToInt, graphLeft, graphBottom]
  have hp2 : binary64 (4003199668773773 / 18014398509481984 * ((224 : ℤ) : ℚ)) = 7005599420354103 / 140737488355328 :=
    (binary64_cert _ 47 7005599420354103 (by norm_num) (by norm_num) (by norm_num)
      (by norm_num [abs_lt])).trans (by norm_num)
  have hx2 : Binary64.barX 520 330 2 = 629 := by
    simp only [Binary64.barX, Binary64.barXOf, hW, h2, hp2]
    norm_num [truncToInt, graphLeft, graphBottom]
  have hp3 : binary64 (3002399751580331 / 9007199254740992 * ((224 : ℤ) : ℚ)) = 5254199565265579 / 70368744177664 :=
    (binary64_cert _ 46 5254199565265579 (by norm_num) (by norm_num) (by norm_num)
      (by norm_num [abs_lt])).trans (by norm_num)
  have hx3 : Binary64.barX 520 330 3 = 654 := by
    simp only [Binary64.barX, Binary64.barXOf, hW, h3, hp3]
    norm_num [truncToInt, graphLeft, graphBottom]
  have hp4 : binary64 (8006399337547549 / 18014398509481984 * ((224 : ℤ) : ℚ)) = 7005599420354105 / 70368744177664 :=
    (binary64_cert _ 46 7005599420354105 (by norm_num) (by norm_num) (by norm_num)
      (by norm_num [abs_lt])).trans (by norm_num)
  have hx4 : Binary64.barX 520 330 4 = 679 := by
    simp only [Binary64.barX, Binary64.barXOf, hW, h4, hp4]
    norm_num [truncToInt, graphLeft, graphBottom]
  have hp5 : binary64 (2501999792983609 / 4503599627370496 * ((224 : ℤ) : ℚ)) = 1094624909430329 / 8796093022208 :=
    (binary64_cert_tie _ 46 8756999275442632 (by norm_num) (by norm_num) (by norm_num)
      (Or.inr (by norm_num)) (by decide)).trans (by norm_num)
  have hx5 : Binary64.barX 520 330 5 = 704 := by
    simp only [Binary64.barX, Binary64.barXOf, hW, h5, hp5]
    norm_num [truncToInt, graphLeft, graphBottom]
  have hp6 : binary64 (3002399751580331 / 4503599627370496 * ((224 : ℤ) : ℚ)) = 5254199565265579 / 35184372088832 :=
    (binary64_cert _ 45 5254199565265579 (by norm_num) (by norm_num) (by norm_num)
      (by norm_num [abs_lt])).trans (by norm_num)
  have hx6 : Binary64.barX 520 330 6 = 729 := by
    simp only [Binary64.barX, Binary64.barXOf, hW, h6, hp6]
    norm_num [truncToInt, graphLeft, graphBottom]
  have hp7 : binary64 (875699927544263 / 1125899906842624 * ((224 : ℤ) : ℚ)) = 6129899492809841 / 35184372088832 :=
    (binary64_cert _ 45 6129899492809841 (by norm_num) (by norm_num) (by norm_num)
      (by norm_num [abs_lt])).trans (by norm_num)
  have hx7 : Binary64.barX 520 330 7 = 754 := by
    simp only [Binary64.barX, Binary64.barXOf, hW, h7, hp7]
    norm_num [truncToInt, graphLeft, graphBottom]
  have hp8 : binary64 (8006399337547549 / 9007199254740992 * ((224 : ℤ) : ℚ)) = 7005599420354105 / 35184372088832 :=
    (binary64_cert _ 45 7005599420354105 (by norm_num) (by norm_num) (by norm_num)
      (by norm_num [abs_lt])).trans (by norm_num)
  have hx8 : Binary64.barX 520 330 8 = 779 := by
    simp only [Binary64.barX, Binary64.barXOf, hW, h8, hp8]
    norm_num [truncToInt, graphLeft, graphBottom]
  have hp9 : binary64 (9007199254740991 / 9007199254740992 * ((224 : ℤ) : ℚ)) = 7881299347898367 / 35184372088832 :=
    (binary64_cert _ 45 7881299347898367 (by norm_num) (by norm_num) (by norm_num)
      (by norm_num [abs_lt])).trans (by norm_num)
  have hx9 : Binary64.barX 520 330 9 = 803 := by
    simp only [Binary64.barX, Binary64.barXOf, hW, h9, hp9]
    norm_num [truncToInt, graphLeft, graphBottom]
  exact ⟨hx0, hx1, hx2, hx3, hx4, hx5, hx6, hx7, hx8, hx9⟩

/-- The abscissas of the ten vertices on the curve surface of `WM_PAINT`, as the machine
computes them. -/
theorem Binary64.paint_xPos_values :
    Binary64.xPos 870 330 0 = 930 ∧
    Binary64.xPos 870 330 1 = 956 ∧
    Binary64.xPos 870 330 2 = 983 ∧
    Binary64.xPos 870 330 3 = 1010 ∧
    Binary64.xPos 870 330 4 = 1036 ∧
    Binary64.xPos 870 330 5 = 1063 ∧
    Binary64.xPos 870 330 6 = 1090 ∧
    Binary64.xPos 870 330 7 = 1116 ∧
    Binary64.xPos 870 330 8 = 1143 ∧
    Binary64.xPos 870 330 9 = 1169 := by
  have hW : graphRight 870 330 - graphLeft 870 = 240 := by decide
  obtain ⟨h0, h1, h2, h3, h4, h5, h6, h7, h8, h9⟩ := Binary64.normalised_values
  have hp0 : binary64 (0 * ((240 : ℤ) : ℚ)) = 0 := by
    have e : (0 * ((240 : ℤ) : ℚ) : ℚ) = 0 := by norm_num
    rw [e, binary64_zero]
  have hx0 : Binary64.xPos 870 330 0 = 930 := by
    simp only [Binary64.xPos, Binary64.xPosOf, Binary64.normalised_curve, hW, h0, hp0]
    norm_num [truncToInt, graphLeft, graphBottom]
  have hp1 : binary64 (4003199668773773 / 36028797018963968 * ((240 : ℤ) : ℚ)) = 938249922368853 / 35184372088832 :=
    (binary64_cert _ 48 7505999378950824 (by norm_num) (by norm_num) (by norm_num)
      (by norm_num [abs_lt])).trans (by norm_num)
  have hx1 : Binary64.xPos 870 330 1 = 956 := by
    simp only [Binary64.xPos, Binary64.xPosOf, Binary64.normalised_curve, hW, h1, hp1]
    norm_num [truncToInt, graphLeft, graphBottom]
  have hp2 : binary64 (4003199668773773 / 18014398509481984 * ((240 : ℤ) : ℚ)) = 938249922368853 / 17592186044416 :=
    (binary64_cert _ 47 7505999378950824 (by norm_num) (by norm_num) (by norm_num)
      (by norm_num [abs_lt])).trans (by norm_num)
  have hx2 : Binary64.xPos 870 330 2 = 983 := by
    simp only [Binary64.xPos, Binary64.xPosOf, Binary64.normalised_curve, hW, h2, hp2]
    norm_num [truncToInt, graphLeft, graphBottom]
  have hp3 : binary64 (3002399751580331 / 9007199254740992 * ((240 : ℤ) : ℚ)) = 5629499534213121 / 70368744177664 :=
    (binary64_cert _ 46 5629499534213121 (by norm_num) (by norm_num) (by norm_num)
      (by norm_num [abs_lt])).trans (by norm_num)
  have hx3 : Binary64.xPos 870 330 3 = 1010 := by
    simp only [Binary64.xPos, Binary64.xPosOf, Binary64.normalised_curve, hW, h3, hp3]
    norm_num [truncToInt, graphLeft, graphBottom]
  have hp4 : binary64 (8006399337547549 / 18014398509481984 * ((240 : ℤ) : ℚ)) = 7505999378950827 / 70368744177664 :=
    (binary64_cert _ 46 7505999378950827 (by norm_num) (by norm_num) (by norm_num)
      (by norm_num [abs_lt])).trans (by norm_num)
  have hx4 : Binary64.xPos 870 330 4 = 1036 := by
    simp only [Binary64.xPos, Binary64.xPosOf, Binary64.normalised_curve, hW, h4, hp4]
    norm_num [truncToInt, graphLeft, graphBottom]
  have hp5 : binary64 (2501999792983609 / 4503599627370496 * ((240 : ℤ) : ℚ)) = 4691249611844267 / 35184372088832 :=
    (binary64_cert _ 45 4691249611844267 (by norm_num) (by norm_num) (by norm_num)
      (by norm_num [abs_lt])).trans (by norm_num)
  have hx5 : Binary64.xPos 870 330 5 = 1063 := by
    simp only [Binary64.xPos, Binary64.xPosOf, Binary64.normalised_curve, hW, h5, hp5]
    norm_num [truncToInt, graphLeft, graphBottom]
  have hp6 : binary64 (3002399751580331 / 4503599627370496 * ((240 : ℤ) : ℚ)) = 5629499534213121 / 35184372088832 :=
    (binary64_cert _ 45 5629499534213121 (by norm_num) (by norm_num) (by norm_num)
      (by norm_num [abs_lt])).trans (by norm_num)
  have hx6 : Binary64.xPos 870 330 6 = 1090 := by
    simp only [Binary64.xPos, Binary64.xPosOf, Binary64.normalised_curve, hW, h6, hp6]
    norm_num [truncToInt, graphLeft, graphBottom]
  have hp7 : binary64 (875699927544263 / 1125899906842624 * ((240 : ℤ) : ℚ)) = 1641937364145493 / 8796093022208 :=
    (binary64_cert_tie _ 45 6567749456581972 (by norm_num) (by norm_num) (by norm_num)
      (Or.inl (by norm_num)) (by decide)).trans (by norm_num)
  have hx7 : Binary64.xPos 870 330 7 = 1116 := by
    simp only [Binary64.xPos, Binary64.xPosOf, Binary64.normalised_curve, hW, h7, hp7]
    norm_num [truncToInt, graphLeft, graphBottom]
  have hp8 : binary64 (8006399337547549 / 9007199254740992 * ((240 : ℤ) : ℚ)) = 7505999378950827 / 35184372088832 :=
    (binary64_cert _ 45 7505999378950827 (by norm_num) (by norm_num) (by norm_num)
      (by norm_num [abs_lt])).trans (by norm_num)
  have hx8 : Binary64.xPos 870 330 8 = 1143 := by
    simp only [Binary64.xPos, Binary64.xPosOf, Binary64.normalised_curve, hW, h8, hp8]
    norm_num [truncToInt, graphLeft, graphBottom]
  have hp9 : binary64 (9007199254740991 / 9007199254740992 * ((240 : ℤ) : ℚ)) = 8444249301319679 / 35184372088832 :=
    (binary64_cert _ 45 8444249301319679 (by norm_num) (by norm_num) (by norm_num)
      (by norm_num [abs_lt])).trans (by norm_num)
  have hx9 : Binary64.xPos 870 330 9 = 1169 := by
    simp only [Binary64.xPos, Binary64.xPosOf, Binary64.normalised_curve, hW, h9, hp9]
    norm_num [truncToInt, graphLeft, graphBottom]
  exact ⟨hx0, hx1, hx2, hx3, hx4, hx5, hx6, hx7, hx8, hx9⟩

/-- The ordinates of the ten vertices on the curve surface of `WM_PAINT`, as the machine
computes them. -/
theorem Binary64.paint_yPos_values :
    Binary64.yPos 200 260 0 = 403 ∧
    Binary64.yPos 200 260 1 = 387 ∧
    Binary64.yPos 200 260 2 = 355 ∧
    Binary64.yPos 200 260 3 = 315 ∧
    Binary64.yPos 200 260 4 = 284 ∧
    Binary64.yPos 200 260 5 = 268 ∧
    Binary64.yPos 200 260 6 = 260 ∧
    Binary64.yPos 200 260 7 = 255 ∧
    Binary64.yPos 200 260 8 = 252 ∧
    Binary64.yPos 200 260 9 = 250 := by
  have hW : graphBottom 200 260 - graphTop 200 = 160 := by decide
  obtain ⟨h0, h1, h2, h3, h4, h5, h6, h7, h8, h9⟩ := Binary64.percentFraction_values
  have hp0 : binary64 (3567207625639997 / 72057594037927936 * ((160 : ℤ) : ℚ)) = 1114752383012499 / 140737488355328 :=
    (binary64_cert_tie _ 50 8918019064099992 (by norm_num) (by norm_num) (by norm_num)
      (Or.inl (by norm_num)) (by decide)).trans (by norm_num)
  have hx0 : Binary64.yPos 200 260 0 = 403 := by
    simp only [Binary64.yPos, Binary64.yPosOf, hW, h0, hp0]
    norm_num [truncToInt, graphLeft, graphBottom]
  have hp1 : binary64 (5350811438459995 / 36028797018963968 * ((160 : ℤ) : ℚ)) = 3344257149037497 / 140737488355328 :=
    (binary64_cert _ 48 6688514298074994 (by norm_num) (by norm_num) (by norm_num)
      (by norm_num [abs_lt])).trans (by norm_num)
  have hx1 : Binary64.yPos 200 260 1 = 387 := by
    simp only [Binary64.yPos, Binary64.yPosOf, hW, h1, hp1]
    norm_num [truncToInt, graphLeft, graphBottom]
  have hp2 : binary64 (3121306672434997 / 9007199254740992 * ((160 : ℤ) : ℚ)) = 1950816670271873 / 35184372088832 :=
    (binary64_cert_tie _ 47 7803266681087492 (by norm_num) (by norm_num) (by norm_num)
      (Or.inl (by norm_num)) (by decide)).trans (by norm_num)
  have hx2 : Binary64.yPos 200 260 2 = 355 := by
    simp only [Binary64.yPos, Binary64.yPosOf, hW, h2, hp2]
    norm_num [truncToInt, graphLeft, graphBottom]
  have hp3 : binary64 (5350811438459995 / 9007199254740992 * ((160 : ℤ) : ℚ)) = 3344257149037497 / 35184372088832 :=
    (binary64_cert _ 46 6688514298074994 (by norm_num) (by norm_num) (by norm_num)
      (by norm_num [abs_lt])).trans (by norm_num)
  have hx3 : Binary64.yPos 200 260 3 = 315 := by
    simp only [Binary64.yPos, Binary64.yPosOf, hW, h3, hp3]
    norm_num [truncToInt, graphLeft, graphBottom]
  have hp4 : binary64 (3567207625639997 / 4503599627370496 * ((160 : ℤ) : ℚ)) = 1114752383012499 / 8796093022208 :=
    (binary64_cert_tie _ 46 8918019064099992 (by norm_num) (by norm_num) (by norm_num)
      (Or.inl (by norm_num)) (by decide)).trans (by norm_num)
  have hx4 : Binary64.yPos 200 260 4 = 284 := by
    simp only [Binary64.yPos, Binary64.yPosOf, hW, h4, hp4]
    norm_num [truncToInt, graphLeft, graphBottom]
  have hp5 : binary64 (8026217157689993 / 9007199254740992 * ((160 : ℤ) : ℚ)) = 2508192861778123 / 17592186044416 :=
    (binary64_cert _ 45 5016385723556246 (by norm_num) (by norm_num) (by norm_num)
      (by norm_num [abs_lt])).trans (by norm_num)
  have hx5 : Binary64.yPos 200 260 5 = 268 := by
    simp only [Binary64.yPos, Binary64.yPosOf, hW, h5, hp5]
    norm_num [truncToInt, graphLeft, graphBottom]
  have hp6 : binary64 (8472118110894993 / 9007199254740992 * ((160 : ℤ) : ℚ)) = 5295073819309371 / 35184372088832 :=
    (binary64_cert _ 45 5295073819309371 (by norm_num) (by norm_num) (by norm_num)
      (by norm_num [abs_lt])).trans (by norm_num)
  have hx6 : Binary64.yPos 200 260 6 = 260 := by
    simp only [Binary64.yPos, Binary64.yPosOf, hW, h6, hp6]
    norm_num [truncToInt, graphLeft, graphBottom]
  have hp7 : binary64 (8739658682817993 / 9007199254740992 * ((160 : ℤ) : ℚ)) = 2731143338380623 / 17592186044416 :=
    (binary64_cert _ 45 5462286676761246 (by norm_num) (by norm_num) (by norm_num)
      (by norm_num [abs_lt])).trans (by norm_num)
  have hx7 : Binary64.yPos 200 260 7 = 255 := by
    simp only [Binary64.yPos, Binary64.yPosOf, hW, h7, hp7]
    norm_num [truncToInt, graphLeft, graphBottom]
  have hp8 : binary64 (1114752383012499 / 1125899906842624 * ((160 : ℤ) : ℚ)) = 5573761915062495 / 35184372088832 :=
    (binary64_cert _ 45 5573761915062495 (by norm_num) (by norm_num) (by norm_num)
      (by norm_num [abs_lt])).trans (by norm_num)
  have hx8 : Binary64.yPos 200 260 8 = 252 := by
    simp only [Binary64.yPos, Binary64.yPosOf, hW, h8, hp8]
    norm_num [truncToInt, graphLeft, graphBottom]
  have hp9 : binary64 (1 * ((160 : ℤ) : ℚ)) = 160 :=
    (binary64_cert _ 45 5629499534213120 (by norm_num) (by norm_num) (by norm_num)
      (by norm_num [abs_lt])).trans (by norm_num)
  have hx9 : Binary64.yPos 200 260 9 = 250 := by
    simp only [Binary64.yPos, Binary64.yPosOf, hW, h9, hp9]
    norm_num [truncToInt, graphLeft, graphBottom]
  exact ⟨hx0, hx1, hx2, hx3, hx4, hx5, hx6, hx7, hx8, hx9⟩

/-- The command trace of the histogram call of `WM_PAINT`, evaluated. -/
theorem paint_histogram_trace :
    DrawGraph 520 200 330 260 histogramTitle =
  [ DrawCmd.FillRect { left := 0, top := 0, right := 330, bottom := 260 },
    DrawCmd.AlphaBlend 520 200 330 260, DrawCmd.RoundRect 520 200 850 460 10 10,
    DrawCmd.DrawText histogramTitle { left := 520, top := 210, right := 850, bottom := 236 }
      [DTFlag.DT_CENTER, DTFlag.DT_SINGLELINE],
    DrawCmd.MoveToEx 580 410, DrawCmd.LineTo 820 410, DrawCmd.MoveToEx 580 378,
    DrawCmd.LineTo 820 378, DrawCmd.MoveToEx 580 346, DrawCmd.LineTo 820 346,
    DrawCmd.MoveToEx 580 314, DrawCmd.LineTo 820 314, DrawCmd.MoveToEx 580 282,
    DrawCmd.LineTo 820 282, DrawCmd.MoveToEx 580 250, DrawCmd.LineTo 820 250,
    DrawCmd.MoveToEx 580 250, DrawCmd.LineTo 580 410, DrawCmd.MoveToEx 604 250,
    DrawCmd.LineTo 604 410, DrawCmd.MoveToEx 628 250, DrawCmd.LineTo 628 410,
    DrawCmd.MoveToEx 652 250, DrawCmd.LineTo 652 410, DrawCmd.MoveToEx 676 250,
    DrawCmd.LineTo 676 410, DrawCmd.MoveToEx 700 250, DrawCmd.LineTo 700 410,
    DrawCmd.MoveToEx 724 250, DrawCmd.LineTo 724 410, DrawCmd.MoveToEx 748 250,
    DrawCmd.LineTo 748 410, DrawCmd.MoveToEx 772 250, DrawCmd.LineTo 772 410,
    DrawCmd.MoveToEx 796 250, DrawCmd.LineTo 796 410, DrawCmd.MoveToEx 820 250,
    DrawCmd.LineTo 820 410, DrawCmd.MoveToEx 580 410, DrawCmd.LineTo 820 410,
    DrawCmd.MoveToEx 580 250, DrawCmd.LineTo 580 410, DrawCmd.Rectangle 580 378 596 410,
    DrawCmd.Rectangle 604 346 620 410, DrawCmd.Rectangle 629 282 645 410,
    DrawCmd.Rectangle 654 250 670 410, DrawCmd.Rectangle 679 282 695 410,
    DrawCmd.Rectangle 704 346 720 410, DrawCmd.Rectangle 729 378 745 410,
    DrawCmd.Rectangle 754 391 770 410, DrawCmd.Rectangle 779 398 795 410,
    DrawCmd.Rectangle 803 404 819 410,
    DrawCmd.DrawText "Grain Size (mm)" { left := 520, top := 395, right := 850, bottom := 460 }
      [DTFlag.DT_CENTER, DTFlag.DT_VCENTER, DTFlag.DT_SINGLELINE],
    DrawCmd.DrawText "Frequency" { left := 521, top := 293, right := 628, bottom := 453 }
      [DTFlag.DT_CENTER, DTFlag.DT_VCENTER, DTFlag.DT_SINGLELINE] ] := by
  have hm : maxCountOf Histogram.counts = 25 := Histogram.maxCount_eq
  obtain ⟨hx0, hx1, hx2, hx3, hx4, hx5, hx6, hx7, hx8, hx9⟩ := Binary64.paint_barX_values
  simp only [DrawGraph, backgroundCmds, titleCmds, horizontalGridCmds, verticalGridCmds,
    axisCmds, Histogram.branchCmds, Histogram.barCmds, Histogram.vertRect, xAxisLabelCmd,
    Histogram.barY, Histogram.barWidth, barYOf, barHeightOf,
    barWidthOf, hGridY, vGridX, graphLeft, graphRight, graphTop, graphBottom, hm,
    if_true]
  norm_num [List.range, List.range.loop, truncToInt, Int.tdiv_eq_ediv, Histogram.counts,
    hx0, hx1, hx2, hx3, hx4, hx5, hx6, hx7, hx8, hx9]

/-- The command trace of the cumulative-curve call of `WM_PAINT`, evaluated. -/
theorem paint_cumulative_trace :
    DrawGraph 870 200 330 260 cumulativeTitle =
  [ DrawCmd.FillRect { left := 0, top := 0, right := 330, bottom := 260 },
    DrawCmd.AlphaBlend 870 200 330 260, DrawCmd.RoundRect 870 200 1200 460 10 10,
    DrawCmd.DrawText cumulativeTitle { left := 870, top := 210, right := 1200, bottom := 236 }
      [DTFlag.DT_CENTER, DTFlag.DT_SINGLELINE],
    DrawCmd.MoveToEx 930 410, DrawCmd.LineTo 1170 410, DrawCmd.MoveToEx 930 378,
    DrawCmd.LineTo 1170 378, DrawCmd.MoveToEx 930 346, DrawCmd.LineTo 1170 346,
    DrawCmd.MoveToEx 930 314, DrawCmd.LineTo 1170 314, DrawCmd.MoveToEx 930 282,
    DrawCmd.LineTo 1170 282, DrawCmd.MoveToEx 930 250, DrawCmd.LineTo 1170 250,
    DrawCmd.MoveToEx 930 250, DrawCmd.LineTo 930 410, DrawCmd.MoveToEx 954 250,
    DrawCmd.LineTo 954 410, DrawCmd.MoveToEx 978 250, DrawCmd.LineTo 978 410,
    DrawCmd.MoveToEx 1002 250, DrawCmd.LineTo 1002 410, DrawCmd.MoveToEx 1026 250,
    DrawCmd.LineTo 1026 410, DrawCmd.MoveToEx 1050 250, DrawCmd.LineTo 1050 410,
    DrawCmd.MoveToEx 1074 250, DrawCmd.LineTo 1074 410, DrawCmd.MoveToEx 1098 250,
    DrawCmd.LineTo 1098 410, DrawCmd.MoveToEx 1122 250, DrawCmd.LineTo 1122 410,
    DrawCmd.MoveToEx 1146 250, DrawCmd.LineTo 1146 410, DrawCmd.MoveToEx 1170 250,
    DrawCmd.LineTo 1170 410, DrawCmd.MoveToEx 930 410, DrawCmd.LineTo 1170 410,
    DrawCmd.MoveToEx 930 250, DrawCmd.LineTo 930 410,
    DrawCmd.Polyline
      [ { x := 930, y := 403 }, { x := 956, y := 387 }, { x := 983, y := 355 },
        { x := 1010, y := 315 }, { x := 1036, y := 284 }, { x := 1063, y := 268 },
        { x := 1090, y := 260 }, { x := 1116, y := 255 }, { x := 1143, y := 252 },
        { x := 1169, y := 250 } ],
    DrawCmd.Ellipse 926 399 934 407, DrawCmd.Ellipse 952 383 960 391,
    DrawCmd.Ellipse 979 351 987 359, DrawCmd.Ellipse 1006 311 1014 319,
    DrawCmd.Ellipse 1032 280 1040 288, DrawCmd.Ellipse 1059 264 1067 272,
    DrawCmd.Ellipse 1086 256 1094 264, DrawCmd.Ellipse 1112 251 1120 259,
    DrawCmd.Ellipse 1139 248 1147 256, DrawCmd.Ellipse 1165 246 1173 254,
    DrawCmd.DrawText "Grain Size (mm)" { left := 870, top := 395, right := 1200, bottom := 460 }
      [DTFlag.DT_CENTER, DTFlag.DT_VCENTER, DTFlag.DT_SINGLELINE],
    DrawCmd.DrawText "Cumulative % Passing" { left := 875, top := 250, right := 1029, bottom := 545 }
      [DTFlag.DT_CENTER, DTFlag.DT_VCENTER, DTFlag.DT_SINGLELINE] ] := by
  have hne : cumulativeTitle ≠ histogramTitle := by decide
  obtain ⟨hx0, hx1, hx2, hx3, hx4, hx5, hx6, hx7, hx8, hx9⟩ := Binary64.paint_xPos_values
  obtain ⟨hy0, hy1, hy2, hy3, hy4, hy5, hy6, hy7, hy8, hy9⟩ := Binary64.paint_yPos_values
  simp only [DrawGraph, backgroundCmds, titleCmds, horizontalGridCmds, verticalGridCmds,
    axisCmds, Cumulative.branchCmds, Cumulative.markerCmds, Binary64.points,
    Cumulative.vertRect, xAxisLabelCmd,
    hGridY, vGridX, graphLeft, graphRight, graphTop, graphBottom, if_neg hne, if_true]
  norm_num [List.range, List.range.loop, Int.tdiv_eq_ediv,
    hx0, hx1, hx2, hx3, hx4, hx5, hx6, hx7, hx8, hx9,
    hy0, hy1, hy2, hy3, hy4, hy5, hy6, hy7, hy8, hy9]

/-- The rectangle that the cumulative-curve branch passes to `DrawText` for the rotated
label, on the surface at (870, 200) of size 330 x 260. -/
theorem paint_cumulative_last :
    (DrawGraph 870 200 330 260 cumulativeTitle).getLast? =
      some (DrawCmd.DrawText "Cumulative % Passing"
        { left := 875, top := 250, right := 1029, bottom := 545 }
        [DTFlag.DT_CENTER, DTFlag.DT_VCENTER, DTFlag.DT_SINGLELINE]) := by
  rw [paint_cumulative_trace]
  rfl

/-- C12 (counterexample). In the cumulative-curve call of `WM_PAINT` the rectangle passed
to `DrawText` for the rotated label is `{875, 250, 1029, 545}`: its bottom edge is 85 px
below the bottom edge `200 + 260 = 460` of the surface, so not everything that the two
calls pass to a drawing primitive lies inside their surfaces. -/
theorem C12_curve_label_leaves_surface :
    DrawCmd.DrawText "Cumulative % Passing"
        { left := 875, top := 250, right := 1029, bottom := 545 }
        [DTFlag.DT_CENTER, DTFlag.DT_VCENTER, DTFlag.DT_SINGLELINE]
      ∈ DrawGraph 870 200 330 260 cumulativeTitle ∧
    ¬ ((DrawGraph 520 200 330 260 histogramTitle).all (DrawCmd.inSurface 520 200 330 260) = true ∧
       (DrawGraph 870 200 330 260 cumulativeTitle).all (DrawCmd.inSurface 870 200 330 260) = true) := by
  constructor
  · rw [paint_cumulative_trace]
    simp
  · rw [paint_cumulative_trace]
    intro h
    exact absurd h.2 (by decide)

/-- C12 (amended). For the histogram call of `WM_PAINT` every point and rectangle passed to
a drawing primitive lies inside the surface `[520, 850] × [200, 460]`. For the
cumulative-curve call the same holds on `[870, 1200] × [200, 460]` for every command but
the last one, the `DrawText` of the rotated label, whose rectangle `{875, 250, 1029, 545}`
has its left, top and right edges inside the surface and its bottom edge at
`y + height + 85`. -/
theorem C12_paint_inside_except_curve_label :
    paintGraphs true =
      DrawGraph 520 200 330 260 histogramTitle ++ DrawGraph 870 200 330 260 cumulativeTitle ∧
    (DrawGraph 520 200 330 260 histogramTitle).all (DrawCmd.inSurface 520 200 330 260) = true ∧
    (DrawGraph 870 200 330 260 cumulativeTitle).dropLast.all
      (DrawCmd.inSurface 870 200 330 260) = true ∧
    (DrawGraph 870 200 330 260 cumulativeTitle).getLast? =
      some (DrawCmd.DrawText "Cumulative % Passing" (Cumulative.vertRect 870 200 260)
        [DTFlag.DT_CENTER, DTFlag.DT_VCENTER, DTFlag.DT_SINGLELINE]) ∧
    Cumulative.vertRect 870 200 260 = { left := 875, top := 250, right := 1029, bottom := 545 } ∧
    pointInSurface 870 200 330 260 875 250 = true ∧
    pointInSurface 870 200 330 260 1029 250 = true ∧
    (545 : ℤ) = 200 + 260 + 85 := by
  have hv : Cumulative.vertRect 870 200 260 =
      { left := 875, top := 250, right := 1029, bottom := 545 } := by
    simp [Cumulative.vertRect]
  refine ⟨rfl, ?_, ?_, ?_, hv, by decide, by decide, by decide⟩
  · rw [paint_histogram_trace]
    decide
  · rw [paint_cumulative_trace]
    decide
  · rw [paint_cumulative_last, hv]

/-! ## The dataset -/

/-- C13. Both chart branches use the same ten bins: the histogram's and the curve's copies
of `grainSizes` and `counts` are equal; the diameters are `0.25 + 0.05 * i` for `i = 0..9`,
strictly increasing from 0.25 to 0.70; the counts are 5, 10, 20, 25, 20, 10, 5, 3, 2, 1,
all non-negative, with sum 101 and maximum 25, attained at index 3. -/
theorem C13_dataset :
    Histogram.grainSizes = Cumulative.grainSizes ∧
    Histogram.counts = Cumulative.counts ∧
    Histogram.grainSizes.length = 10 ∧
    Histogram.counts.length = 10 ∧
    (∀ i : ℕ, i < 10 → Histogram.grainSizes.getD i 0 = 0.25 + 0.05 * (i : ℚ)) ∧
    List.Pairwise (fun a b => a < b) Histogram.grainSizes ∧
    Histogram.grainSizes.head? = some 0.25 ∧
    Histogram.grainSizes.getLast? = some 0.70 ∧
    Histogram.counts = [5, 10, 20, 25, 20, 10, 5, 3, 2, 1] ∧
    (∀ c ∈ Histogram.counts, 0 ≤ c) ∧
    totalOf Cumulative.counts = 101 ∧
    maxCountOf Histogram.counts = 25 ∧
    Histogram.counts.getD 3 0 = 25 ∧
    (∀ i : ℕ, i < 10 → Histogram.counts.getD i 0 = 25 → i = 3) := by
  refine ⟨rfl, rfl, rfl, rfl, ?_, ?_, ?_, ?_, rfl, by decide, Cumulative.total_eq,
    Histogram.maxCount_eq, rfl, ?_⟩
  · intro i hi
    interval_cases i <;> norm_num [Histogram.grainSizes]
  · norm_num [Histogram.grainSizes]
  · simp [Histogram.grainSizes]
  · simp [Histogram.grainSizes]
  · intro i hi h
    interval_cases i <;> simp [Histogram.counts] at h ⊢

/-- C13 (witness): bin 9 has diameter `0.25 + 0.05 * 9 = 0.70`, and bin 3 is the one with
count 25. -/
theorem C13_dataset_witness :
    (9 < 10 ∧ Histogram.grainSizes.getD 9 0 = 0.25 + 0.05 * ((9 : ℕ) : ℚ)) ∧
    ((3 < 10 ∧ Histogram.counts.getD 3 0 = 25) ∧ 3 = 3) :=
  ⟨⟨by decide, C13_dataset.2.2.2.2.1 9 (by decide)⟩,
   ⟨⟨by decide, C13_dataset.2.2.2.2.2.2.2.2.2.2.2.2.1⟩,
    C13_dataset.2.2.2.2.2.2.2.2.2.2.2.2.2 3 (by decide)
      C13_dataset.2.2.2.2.2.2.2.2.2.2.2.2.1⟩⟩

/-! ## Divisions -/

/-- On a dataset with non-zero total, the checked cumulative percentages are all defined
and equal the unchecked ones. -/
theorem cumulativePercentChecked_eq_some (cs : List ℤ) (ht : totalOf cs ≠ 0) (i : ℕ) :
    cumulativePercentChecked cs i = some (cumulativePercentOf cs i) := by
  have htq : ((totalOf cs : ℤ) : ℚ) ≠ 0 := by exact_mod_cast ht
  induction i with
  | zero => simp [cumulativePercentChecked, cumulativePercentOf, divChecked, htq]
  | succ k ih => simp [cumulativePercentChecked, cumulativePercentOf, divChecked, htq, ih]

/-- C14. No division in `DrawGraph` has a zero divisor. For the fixed dataset the scan loop
finds `maxCount = 25 > 0` and the summing loop `total = 101 > 0`; with every division of
the routine made partial (undefined on a zero divisor), each computed value is defined,
for every surface and every index, and equals the value of the total embedding. The check
is not vacuous: on an all-zero dataset the checked divisions are undefined. -/
theorem C14_no_zero_divisor (x y width height j : ℤ) (i : ℕ) :
    (0 < Histogram.maxCount ∧ Histogram.maxCount = 25) ∧
    (0 < Cumulative.total ∧ Cumulative.total = 101) ∧
    hGridYChecked y height j = some (hGridY y height j) ∧
    vGridXChecked x width j = some (vGridX x width j) ∧
    barWidthChecked (graphLeft x) (graphRight x width) = some (Histogram.barWidth x width) ∧
    barHeightChecked Histogram.counts (graphTop y) (graphBottom y height) i =
      some (Histogram.barHeight y height i) ∧
    barXChecked Histogram.grainSizes (graphLeft x) (graphRight x width) i =
      some (Histogram.barX x width i) ∧
    cumulativePercentChecked Cumulative.counts i = some (Cumulative.cumulativePercent i) ∧
    xPosChecked Cumulative.grainSizes (graphLeft x) (graphRight x width) i =
      some (Cumulative.xPos x width i) ∧
    yPosChecked Cumulative.counts (graphTop y) (graphBottom y height) i =
      some (Cumulative.yPos y height i) ∧
    histVertRectChecked x y height = some (Histogram.vertRect x y height) ∧
    curveVertRectChecked x y height = some (Cumulative.vertRect x y height) ∧
    barHeightChecked [0, 0, 0] (graphTop y) (graphBottom y height) i = none ∧
    cumulativePercentChecked [0, 0, 0] i = none := by
  have hm : maxCountOf Histogram.counts = 25 := Histogram.maxCount_eq
  have ht : totalOf Cumulative.counts = 101 := Cumulative.total_eq
  have ht0 : totalOf Cumulative.counts ≠ 0 := by rw [ht]; decide
  have hcp := cumulativePercentChecked_eq_some Cumulative.counts ht0 i
  have hz : ∀ k, cumulativePercentChecked [0, 0, 0] k = none := by
    intro k
    induction k with
    | zero => simp [cumulativePercentChecked, divChecked, totalOf]
    | succ n ih => simp [cumulativePercentChecked, ih]
  refine ⟨⟨?_, Histogram.maxCount_eq⟩, ⟨?_, Cumulative.total_eq⟩, ?_, ?_, ?_, ?_, ?_, hcp,
    ?_, ?_, ?_, ?_, ?_, hz i⟩
  · rw [Histogram.maxCount_eq]; decide
  · rw [Cumulative.total_eq]; decide
  · simp [hGridYChecked, tdivChecked, hGridY]
  · simp [vGridXChecked, tdivChecked, vGridX]
  · simp [barWidthChecked, tdivChecked, Histogram.barWidth, barWidthOf]
  · simp [barHeightChecked, divChecked, Histogram.barHeight, barHeightOf, hm]
  · have h45 : (0.45 : ℚ) ≠ 0 := by norm_num
    simp [barXChecked, barWidthChecked, tdivChecked, divChecked, Histogram.barX, barXOf,
      barWidthOf, h45]
  · have h45 : (0.45 : ℚ) ≠ 0 := by norm_num
    simp [xPosChecked, divChecked, Cumulative.xPos, xPosOf, h45]
  · have h100 : (100.0 : ℚ) ≠ 0 := by norm_num
    simp [yPosChecked, hcp, divChecked, Cumulative.yPos, yPosOf, h100]
  · have h15 : (1.5 : ℚ) ≠ 0 := by norm_num
    simp [histVertRectChecked, divChecked, Histogram.vertRect, h15]
  · simp [curveVertRectChecked, tdivChecked, Cumulative.vertRect]
  · simp [barHeightChecked, divChecked, maxCountOf]

/-! ## Placement of the data marks -/

/-- Scaling an extent `n ≥ 0` by a factor in `[0, 1]` and truncating stays in `[0, n]`. -/
theorem truncToInt_scale_bounds {r : ℚ} (h0 : 0 ≤ r) (h1 : r ≤ 1) {n : ℤ} (hn : 0 ≤ n) :
    0 ≤ truncToInt (r * (n : ℚ)) ∧ truncToInt (r * (n : ℚ)) ≤ n := by
  have hnq : (0 : ℚ) ≤ (n : ℚ) := by exact_mod_cast hn
  have hq0 : 0 ≤ r * (n : ℚ) := mul_nonneg h0 hnq
  have hq1 : r * (n : ℚ) ≤ (n : ℚ) := by
    calc r * (n : ℚ) ≤ 1 * (n : ℚ) := mul_le_mul_of_nonneg_right h1 hnq
      _ = (n : ℚ) := one_mul _
  exact ⟨truncToInt_nonneg hq0, truncToInt_le_of_le_intCast hq0 hq1⟩

/-- From bin `i` to bin `i + 1` the truncated position `(int)(i / 9 * W)` advances by at
least the integer quotient `W / 9`. -/
theorem truncToInt_ninths_step {W : ℤ} (hW : 0 ≤ W) (i : ℕ) :
    truncToInt ((i : ℚ) / 9 * (W : ℚ)) + W / 9
      ≤ truncToInt (((i + 1 : ℕ) : ℚ) / 9 * (W : ℚ)) := by
  have hWq : (0 : ℚ) ≤ (W : ℚ) := by exact_mod_cast hW
  have ha : (0 : ℚ) ≤ (i : ℚ) / 9 * (W : ℚ) := by positivity
  have hb : (0 : ℚ) ≤ ((i + 1 : ℕ) : ℚ) / 9 * (W : ℚ) := by positivity
  rw [truncToInt_of_nonneg ha, truncToInt_of_nonneg hb]
  have hsplit : ((i + 1 : ℕ) : ℚ) / 9 * (W : ℚ)
      = (i : ℚ) / 9 * (W : ℚ) + (W : ℚ) / ((9 : ℕ) : ℚ) := by
    push_cast
    ring
  have hfl : ⌊(W : ℚ) / ((9 : ℕ) : ℚ)⌋ = W / 9 := by
    rw [Rat.floor_intCast_div_natCast]
    rfl
  rw [hsplit, ← hfl]
  exact Int.le_floor_add _ _

theorem Histogram.counts_le_max (i : ℕ) (hi : i < 10) :
    Histogram.counts.getD i 0 ≤ 25 := by
  interval_cases i <;> simp [Histogram.counts]

theorem Cumulative.cumulativePercent_range (i : ℕ) (hi : i ≤ 9) :
    0 ≤ Cumulative.cumulativePercent i ∧ Cumulative.cumulativePercent i ≤ 100 := by
  obtain ⟨h0, h1, h2, h3, h4, h5, h6, h7, h8, h9⟩ := Cumulative.cumulativePercent_values
  interval_cases i
  · rw [h0]; norm_num
  · rw [h1]; norm_num
  · rw [h2]; norm_num
  · rw [h3]; norm_num
  · rw [h4]; norm_num
  · rw [h5]; norm_num
  · rw [h6]; norm_num
  · rw [h7]; norm_num
  · rw [h8]; norm_num
  · rw [h9]; norm_num

/-- In exact rational arithmetic, too, the histogram bars do not overlap, for every surface
width of at least 90. -/
theorem exact_bars_do_not_overlap (x width : ℤ) (i : ℕ) (hw : 90 ≤ width) (hi : i ≤ 8) :
    Histogram.barX x width i + Histogram.barWidth x width ≤ Histogram.barX x width (i + 1) := by
  have hpw : graphRight x width - graphLeft x = width - 90 := graphRight_sub_graphLeft x width
  have hbw : barWidthOf (graphLeft x) (graphRight x width) = (width - 90) / 15 := by
    unfold barWidthOf
    rw [hpw, Int.tdiv_eq_ediv (by omega) (by decide)]
  have hW : 0 ≤ graphRight x width - graphLeft x
      - barWidthOf (graphLeft x) (graphRight x width) := by
    rw [hbw, hpw]
    omega
  have hstep := truncToInt_ninths_step hW i
  have hquot : (width - 90) / 15 ≤ (graphRight x width - graphLeft x
      - barWidthOf (graphLeft x) (graphRight x width)) / 9 := by
    rw [hbw, hpw]
    omega
  simp only [Histogram.barX, Histogram.barWidth, barXOf]
  rw [Histogram.histGrainSizes_normalised i (by omega),
    Histogram.histGrainSizes_normalised (i + 1) (by omega), hbw] at *
  omega

/-- C15. Histogram bars never overlap: for every surface width of at least 90
(`plotWidth = width - 90 ≥ 0`; at most 2147483647, `width` being an `int`) and every `i` in
0..8, the left edge of bar `i + 1` is at or beyond the right edge `barX_i + barWidth` of bar
`i`, where `barWidth = plotWidth / 15` and `barX` is the value of line 659 evaluated in
binary64, as the machine does. -/
theorem C15_bars_do_not_overlap (x width : ℤ) (i : ℕ) (hw : 90 ≤ width)
    (hmax : width ≤ 2147483647) (hi : i ≤ 8) :
    Binary64.barX x width i + Histogram.barWidth x width ≤ Binary64.barX x width (i + 1) := by
  have hpw : graphRight x width - graphLeft x = width - 90 := graphRight_sub_graphLeft x width
  have hbw : barWidthOf (graphLeft x) (graphRight x width) = (width - 90) / 15 := by
    unfold barWidthOf
    rw [hpw, Int.tdiv_eq_ediv (by omega) (by decide)]
  have hW : 0 ≤ graphRight x width - graphLeft x
      - barWidthOf (graphLeft x) (graphRight x width) := by
    rw [hbw, hpw]
    omega
  have hM : graphRight x width - graphLeft x
      - barWidthOf (graphLeft x) (graphRight x width) ≤ 2147483647 := by
    rw [hbw, hpw]
    omega
  have hb : (((width - 90) / 15 : ℤ) : ℚ) + 1 / 27
        ≤ ((graphRight x width - graphLeft x
            - barWidthOf (graphLeft x) (graphRight x width) : ℤ) : ℚ) / 9
      ∨ (graphRight x width - graphLeft x
          - barWidthOf (graphLeft x) (graphRight x width) = 0 ∧ (width - 90) / 15 = 0) := by
    rw [hbw, hpw]
    by_cases h0 : width = 90
    · right
      subst h0
      decide
    · left
      have hint : 30 * ((width - 90) / 15) + 1 ≤ 3 * (width - 90) := by omega
      have hq : (30 : ℚ) * (((width - 90) / 15 : ℤ) : ℚ) + 1 ≤ 3 * ((width - 90 : ℤ) : ℚ) := by
        exact_mod_cast hint
      push_cast at hq ⊢
      linarith
  have h := Binary64.position_step hW hM hb hi
  simp only [Binary64.barX, Binary64.barXOf, Histogram.barWidth]
  rw [hbw] at h ⊢
  omega

/-- C15 (witness): bars 8 and 9 on the 330-wide surface at `x = 520`. -/
theorem C15_bars_do_not_overlap_witness :
    ((90 : ℤ) ≤ 330 ∧ (330 : ℤ) ≤ 2147483647 ∧ 8 ≤ 8) ∧
    Binary64.barX 520 330 8 + Histogram.barWidth 520 330 ≤ Binary64.barX 520 330 (8 + 1) :=
  ⟨by decide, C15_bars_do_not_overlap 520 330 8 (by decide) (by decide) (by decide)⟩

/-- In exact rational arithmetic, too, every data mark lies inside the plotting rectangle,
for every surface with `width ≥ 90` and `height ≥ 100`. -/
theorem exact_marks_inside_plot (x y width height : ℤ) (i : ℕ)
    (hw : 90 ≤ width) (hh : 100 ≤ height) (hi : i ≤ 9) :
    (graphLeft x ≤ Histogram.barX x width i ∧
      Histogram.barX x width i + Histogram.barWidth x width ≤ graphRight x width ∧
      graphTop y ≤ Histogram.barY y height i ∧
      Histogram.barY y height i ≤ graphBottom y height) ∧
    (graphLeft x ≤ Cumulative.xPos x width i ∧
      Cumulative.xPos x width i ≤ graphRight x width ∧
      graphTop y ≤ Cumulative.yPos y height i ∧
      Cumulative.yPos y height i ≤ graphBottom y height) := by
  have hpw : graphRight x width - graphLeft x = width - 90 := graphRight_sub_graphLeft x width
  have hph : graphBottom y height - graphTop y = height - 100 :=
    graphBottom_sub_graphTop y height
  have hbw : barWidthOf (graphLeft x) (graphRight x width) = (width - 90) / 15 := by
    unfold barWidthOf
    rw [hpw, Int.tdiv_eq_ediv (by omega) (by decide)]
  have hi9 : (0 : ℚ) ≤ (i : ℚ) / 9 ∧ (i : ℚ) / 9 ≤ 1 := by
    have : (i : ℚ) ≤ 9 := by exact_mod_cast hi
    constructor
    · positivity
    · rw [div_le_one (by norm_num)]
      exact this
  -- horizontal position of the bar
  have hW : 0 ≤ graphRight x width - graphLeft x
      - barWidthOf (graphLeft x) (graphRight x width) := by
    rw [hbw, hpw]
    omega
  have hbx := truncToInt_scale_bounds hi9.1 hi9.2 hW
  have hbarX : Histogram.barX x width i = graphLeft x + truncToInt ((i : ℚ) / 9
      * ((graphRight x width - graphLeft x
        - barWidthOf (graphLeft x) (graphRight x width) : ℤ) : ℚ)) := by
    simp only [Histogram.barX, barXOf]
    rw [Histogram.histGrainSizes_normalised i hi]
  -- vertical extent of the bar
  have hc : (0 : ℚ) ≤ ((Histogram.counts.getD i 0 : ℤ) : ℚ) / ((maxCountOf Histogram.counts : ℤ) : ℚ)
      ∧ ((Histogram.counts.getD i 0 : ℤ) : ℚ) / ((maxCountOf Histogram.counts : ℤ) : ℚ) ≤ 1 := by
    rw [show maxCountOf Histogram.counts = 25 from Histogram.maxCount_eq]
    have h0 : (0 : ℚ) ≤ ((Histogram.counts.getD i 0 : ℤ) : ℚ) := by
      exact_mod_cast Histogram.counts_nonneg i (by omega)
    have h1 : ((Histogram.counts.getD i 0 : ℤ) : ℚ) ≤ ((25 : ℤ) : ℚ) := by
      exact_mod_cast Histogram.counts_le_max i (by omega)
    constructor
    · positivity
    · rw [div_le_one (by norm_num)]
      exact h1
  have hbh := truncToInt_scale_bounds hc.1 hc.2
    (show 0 ≤ graphBottom y height - graphTop y by rw [hph]; omega)
  have hbarY : Histogram.barY y height i = graphBottom y height
      - truncToInt (((Histogram.counts.getD i 0 : ℤ) : ℚ)
          / ((maxCountOf Histogram.counts : ℤ) : ℚ)
        * ((graphBottom y height - graphTop y : ℤ) : ℚ)) := rfl
  -- the curve vertex
  have hxp := truncToInt_scale_bounds hi9.1 hi9.2
    (show 0 ≤ graphRight x width - graphLeft x by rw [hpw]; omega)
  have hxPos : Cumulative.xPos x width i = graphLeft x + truncToInt ((i : ℚ) / 9
      * ((graphRight x width - graphLeft x : ℤ) : ℚ)) := by
    simp only [Cumulative.xPos, xPosOf]
    rw [Cumulative.curveGrainSizes_normalised i hi]
  have hcp : (0 : ℚ) ≤ cumulativePercentOf Cumulative.counts i / 100.0
      ∧ cumulativePercentOf Cumulative.counts i / 100.0 ≤ 1 := by
    have hr := Cumulative.cumulativePercent_range i hi
    simp only [Cumulative.cumulativePercent] at hr
    constructor
    · exact div_nonneg hr.1 (by norm_num)
    · rw [div_le_one (by norm_num)]
      norm_num
      exact hr.2
  have hyp := truncToInt_scale_bounds hcp.1 hcp.2
    (show 0 ≤ graphBottom y height - graphTop y by rw [hph]; omega)
  have hyPos : Cumulative.yPos y height i = graphBottom y height
      - truncToInt (cumulativePercentOf Cumulative.counts i / 100.0
        * ((graphBottom y height - graphTop y : ℤ) : ℚ)) := rfl
  have hbwdef : Histogram.barWidth x width = barWidthOf (graphLeft x) (graphRight x width) :=
    rfl
  rw [hbarX, hbarY, hxPos, hyPos, hbwdef]
  refine ⟨⟨?_, ?_, ?_, ?_⟩, ?_, ?_, ?_, ?_⟩ <;> omega

/-- C16. Every data mark lies inside the plotting rectangle: for every surface with
`width ≥ 90` and `height ≥ 100` (both at most 2147483647, being `int`s) and every bin `i` in
0..9, the bar satisfies `graphLeft ≤ barX`, `barX + barWidth ≤ graphRight` and
`graphTop ≤ barY ≤ graphBottom`, and the curve vertex satisfies
`graphLeft ≤ xPos ≤ graphRight` and `graphTop ≤ yPos ≤ graphBottom`. Here `barX`, `xPos` and
`yPos` are the values of lines 659, 715 and 716 evaluated in binary64, as the machine
does. -/
theorem C16_marks_inside_plot (x y width height : ℤ) (i : ℕ)
    (hw : 90 ≤ width) (hwmax : width ≤ 2147483647)
    (hh : 100 ≤ height) (hhmax : height ≤ 2147483647) (hi : i ≤ 9) :
    (graphLeft x ≤ Binary64.barX x width i ∧
      Binary64.barX x width i + Histogram.barWidth x width ≤ graphRight x width ∧
      graphTop y ≤ Histogram.barY y height i ∧
      Histogram.barY y height i ≤ graphBottom y height) ∧
    (graphLeft x ≤ Binary64.xPos x width i ∧
      Binary64.xPos x width i ≤ graphRight x width ∧
      graphTop y ≤ Binary64.yPos y height i ∧
      Binary64.yPos y height i ≤ graphBottom y height) := by
  have hpw : graphRight x width - graphLeft x = width - 90 := graphRight_sub_graphLeft x width
  have hph : graphBottom y height - graphTop y = height - 100 :=
    graphBottom_sub_graphTop y height
  have hbw : barWidthOf (graphLeft x) (graphRight x width) = (width - 90) / 15 := by
    unfold barWidthOf
    rw [hpw, Int.tdiv_eq_ediv (by omega) (by decide)]
  obtain ⟨⟨hr0, hr1⟩, _⟩ := Binary64.normalised_near i hi
  obtain ⟨hs0, hs1⟩ := Binary64.percentFraction_range i hi
  -- horizontal position of the bar
  have hbx := Binary64.scaled_bounds hr0 hr1
    (show 0 ≤ graphRight x width - graphLeft x
      - barWidthOf (graphLeft x) (graphRight x width) by rw [hbw, hpw]; omega)
    (show graphRight x width - graphLeft x
      - barWidthOf (graphLeft x) (graphRight x width) ≤ 2147483647 by rw [hbw, hpw]; omega)
  have hbarX : Binary64.barX x width i = graphLeft x
      + truncToInt (binary64 (Binary64.normalised Histogram.grainSizes i
        * ((graphRight x width - graphLeft x
          - barWidthOf (graphLeft x) (graphRight x width) : ℤ) : ℚ))) := rfl
  -- vertical extent of the bar
  have hc : (0 : ℚ) ≤ ((Histogram.counts.getD i 0 : ℤ) : ℚ) / ((maxCountOf Histogram.counts : ℤ) : ℚ)
      ∧ ((Histogram.counts.getD i 0 : ℤ) : ℚ) / ((maxCountOf Histogram.counts : ℤ) : ℚ) ≤ 1 := by
    rw [show maxCountOf Histogram.counts = 25 from Histogram.maxCount_eq]
    have h0 : (0 : ℚ) ≤ ((Histogram.counts.getD i 0 : ℤ) : ℚ) := by
      exact_mod_cast Histogram.counts_nonneg i (by omega)
    have h1 : ((Histogram.counts.getD i 0 : ℤ) : ℚ) ≤ ((25 : ℤ) : ℚ) := by
      exact_mod_cast Histogram.counts_le_max i (by omega)
    constructor
    · positivity
    · rw [div_le_one (by norm_num)]
      exact h1
  have hbh := truncToInt_scale_bounds hc.1 hc.2
    (show 0 ≤ graphBottom y height - graphTop y by rw [hph]; omega)
  have hbarY : Histogram.barY y height i = graphBottom y height
      - truncToInt (((Histogram.counts.getD i 0 : ℤ) : ℚ)
          / ((maxCountOf Histogram.counts : ℤ) : ℚ)
        * ((graphBottom y height - graphTop y : ℤ) : ℚ)) := rfl
  -- the curve vertex
  have hxp := Binary64.scaled_bounds hr0 hr1
    (show 0 ≤ graphRight x width - graphLeft x by rw [hpw]; omega)
    (show graphRight x width - graphLeft x ≤ 2147483647 by rw [hpw]; omega)
  have hxPos : Binary64.xPos x width i = graphLeft x
      + truncToInt (binary64 (Binary64.normalised Histogram.grainSizes i
        * ((graphRight x width - graphLeft x : ℤ) : ℚ))) := rfl
  have hyp := Binary64.scaled_bounds hs0 hs1
    (show 0 ≤ graphBottom y height - graphTop y by rw [hph]; omega)
    (show graphBottom y height - graphTop y ≤ 2147483647 by rw [hph]; omega)
  have hyPos : Binary64.yPos y height i = graphBottom y height
      - truncToInt (binary64 (binary64
          (Binary64.cumulativePercentOf Cumulative.counts i / binary64 100.0)
        * ((graphBottom y height - graphTop y : ℤ) : ℚ))) := rfl
  have hbwdef : Histogram.barWidth x width = barWidthOf (graphLeft x) (graphRight x width) :=
    rfl
  rw [hbarX, hbarY, hxPos, hyPos, hbwdef]
  refine ⟨⟨?_, ?_, ?_, ?_⟩, ?_, ?_, ?_, ?_⟩ <;> omega

/-- C16 (witness): bin 9 on the 330 x 260 surface at (520, 200). -/
theorem C16_marks_inside_plot_witness :
    ((90 : ℤ) ≤ 330 ∧ (330 : ℤ) ≤ 2147483647 ∧ (100 : ℤ) ≤ 260 ∧ (260 : ℤ) ≤ 2147483647
      ∧ 9 ≤ 9) ∧
    ((graphLeft 520 ≤ Binary64.barX 520 330 9 ∧
      Binary64.barX 520 330 9 + Histogram.barWidth 520 330 ≤ graphRight 520 330 ∧
      graphTop 200 ≤ Histogram.barY 200 260 9 ∧
      Histogram.barY 200 260 9 ≤ graphBottom 200 260) ∧
    (graphLeft 520 ≤ Binary64.xPos 520 330 9 ∧
      Binary64.xPos 520 330 9 ≤ graphRight 520 330 ∧
      graphTop 200 ≤ Binary64.yPos 200 260 9 ∧
      Binary64.yPos 200 260 9 ≤ graphBottom 200 260)) :=
  ⟨by decide, C16_marks_inside_plot 520 200 330 260 9 (by decide) (by decide) (by decide)
    (by decide) (by decide)⟩

/-! ## Spacing of the gridlines -/

/-- The height of horizontal gridline `i`, for a surface with non-negative plot height. -/
theorem hGridY_eq (y height i : ℤ) (hh : 100 ≤ height) (hi : 0 ≤ i) :
    hGridY y height i = y + height - 50 - i * (height - 100) / 5 := by
  unfold hGridY
  rw [graphBottom_sub_graphTop,
    Int.tdiv_eq_ediv (mul_nonneg hi (by omega)) (by decide)]
  rfl

/-- The abscissa of vertical gridline `i`, for a surface with non-negative plot width. -/
theorem vGridX_eq (x width i : ℤ) (hw : 90 ≤ width) (hi : 0 ≤ i) :
    vGridX x width i = x + 60 + i * (width - 90) / 10 := by
  unfold vGridX
  rw [graphRight_sub_graphLeft,
    Int.tdiv_eq_ediv (mul_nonneg hi (by omega)) (by decide)]
  rfl

/-- C17 (counterexample). On a 335 x 262 surface (plot 245 x 162) the gaps between
consecutive gridlines are not all equal: horizontal gridlines 1, 2, 3 are 32 and 33 px
apart, vertical gridlines 0, 1, 2 are 24 and 25 px apart. -/
theorem C17_gaps_not_all_equal :
    ((90 : ℤ) ≤ 335 ∧ (100 : ℤ) ≤ 262) ∧
    hGridY 200 262 1 - hGridY 200 262 2 = 32 ∧
    hGridY 200 262 2 - hGridY 200 262 3 = 33 ∧
    vGridX 520 335 1 - vGridX 520 335 0 = 24 ∧
    vGridX 520 335 2 - vGridX 520 335 1 = 25 ∧
    ¬ (∀ i j : ℤ, 0 ≤ i → i < 5 → 0 ≤ j → j < 5 →
        hGridY 200 262 i - hGridY 200 262 (i + 1)
          = hGridY 200 262 j - hGridY 200 262 (j + 1)) := by
  have h1 : hGridY 200 262 1 - hGridY 200 262 2 = 32 := by decide
  have h2 : hGridY 200 262 2 - hGridY 200 262 3 = 33 := by decide
  refine ⟨by decide, h1, h2, by decide, by decide, ?_⟩
  intro h
  have h12 := h 1 2 (by decide) (by decide) (by decide) (by decide)
  have e1 : (1 : ℤ) + 1 = 2 := rfl
  have e2 : (2 : ℤ) + 1 = 3 := rfl
  rw [e1, e2, h1, h2] at h12
  exact absurd h12 (by decide)

/-- C17 (amended). For every surface with `width ≥ 90` and `height ≥ 100`, the first and
last horizontal gridlines lie at `graphBottom` and `graphTop`, the first and last vertical
gridlines at `graphLeft` and `graphRight`, and gridline `i` lies at
`graphBottom - i * plotHeight / 5`, respectively `graphLeft + i * plotWidth / 10` (integer
division). The gap between consecutive gridlines is the integer quotient `plotHeight / 5`
(respectively `plotWidth / 10`) or one pixel more; the gaps are all equal when 5 divides
`plotHeight` (respectively 10 divides `plotWidth`). -/
theorem C17_gridline_spacing (x y width height : ℤ) (hw : 90 ≤ width) (hh : 100 ≤ height) :
    hGridY y height 0 = graphBottom y height ∧
    hGridY y height 5 = graphTop y ∧
    vGridX x width 0 = graphLeft x ∧
    vGridX x width 10 = graphRight x width ∧
    (∀ i : ℤ, 0 ≤ i → i < 5 →
      (height - 100) / 5 ≤ hGridY y height i - hGridY y height (i + 1) ∧
      hGridY y height i - hGridY y height (i + 1) ≤ (height - 100) / 5 + 1) ∧
    (∀ i : ℤ, 0 ≤ i → i < 10 →
      (width - 90) / 10 ≤ vGridX x width (i + 1) - vGridX x width i ∧
      vGridX x width (i + 1) - vGridX x width i ≤ (width - 90) / 10 + 1) ∧
    (5 ∣ height - 100 → ∀ i : ℤ, 0 ≤ i → i < 5 →
      hGridY y height i - hGridY y height (i + 1) = (height - 100) / 5) ∧
    (10 ∣ width - 90 → ∀ i : ℤ, 0 ≤ i → i < 10 →
      vGridX x width (i + 1) - vGridX x width i = (width - 90) / 10) := by
  refine ⟨?_, ?_, ?_, ?_, ?_, ?_, ?_, ?_⟩
  · rw [hGridY_eq y height 0 hh (by decide)]
    unfold graphBottom
    omega
  · rw [hGridY_eq y height 5 hh (by decide)]
    unfold graphTop
    omega
  · rw [vGridX_eq x width 0 hw (by decide)]
    unfold graphLeft
    omega
  · rw [vGridX_eq x width 10 hw (by decide)]
    unfold graphRight
    omega
  · intro i h0 h5
    rw [hGridY_eq y height i hh h0, hGridY_eq y height (i + 1) hh (by omega)]
    interval_cases i <;> omega
  · intro i h0 h10
    rw [vGridX_eq x width i hw h0, vGridX_eq x width (i + 1) hw (by omega)]
    interval_cases i <;> omega
  · intro hd i h0 h5
    rw [hGridY_eq y height i hh h0, hGridY_eq y height (i + 1) hh (by omega)]
    interval_cases i <;> omega
  · intro hd i h0 h10
    rw [vGridX_eq x width i hw h0, vGridX_eq x width (i + 1) hw (by omega)]
    interval_cases i <;> omega

/-- C17 (witness): on the 330 x 260 surface at (520, 200) the plot is 240 x 160, and the
gaps are exactly 32 px and 24 px. -/
theorem C17_gridline_spacing_witness :
    ((90 : ℤ) ≤ 330 ∧ (100 : ℤ) ≤ 260 ∧ (5 : ℤ) ∣ 260 - 100 ∧ (10 : ℤ) ∣ 330 - 90) ∧
    (hGridY 200 260 3 - hGridY 200 260 (3 + 1) = (260 - 100) / 5 ∧
      ((260 : ℤ) - 100) / 5 = 32) ∧
    (vGridX 520 330 (7 + 1) - vGridX 520 330 7 = (330 - 90) / 10 ∧
      ((330 : ℤ) - 90) / 10 = 24) :=
  ⟨by decide,
   ⟨(C17_gridline_spacing 520 200 330 260 (by decide) (by decide)).2.2.2.2.2.2.1
      (by decide) 3 (by decide) (by decide), by decide⟩,
   ⟨(C17_gridline_spacing 520 200 330 260 (by decide) (by decide)).2.2.2.2.2.2.2
      (by decide) 7 (by decide) (by decide), by decide⟩⟩

/-! ## The rotated axis label -/

/-- The conversion of `y + height / 1.5 + c` to `LONG`, when the value is non-negative. -/
theorem truncToInt_two_thirds (y height c : ℤ) (h : 0 ≤ 3 * y + 2 * height + 3 * c) :
    truncToInt ((y : ℚ) + (height : ℚ) / 1.5 + (c : ℚ)) = y + 2 * height / 3 + c := by
  have hrew : (y : ℚ) + (height : ℚ) / 1.5 + (c : ℚ)
      = ((3 * y + 2 * height + 3 * c : ℤ) : ℚ) / ((3 : ℕ) : ℚ) := by
    push_cast
    norm_num
    ring
  have h0 : (0 : ℚ) ≤ ((3 * y + 2 * height + 3 * c : ℤ) : ℚ) / ((3 : ℕ) : ℚ) := by
    apply div_nonneg
    · exact_mod_cast h
    · norm_num
  rw [hrew, truncToInt_of_nonneg h0, Rat.floor_intCast_div_natCast]
  have h3 : ((3 : ℕ) : ℤ) = 3 := rfl
  rw [h3]
  omega

/-- The histogram's label rectangle on a surface with `y ≥ 0` and `height ≥ 120`. -/
theorem Histogram.vertRect_eq (x y height : ℤ) (hy : 0 ≤ y) (hh : 120 ≤ height) :
    Histogram.vertRect x y height =
      { left := x + 1, top := y + 2 * height / 3 - 80,
        right := x + 108, bottom := y + 2 * height / 3 + 80 } := by
  have ht := truncToInt_two_thirds y height (-80) (by omega)
  have hb := truncToInt_two_thirds y height 80 (by omega)
  have e1 : (y : ℚ) + (height : ℚ) / 1.5 - 80 = (y : ℚ) + (height : ℚ) / 1.5 + ((-80 : ℤ) : ℚ) := by
    push_cast
    ring
  have e2 : (y : ℚ) + (height : ℚ) / 1.5 + 80 = (y : ℚ) + (height : ℚ) / 1.5 + ((80 : ℤ) : ℚ) := by
    push_cast
    ring
  unfold Histogram.vertRect
  rw [e1, e2, ht, hb]
  rfl

/-- C18 (counterexample). On the 330 x 260 surfaces of `WM_PAINT` (vertical centre
`200 + 260 / 2 = 330`) the rectangle of the rotated label is `{521, 293, 628, 453}` for the
histogram, with vertical midpoint 373, and `{875, 250, 1029, 545}` for the curve, with
vertical midpoint 397.5: neither has `top + bottom = 2 * y + height`. -/
theorem C18_label_not_centred :
    Histogram.vertRect 520 200 260 = { left := 521, top := 293, right := 628, bottom := 453 } ∧
    Cumulative.vertRect 870 200 260 = { left := 875, top := 250, right := 1029, bottom := 545 } ∧
    (Histogram.vertRect 520 200 260).top + (Histogram.vertRect 520 200 260).bottom
      ≠ 2 * 200 + 260 ∧
    (Cumulative.vertRect 870 200 260).top + (Cumulative.vertRect 870 200 260).bottom
      ≠ 2 * 200 + 260 := by
  have hh : Histogram.vertRect 520 200 260 =
      { left := 521, top := 293, right := 628, bottom := 453 } := by
    rw [Histogram.vertRect_eq 520 200 260 (by decide) (by decide)]
    decide
  have hc : Cumulative.vertRect 870 200 260 =
      { left := 875, top := 250, right := 1029, bottom := 545 } := by
    decide
  refine ⟨hh, hc, ?_, ?_⟩
  · rw [hh]
    decide
  · rw [hc]
    decide

/-- C18 (amended). The rectangle of the rotated label is not centred on the surface. For
the curve, on every surface, it is `{x + 5, y + height - 210, x + 159, y + height + 85}`:
its vertical midpoint is `y + height - 62.5`, which is the surface's centre only for
`height = 125`. For the histogram, on every surface with `y ≥ 0` and `height ≥ 120`, it is
`{x + 1, y + 2 * height / 3 - 80, x + 108, y + 2 * height / 3 + 80}` (integer division):
160 px tall with vertical midpoint `y + 2 * height / 3`, below the surface's centre. Both
rectangles start at the left edge of the surface (1 and 5 px in) and end 108 and 159 px
from it. -/
theorem C18_label_rectangles (x y height : ℤ) :
    (Cumulative.vertRect x y height =
        { left := x + 5, top := y + height - 210, right := x + 159, bottom := y + height + 85 } ∧
      (Cumulative.vertRect x y height).top + (Cumulative.vertRect x y height).bottom
        = 2 * (y + height) - 125 ∧
      ((Cumulative.vertRect x y height).top + (Cumulative.vertRect x y height).bottom
        = 2 * y + height ↔ height = 125)) ∧
    (0 ≤ y → 120 ≤ height →
      Histogram.vertRect x y height =
        { left := x + 1, top := y + 2 * height / 3 - 80,
          right := x + 108, bottom := y + 2 * height / 3 + 80 } ∧
      (Histogram.vertRect x y height).top + (Histogram.vertRect x y height).bottom
        = 2 * (y + 2 * height / 3) ∧
      2 * y + height
        < (Histogram.vertRect x y height).top + (Histogram.vertRect x y height).bottom) := by
  have hC : Cumulative.vertRect x y height =
      { left := x + 5, top := y + height - 210, right := x + 159, bottom := y + height + 85 } := by
    simp [Cumulative.vertRect]
  refine ⟨⟨hC, ?_, ?_⟩, fun hy hh => ?_⟩
  · rw [hC]
    show y + height - 210 + (y + height + 85) = 2 * (y + height) - 125
    ring
  · rw [hC]
    show y + height - 210 + (y + height + 85) = 2 * y + height ↔ height = 125
    omega
  · have hH := Histogram.vertRect_eq x y height hy hh
    refine ⟨hH, ?_, ?_⟩
    · rw [hH]
      show y + 2 * height / 3 - 80 + (y + 2 * height / 3 + 80) = 2 * (y + 2 * height / 3)
      ring
    · rw [hH]
      show 2 * y + height < y + 2 * height / 3 - 80 + (y + 2 * height / 3 + 80)
      omega

/-- C18 (witness): the 260-high surfaces at `y = 200` that `WM_PAINT` passes. -/
theorem C18_label_rectangles_witness :
    ((0 : ℤ) ≤ 200 ∧ (120 : ℤ) ≤ 260) ∧
    (Histogram.vertRect 520 200 260 =
      { left := 520 + 1, top := 200 + 2 * 260 / 3 - 80,
        right := 520 + 108, bottom := 200 + 2 * 260 / 3 + 80 } ∧
    (Histogram.vertRect 520 200 260).top + (Histogram.vertRect 520 200 260).bottom
      = 2 * (200 + 2 * 260 / 3) ∧
    2 * 200 + 260
      < (Histogram.vertRect 520 200 260).top + (Histogram.vertRect 520 200 260).bottom) ∧
    (Cumulative.vertRect 870 200 260 =
      { left := 870 + 5, top := 200 + 260 - 210, right := 870 + 159, bottom := 200 + 260 + 85 } ∧
    (Cumulative.vertRect 870 200 260).top + (Cumulative.vertRect 870 200 260).bottom
      = 2 * (200 + 260) - 125 ∧
    ((Cumulative.vertRect 870 200 260).top + (Cumulative.vertRect 870 200 260).bottom
      = 2 * 200 + 260 ↔ (260 : ℤ) = 125)) :=
  ⟨by decide, (C18_label_rectangles 520 200 260).2 (by decide) (by decide),
   (C18_label_rectangles 870 200 260).1⟩

/-! ## The button workflow -/

/-- A possible click preserves the workflow invariant. -/
theorem clickStep_preserves_inv (s s1 : AppState) (c : Click) (hs : s.workflowInv)
    (hc : clickStep s c = some s1) : s1.workflowInv := by
  obtain ⟨id, chosen⟩ := c
  obtain ⟨u, a, sv, r, f, t, path, img⟩ := s
  unfold clickStep at hc
  split at hc
  · rename_i hp
    simp only [Option.some.injEq] at hc
    subst hc
    simp only [Click.possible, Bool.and_eq_true, bne_iff_ne, ne_eq] at hp
    obtain ⟨hen, hch⟩ := hp
    simp only [AppState.workflowInv] at hs ⊢
    rcases id with _ | _ | _ | _ | _ | _ | _ | n
    · simp [buttonEnabled] at hen
    · cases chosen with
      | none => simpa [wmCommand] using hs
      | some szFile =>
        have hne : szFile ≠ "" := fun h => hch (by rw [h])
        simp only [wmCommand, ShowImage]
        refine ⟨hs.1, fun h => ⟨trivial, (hs.2.1 h).2⟩, fun _ => ⟨hne, trivial⟩⟩
    · simp only [buttonEnabled] at hen
      simp only [wmCommand, DoAnalysis]
      exact ⟨trivial, fun _ => ⟨hen, trivial⟩, hs.2.2⟩
    · simpa [wmCommand] using hs
    · simp [wmCommand]
    · simp only [wmCommand]
      exact ⟨hs.1, fun h => ⟨(hs.2.1 h).1, trivial⟩, hs.2.2⟩
    · simpa [wmCommand] using hs
    · simp [buttonEnabled] at hen
  · exact absurd hc (by simp)

/-- Every run of possible clicks preserves the workflow invariant. -/
theorem clickRun_preserves_inv (cs : List Click) (s s1 : AppState) (hs : s.workflowInv)
    (hr : clickRun s cs = some s1) : s1.workflowInv := by
  induction cs generalizing s with
  | nil =>
    simp only [clickRun, Option.some.injEq] at hr
    exact hr ▸ hs
  | cons c rest ih =>
    simp only [clickRun] at hr
    cases hstep : clickStep s c with
    | none => simp [hstep] at hr
    | some s2 =>
      rw [hstep] at hr
      exact ih s2 (clickStep_preserves_inv s s2 c hs hstep) hr

/-- C19. In every state reachable from the state created by `WM_CREATE` by clicks on
currently enabled buttons (an Upload click either picks a file, with a non-empty path, or
is cancelled), Save is enabled if and only if Restart is enabled, and whenever Save is
enabled, Analyze and Tag are enabled too and an image has been uploaded (`imagePath` is
non-empty and `uploadedImage` is non-null). -/
theorem C19_workflow_invariant (cs : List Click) (s : AppState)
    (hr : clickRun wmCreate cs = some s) :
    (s.saveEnabled = true ↔ s.restartEnabled = true) ∧
    (s.saveEnabled = true →
      s.analyzeEnabled = true ∧ s.tagEnabled = true ∧
      s.imagePath ≠ "" ∧ s.uploadedImage = true) := by
  have h0 : wmCreate.workflowInv := by decide
  obtain ⟨h1, h2, h3⟩ := clickRun_preserves_inv cs wmCreate s h0 hr
  refine ⟨by rw [h1], fun h => ?_⟩
  obtain ⟨ha, ht⟩ := h2 h
  exact ⟨ha, ht, h3 ha⟩

/-- C19 (witness): Upload of `sample.jpg`, then Analyze, leads to the state in which WM_PAINT
draws the charts. -/
theorem C19_workflow_invariant_witness :
    clickRun wmCreate [{ id := 1, chosen := some "sample.jpg" }, { id := 2, chosen := none }]
      = some { uploadEnabled := true, analyzeEnabled := true, saveEnabled := true,
               restartEnabled := true, fetchLocEnabled := true, tagEnabled := true,
               imagePath := "sample.jpg", uploadedImage := true } ∧
    (((true : Bool) = true ↔ (true : Bool) = true) ∧
     ((true : Bool) = true →
       (true : Bool) = true ∧ (true : Bool) = true ∧
       "sample.jpg" ≠ "" ∧ (true : Bool) = true)) :=
  ⟨by decide,
   C19_workflow_invariant
     [{ id := 1, chosen := some "sample.jpg" }, { id := 2, chosen := none }]
     { uploadEnabled := true, analyzeEnabled := true, saveEnabled := true,
       restartEnabled := true, fetchLocEnabled := true, tagEnabled := true,
       imagePath := "sample.jpg", uploadedImage := true } (by decide)⟩

/-! ## Button colours -/

/-- C20. The colours chosen by `DrawModernButton` depend only on the window's enabled
state and on `isHovered` and `isPressed`: two buttons that agree on these two flags (and
so, in particular, two that differ only in `isAccent` and `alwaysGreen`) get the same
colours. A disabled button gets `(BUTTON_BG, RGB(80,80,80), RGB(120,120,120))` whatever
its flags; an enabled button gets border `TAG_GREEN`, white text, and background
`TAG_GREEN_ACTIVE` if pressed, else `TAG_GREEN_HOVER` if hovered, else `TAG_GREEN`. -/
theorem C20_button_colours (windowEnabled : Bool) (b1 b2 : CustomButton)
    (hhov : b1.isHovered = b2.isHovered) (hpr : b1.isPressed = b2.isPressed) :
    DrawModernButton.colors windowEnabled b1 = DrawModernButton.colors windowEnabled b2 ∧
    DrawModernButton.colors false b1 =
      { bgColor := BUTTON_BG, borderColor := RGB 80 80 80, textColor := RGB 120 120 120 } ∧
    DrawModernButton.colors true b1 =
      { bgColor :=
          if b1.isPressed = true then TAG_GREEN_ACTIVE
          else if b1.isHovered = true then TAG_GREEN_HOVER
          else TAG_GREEN,
        borderColor := TAG_GREEN,
        textColor := RGB 255 255 255 } := by
  refine ⟨?_, ?_, ?_⟩
  · simp only [DrawModernButton.colors, hhov, hpr]
  · simp [DrawModernButton.colors]
  · simp [DrawModernButton.colors]

/-- C20 (witness): one button registered plain and once more with `isAccent` and
`alwaysGreen` set. -/
theorem C20_button_colours_witness :
    ((RegisterButton 1 10 false false).isHovered = (RegisterButton 1 10 true true).isHovered ∧
     (RegisterButton 1 10 false false).isPressed = (RegisterButton 1 10 true true).isPressed) ∧
    (DrawModernButton.colors true (RegisterButton 1 10 false false)
      = DrawModernButton.colors true (RegisterButton 1 10 true true) ∧
    DrawModernButton.colors false (RegisterButton 1 10 false false) =
      { bgColor := BUTTON_BG, borderColor := RGB 80 80 80, textColor := RGB 120 120 120 } ∧
    DrawModernButton.colors true (RegisterButton 1 10 false false) =
      { bgColor :=
          if (RegisterButton 1 10 false false).isPressed = true then TAG_GREEN_ACTIVE
          else if (RegisterButton 1 10 false false).isHovered = true then TAG_GREEN_HOVER
          else TAG_GREEN,
        borderColor := TAG_GREEN,
        textColor := RGB 255 255 255 }) :=
  ⟨⟨rfl, rfl⟩, C20_button_colours true (RegisterButton 1 10 false false)
    (RegisterButton 1 10 true true) rfl rfl⟩

end GrainEye
